import Mathlib

/-!
# RTCPilot: the room-scoped media plane

A shallow embedding of `src/webrtc_room` (Room controller, MediaPusher,
MediaPuller, RtcRecvRelay, RtcSendRelay and the `rtc_info.hpp` data types).

* `std::map<K, V>` is a key-ordered association list; `operator[]=` is `minsert`,
  `emplace` is `memplace`, `find` is `mfind`, `erase(key)` is `merase`.
* `nlohmann::json` is the inductive type `Json`; objects keep their keys ordered.
* Calls that leave the Room (response callbacks, notifications, pilot requests,
  `MediaPuller::OnTransportSendRtp`, `RtcSendRelay::SendRtpPacket`, key-frame
  requests) are recorded, in call order, as a list of `Event`s returned next
  to the new state. Logging and the event-log sinks are omitted.
* `now_millisec()` is the parameter `now` of every operation.
* A `shared_ptr<RtcRecvRelay>` is a handle into `Room.recv_relay_heap_`, since the
  same relay object is reachable from two tables.
-/

namespace RTCPilot

/-! ## std::map -/

/-- The order in which a `std::map` keeps its keys (`std::less`). -/
class KeyLt (κ : Type) where
  lt : κ → κ → Bool

/-- The order of `std::string`: lexicographic on the characters. -/
instance : KeyLt String := ⟨fun a b => decide (a.data < b.data)⟩

/-- The order of `uint32_t`. -/
instance : KeyLt Nat := ⟨fun a b => decide (a < b)⟩

section MapOps

variable {κ : Type} {V : Type} [DecidableEq κ] [KeyLt κ]

/-- The value stored under `k` (`std::map::find`), `none` for `end()`. -/
def mfind : List (κ × V) → κ → Option V
  | [], _ => none
  | (k', v) :: rest, k => if k' = k then some v else mfind rest k

/-- Whether `find(k) != end()`. -/
def mcontains (m : List (κ × V)) (k : κ) : Bool := (mfind m k).isSome

/-- The assignment `m[k] = v`: overwrite the entry of `k`, or add one at its place in key order. -/
def minsert : List (κ × V) → κ → V → List (κ × V)
  | [], k, v => [(k, v)]
  | (k', v') :: rest, k, v =>
    if k' = k then (k, v) :: rest
    else if KeyLt.lt k k' then (k, v) :: (k', v') :: rest
    else (k', v') :: minsert rest k v

/-- The call `m.emplace(k, v)`: add the entry unless `k` is already a key. -/
def memplace (m : List (κ × V)) (k : κ) (v : V) : List (κ × V) :=
  if mcontains m k then m else minsert m k v

/-- The call `m.erase(k)`. -/
def merase (m : List (κ × V)) (k : κ) : List (κ × V) :=
  m.filter (fun p => !decide (p.1 = k))

/-- The keys of the map, in iteration order. -/
def mkeys (m : List (κ × V)) : List κ := m.map Prod.fst

/-- A call through the pointer found under `k` that changes the object in place
    (`it->second->F()`); nothing happens when `k` is no key. -/
def mmodify : List (κ × V) → κ → (V → V) → List (κ × V)
  | [], _, _ => []
  | (k', v) :: rest, k, f => if k' = k then (k', f v) :: rest else (k', v) :: mmodify rest k f

end MapOps

/-- A `std::map<std::string, V>`. -/
abbrev StrMap (V : Type) := List (String × V)

/-- A `std::map<uint32_t, V>`. -/
abbrev U32Map (V : Type) := List (Nat × V)

/-! ## nlohmann::json -/

/-- A JSON value; numbers are integers (the code stores no floating point number). -/
inductive Json where
  | null
  | bool (b : Bool)
  | num (n : Int)
  | str (s : String)
  | arr (xs : List Json)
  | obj (kvs : List (String × Json))

namespace Json

/-- The assignment `j[k] = v` on an object (a null value becomes an object first).
    On any other value nlohmann throws; no caller in the sources does that. -/
def set (j : Json) (k : String) (v : Json) : Json :=
  match j with
  | obj kvs => obj (minsert kvs k v)
  | null => obj [(k, v)]
  | other => other

/-- The call `j.push_back(v)` on an array (a null value becomes an array first). -/
def push_back (j : Json) (v : Json) : Json :=
  match j with
  | arr xs => arr (xs ++ [v])
  | null => arr [v]
  | other => other

/-- The lookup `j.find(k)`; `none` is `end()`, also for a value that is no object. -/
def find (j : Json) (k : String) : Option Json :=
  match j with
  | obj kvs => mfind kvs k
  | _ => none

/-- The statement `j[k].push_back(v)`. -/
def push_back_at (j : Json) (k : String) (v : Json) : Json :=
  j.set k (((j.find k).getD null).push_back v)

/-- The elements visited by `for (auto& x : j)`: those of an array, the values of an
    object, nothing for null, the value itself for any other value. -/
def iter (j : Json) : List Json :=
  match j with
  | arr xs => xs
  | obj kvs => kvs.map Prod.snd
  | null => []
  | other => [other]

/-- The test `j.is_object()`. -/
def is_object (j : Json) : Bool :=
  match j with
  | obj _ => true
  | _ => false

/-- The test `j.is_array()`. -/
def is_array (j : Json) : Bool :=
  match j with
  | arr _ => true
  | _ => false

/-- The test `j.empty()`. -/
def empty (j : Json) : Bool :=
  match j with
  | null => true
  | arr xs => xs.isEmpty
  | obj kvs => kvs.isEmpty
  | _ => false

/-- The conversion `j.get<std::string>()`; `none` stands for the thrown type error. -/
def get_string (j : Json) : Option String :=
  match j with
  | str s => some s
  | _ => none

/-- The conversion `j.get<bool>()`. -/
def get_bool (j : Json) : Option Bool :=
  match j with
  | bool b => some b
  | _ => none

/-- The conversion to an arithmetic type other than the library's own number types:
    numbers and booleans are accepted, then cast. -/
def get_number (j : Json) : Option Int :=
  match j with
  | num n => some n
  | bool b => some (if b then 1 else 0)
  | _ => none

/-- The conversion `j.get<uint32_t>()`. -/
def get_uint32 (j : Json) : Option Nat := (get_number j).map (fun n => (n % 4294967296).toNat)

/-- The conversion `j.get<uint8_t>()`. -/
def get_uint8 (j : Json) : Option Nat := (get_number j).map (fun n => (n % 256).toNat)

/-- The conversion `j.get<int>()`. -/
def get_int (j : Json) : Option Int :=
  (get_number j).map (fun n => (n + 2147483648) % 4294967296 - 2147483648)

/-- The access `j[k]` followed by a conversion: the key must be there. -/
def get (j : Json) (k : String) : Option Json :=
  match j with
  | obj kvs => mfind kvs k
  | _ => none

end Json

/-! ## rtc_info.hpp -/

/-- The media kinds of `utils/av/av.hpp` that the room code distinguishes. -/
inductive MEDIA_PKT_TYPE where
  | MEDIA_UNKNOWN_TYPE
  | MEDIA_VIDEO_TYPE
  | MEDIA_AUDIO_TYPE
  deriving DecidableEq, Repr

open MEDIA_PKT_TYPE

/-- Modelled from the spec: `avtype_tostring` of `utils/av/av.hpp` is not among the
    sources; the schema names the strings "audio" and "video". -/
def avtype_tostring (t : MEDIA_PKT_TYPE) : String :=
  match t with
  | MEDIA_VIDEO_TYPE => "video"
  | MEDIA_AUDIO_TYPE => "audio"
  | MEDIA_UNKNOWN_TYPE => "unknown"

/-- The class `RtpSessionParam` with its default member initialisers. -/
structure RtpSessionParam where
  av_type_ : MEDIA_PKT_TYPE := MEDIA_UNKNOWN_TYPE
  mid_ : Int := -1
  ssrc_ : Nat := 0
  payload_type_ : Nat := 0
  channel_ : Int := 0
  clock_rate_ : Nat := 90000
  rtx_ssrc_ : Nat := 0
  rtx_payload_type_ : Nat := 0
  use_nack_ : Bool := false
  key_request_ : Bool := false
  mid_ext_id_ : Int := -1
  tcc_ext_id_ : Int := -1
  abs_send_time_ext_id_ : Int := -1
  codec_name_ : String := ""
  fmtp_param_ : String := ""
  rtcp_features_ : List String := []
  deriving DecidableEq, Repr

namespace RtpSessionParam

/-- The method `Dump(json& ret_json)`. -/
def Dump (p : RtpSessionParam) (ret_json : Json) : Json :=
  let j := ret_json.set "av_type" (.str (avtype_tostring p.av_type_))
  let j := j.set "codec" (.str p.codec_name_)
  let j := j.set "fmtp_param" (.str p.fmtp_param_)
  let j := j.set "rtcp_features" (.arr [])
  let j := p.rtcp_features_.foldl (fun acc feature => acc.push_back_at "rtcp_features" (.str feature)) j
  let j := if p.channel_ > 0 then j.set "channel" (.num p.channel_) else j
  let j := j.set "ssrc" (.num p.ssrc_)
  let j := j.set "payload_type" (.num p.payload_type_)
  let j := j.set "clock_rate" (.num p.clock_rate_)
  let j := j.set "rtx_ssrc" (.num p.rtx_ssrc_)
  let j := j.set "rtx_payload_type" (.num p.rtx_payload_type_)
  let j := j.set "use_nack" (.bool p.use_nack_)
  let j := if p.key_request_ then j.set "key_request" (.bool p.key_request_) else j
  let j := if p.mid_ext_id_ > 0 then j.set "mid_ext_id" (.num p.mid_ext_id_) else j
  let j := if p.tcc_ext_id_ > 0 then j.set "tcc_ext_id" (.num p.tcc_ext_id_) else j
  let j := if p.abs_send_time_ext_id_ > 0 then
    j.set "abs_send_time_ext_id" (.num p.abs_send_time_ext_id_) else j
  j

/-- The loop `for (const auto& feature : j["rtcp_features"])` with its `push_back`;
    `none` stands for the exception thrown by a feature that is no string. -/
def FromJson_features : List Json → List String → Option (List String)
  | [], acc => some acc
  | feature :: rest, acc =>
    match feature.get_string with
    | some s => FromJson_features rest (acc ++ [s])
    | none => none

/-- The method `FromJson(const json& j)`; `none` stands for an exception thrown by a
    missing key or a value of the wrong type. -/
def FromJson (p : RtpSessionParam) (j : Json) : Option RtpSessionParam :=
  match (j.get "av_type").bind Json.get_string with
  | none => none
  | some avtype_str =>
  let p := { p with av_type_ :=
    if avtype_str = "video" then MEDIA_VIDEO_TYPE
    else if avtype_str = "audio" then MEDIA_AUDIO_TYPE
    else MEDIA_UNKNOWN_TYPE }
  match (j.get "codec").bind Json.get_string with
  | none => none
  | some codec_name =>
  let p := { p with codec_name_ := codec_name }
  match (j.get "fmtp_param").bind Json.get_string with
  | none => none
  | some fmtp_param =>
  let p := { p with fmtp_param_ := fmtp_param }
  match (j.get "rtcp_features").bind (fun features => FromJson_features features.iter []) with
  | none => none
  | some rtcp_features =>
  let p := { p with rtcp_features_ := rtcp_features }
  match (match j.find "channel" with
    | some c => c.get_int
    | none => some p.channel_) with
  | none => none
  | some channel =>
  let p := { p with channel_ := channel }
  match (j.get "ssrc").bind Json.get_uint32 with
  | none => none
  | some ssrc =>
  let p := { p with ssrc_ := ssrc }
  match (j.get "payload_type").bind Json.get_uint8 with
  | none => none
  | some payload_type =>
  let p := { p with payload_type_ := payload_type }
  match (j.get "clock_rate").bind Json.get_uint32 with
  | none => none
  | some clock_rate =>
  let p := { p with clock_rate_ := clock_rate }
  match (j.get "rtx_ssrc").bind Json.get_uint32 with
  | none => none
  | some rtx_ssrc =>
  let p := { p with rtx_ssrc_ := rtx_ssrc }
  match (j.get "rtx_payload_type").bind Json.get_uint8 with
  | none => none
  | some rtx_payload_type =>
  let p := { p with rtx_payload_type_ := rtx_payload_type }
  match (j.get "use_nack").bind Json.get_bool with
  | none => none
  | some use_nack =>
  let p := { p with use_nack_ := use_nack }
  match (match j.find "key_request" with
    | some c => c.get_bool
    | none => some p.key_request_) with
  | none => none
  | some key_request =>
  let p := { p with key_request_ := key_request }
  match (match j.find "mid_ext_id" with
    | some c => c.get_int
    | none => some p.mid_ext_id_) with
  | none => none
  | some mid_ext_id =>
  let p := { p with mid_ext_id_ := mid_ext_id }
  match (match j.find "tcc_ext_id" with
    | some c => c.get_int
    | none => some p.tcc_ext_id_) with
  | none => none
  | some tcc_ext_id =>
  let p := { p with tcc_ext_id_ := tcc_ext_id }
  match (match j.find "abs_send_time_ext_id" with
    | some c => c.get_int
    | none => some p.abs_send_time_ext_id_) with
  | none => none
  | some abs_send_time_ext_id =>
  some { p with abs_send_time_ext_id_ := abs_send_time_ext_id }

end RtpSessionParam

/-- The class `PushInfo`. -/
structure PushInfo where
  pusher_id_ : String := ""
  param_ : RtpSessionParam := {}
  deriving DecidableEq, Repr

namespace PushInfo

/-- The method `DumpJson(json& j)`. -/
def DumpJson (pi : PushInfo) (j : Json) : Json :=
  let j := j.set "pusherId" (.str pi.pusher_id_)
  let rtp_param_json := pi.param_.Dump (.obj [])
  j.set "rtpParam" rtp_param_json

end PushInfo

/-- The class `PullRequestInfo`. -/
structure PullRequestInfo where
  target_user_id_ : String := ""
  src_user_id_ : String := ""
  room_id_ : String := ""
  pushers_ : List PushInfo := []
  deriving DecidableEq, Repr

/-! ## The objects a Room holds -/

/-- A non-null `ProtooResponseI*`: the signaling channel of one connection. -/
abbrev RespCb := Nat

/-- Modelled from the spec: the class `RtcUser` (`rtc_user.hpp` is not among the sources),
    "identity, liveness, and a mapping from pusher_id to PushInfo", with "the
    response-callback slot cleared on leave/disconnect" (`none` is the null pointer). -/
structure RtcUser where
  room_id_ : String
  user_id_ : String
  user_name_ : String
  resp_cb_ : Option RespCb
  remote_ : Bool := false
  last_heartbeat_ms_ : Int
  pushers_ : StrMap PushInfo := []
  deriving DecidableEq, Repr

namespace RtcUser

/-- Modelled from the spec: the constructor `RtcUser(room_id, user_id, user_name, resp_cb, logger)`;
    a new user is local, has no pusher and was last heard of now. -/
def create (room_id user_id user_name : String) (resp_cb : Option RespCb) (now : Int) : RtcUser :=
  { room_id_ := room_id, user_id_ := user_id, user_name_ := user_name, resp_cb_ := resp_cb,
    remote_ := false, last_heartbeat_ms_ := now, pushers_ := [] }

/-- Modelled from the spec: `SetRemote`. -/
def SetRemote (u : RtcUser) (b : Bool) : RtcUser := { u with remote_ := b }

/-- Modelled from the spec: `SetRespCb`. -/
def SetRespCb (u : RtcUser) (cb : Option RespCb) : RtcUser := { u with resp_cb_ := cb }

/-- Modelled from the spec: `UpdateHeartbeat`. -/
def UpdateHeartbeat (u : RtcUser) (now : Int) : RtcUser := { u with last_heartbeat_ms_ := now }

/-- Modelled from the spec: `IsAlive`, "40 s window": the user is dead once the last
    heartbeat is more than 40 s old. -/
def IsAlive (u : RtcUser) (now : Int) : Bool := decide (now - u.last_heartbeat_ms_ ≤ 40000)

/-- Modelled from the spec: `AddPusher(pusher_id, push_info)`. -/
def AddPusher (u : RtcUser) (pusher_id : String) (push_info : PushInfo) : RtcUser :=
  { u with pushers_ := minsert u.pushers_ pusher_id push_info }

/-- Modelled from the spec: `GetPusher(pusher_id, out)`; `none` is the result `false`. -/
def GetPusher (u : RtcUser) (pusher_id : String) : Option PushInfo := mfind u.pushers_ pusher_id

end RtcUser

/-- A send or receive RTP session, known to its owner by the parameters it was built from. -/
structure RtpSession where
  param_ : RtpSessionParam
  deriving DecidableEq, Repr

/-- The members of `MediaPusher`: those its constructor sets, the session tables filled by
    `CreateRtpRecvSession`, and the two timestamps of `OnTimer`. `media_pusher.hpp` is not
    among the sources: the timestamps are taken to start at -1, the value `OnTimer` tests
    for as unset. -/
structure MediaPusher where
  param_ : RtpSessionParam
  room_id_ : String
  user_id_ : String
  session_id_ : String
  pusher_id_ : String
  media_type_ : MEDIA_PKT_TYPE
  ssrc2sessions_ : U32Map RtpSession := []
  rtxssrc2sessions_ : U32Map RtpSession := []
  last_statics_ms_ : Int := -1
  last_keyframe_request_ms_ : Int := -1
  deriving DecidableEq, Repr

/-- The constructor of `MediaPusher`; `uuid` is the value of `UUID::MakeUUID2()`. -/
def MediaPusher.create (param : RtpSessionParam) (room_id user_id session_id uuid : String) :
    MediaPusher :=
  { param_ := param, room_id_ := room_id, user_id_ := user_id, session_id_ := session_id,
    pusher_id_ := uuid, media_type_ := param.av_type_ }

/-- The members of `MediaPuller`: those its constructor sets and the timestamp of
    `OnTimer`. `media_puller.hpp` is not among the sources: the timestamp is taken to
    start at -1, a value `OnTimer` tests for as unset. -/
structure MediaPuller where
  param_ : RtpSessionParam
  room_id_ : String
  puller_user_id_ : String
  pusher_user_id_ : String
  pusher_id_ : String
  session_id_ : String
  puller_id_ : String
  last_statics_ms_ : Int := -1
  deriving DecidableEq, Repr

/-- The constructor of `MediaPuller`; `uuid` is the value of `UUID::MakeUUID2()`. -/
def MediaPuller.create (param : RtpSessionParam)
    (room_id puller_user_id pusher_user_id pusher_id session_id uuid : String) : MediaPuller :=
  { param_ := param, room_id_ := room_id, puller_user_id_ := puller_user_id,
    pusher_user_id_ := pusher_user_id, pusher_id_ := pusher_id, session_id_ := session_id,
    puller_id_ := uuid }

/-- A UDP endpoint (`UdpTuple`). -/
structure UdpTuple where
  ip_address : String := ""
  port : Nat := 0
  deriving DecidableEq, Repr

/-- The members of `RtcSendRelay`. -/
structure RtcSendRelay where
  room_id_ : String
  pusher_user_id_ : String
  remote_ip_ : String
  remote_port_ : Nat
  udp_listen_ip_ : String
  udp_listen_port_ : Nat
  push_infos_ : StrMap PushInfo := []
  ssrc2send_session_ : U32Map RtpSession := []
  rtx_ssrc2send_session_ : U32Map RtpSession := []
  last_alive_ms_ : Int := -1
  send_discard_percent_ : Nat := 0
  last_statics_ms_ : Int := 0
  deriving DecidableEq, Repr

/-- The relay settings read from `Config::Instance().relay_cfg_` and the port handed out
    by `PortGenerator` when a relay is constructed. -/
structure RelayEnv where
  relay_server_ip_ : String := ""
  port : Nat := 0
  send_discard_percent_ : Nat := 0
  recv_discard_percent_ : Nat := 0
  deriving DecidableEq, Repr

namespace RtcSendRelay

/-- The constructor of `RtcSendRelay`. -/
def create (room_id pusher_user_id remote_ip : String) (remote_port : Nat) (env : RelayEnv)
    (now : Int) : RtcSendRelay :=
  { room_id_ := room_id, pusher_user_id_ := pusher_user_id, remote_ip_ := remote_ip,
    remote_port_ := remote_port, udp_listen_ip_ := env.relay_server_ip_,
    udp_listen_port_ := env.port, send_discard_percent_ := env.send_discard_percent_,
    last_alive_ms_ := now }

/-- The method `AddPushInfo`. -/
def AddPushInfo (r : RtcSendRelay) (push_info : PushInfo) : RtcSendRelay :=
  let send_session_ptr : RtpSession := { param_ := push_info.param_ }
  let r := { r with push_infos_ := memplace r.push_infos_ push_info.pusher_id_ push_info }
  let r := { r with
    ssrc2send_session_ := memplace r.ssrc2send_session_ push_info.param_.ssrc_ send_session_ptr }
  if push_info.param_.rtx_ssrc_ ≠ 0 then
    { r with rtx_ssrc2send_session_ :=
        memplace r.rtx_ssrc2send_session_ push_info.param_.rtx_ssrc_ send_session_ptr }
  else r

end RtcSendRelay

/-- The members of `RtcRecvRelay`. -/
structure RtcRecvRelay where
  room_id_ : String
  pusher_user_id_ : String
  push_infos_ : StrMap PushInfo := []
  ssrc2push_infos_ : U32Map PushInfo := []
  ssrc2recv_session_ : U32Map RtpSession := []
  rtx_ssrc2recv_session_ : U32Map RtpSession := []
  udp_port_ : Nat := 0
  listen_ip_ : String := ""
  remote_address_ : UdpTuple := {}
  last_alive_ms_ : Int := -1
  recv_discard_percent_ : Nat := 0
  last_statics_ms_ : Int := -1
  deriving DecidableEq, Repr

namespace RtcRecvRelay

/-- The constructor of `RtcRecvRelay`. -/
def create (room_id pusher_user_id : String) (env : RelayEnv) (now : Int) : RtcRecvRelay :=
  { room_id_ := room_id, pusher_user_id_ := pusher_user_id, udp_port_ := env.port,
    listen_ip_ := env.relay_server_ip_, recv_discard_percent_ := env.recv_discard_percent_,
    last_alive_ms_ := now }

/-- The method `IsAlive`. -/
def IsAlive (r : RtcRecvRelay) (now : Int) : Bool :=
  if now - r.last_alive_ms_ > 40 * 1000 then false else true

/-- The method `AddVirtualPusher`; it returns 0. -/
def AddVirtualPusher (r : RtcRecvRelay) (push_info : PushInfo) : RtcRecvRelay :=
  let r := { r with push_infos_ := memplace r.push_infos_ push_info.pusher_id_ push_info }
  let r := { r with
    ssrc2push_infos_ := memplace r.ssrc2push_infos_ push_info.param_.ssrc_ push_info }
  let recv_session_ptr : RtpSession := { param_ := push_info.param_ }
  let r := { r with
    ssrc2recv_session_ := memplace r.ssrc2recv_session_ push_info.param_.ssrc_ recv_session_ptr }
  if push_info.param_.rtx_ssrc_ ≠ 0 then
    { r with rtx_ssrc2recv_session_ :=
        memplace r.rtx_ssrc2recv_session_ push_info.param_.rtx_ssrc_ recv_session_ptr }
  else r

/-- The method `GetPushInfo`; `none` is the result `false`. -/
def GetPushInfo (r : RtcRecvRelay) (pusher_id : String) : Option PushInfo :=
  mfind r.push_infos_ pusher_id

end RtcRecvRelay

/-- What the room code reads and writes of an `RtpPacket`: SSRC, sequence number, payload
    type, payload, and the ids under which it carries the mid, transport-cc and
    abs-send-time header extensions. -/
structure RtpPacket where
  ssrc : Nat
  seq : Nat
  payload_type : Nat
  payload : List Nat
  mid_ext_id : Nat := 0
  tcc_ext_id : Nat := 0
  abs_time_ext_id : Nat := 0
  deriving DecidableEq, Repr

/-! ## media_pusher.cpp -/

/-- A call that leaves a `MediaPusher`: a packet handed to the Room through
    `packet2room_cb_`, or a PLI handed to the transport through `cb_`, given by the
    sender and media SSRC set on it. -/
inductive PusherCall where
  | OnRtpPacketFromRtcPusher (user_id session_id pusher_id : String) (rtp_pkt : RtpPacket)
  | OnTransportSendRtcp (sender_ssrc media_ssrc : Nat)
  deriving DecidableEq, Repr

/-- What the `RtpRecvSession` answers for one packet: the results of `ReceiveRtpPacket`
    and of `ReceiveRtxPacket`, the flag `repeat` the latter sets, and the packet as the
    latter leaves it. -/
structure RecvSessionEnv where
  receive_rtp : Bool := true
  receive_rtx : Bool := true
  repeat_ : Bool := false
  demux : RtpPacket → RtpPacket := id

namespace MediaPusher

/-- The method `CreateRtpRecvSession`. -/
def CreateRtpRecvSession (mp : MediaPusher) : MediaPusher :=
  let rtp_recv_session : RtpSession := { param_ := mp.param_ }
  let mp := { mp with
    ssrc2sessions_ := minsert mp.ssrc2sessions_ mp.param_.ssrc_ rtp_recv_session }
  if mp.param_.rtx_ssrc_ ≠ 0 then
    { mp with
      rtxssrc2sessions_ := minsert mp.rtxssrc2sessions_ mp.param_.rtx_ssrc_ rtp_recv_session }
  else mp

/-- The head of `HandleRtpPacket`: the extension ids of `param_` that are positive are set
    on the packet, the mid one cast to `uint8_t`. -/
def SetExtensionIds (mp : MediaPusher) (rtp_pkt : RtpPacket) : RtpPacket :=
  let rtp_pkt := if mp.param_.mid_ext_id_ > 0 then
    { rtp_pkt with mid_ext_id := (mp.param_.mid_ext_id_ % 256).toNat } else rtp_pkt
  let rtp_pkt := if mp.param_.tcc_ext_id_ > 0 then
    { rtp_pkt with tcc_ext_id := mp.param_.tcc_ext_id_.toNat } else rtp_pkt
  let rtp_pkt := if mp.param_.abs_send_time_ext_id_ > 0 then
    { rtp_pkt with abs_time_ext_id := mp.param_.abs_send_time_ext_id_.toNat } else rtp_pkt
  rtp_pkt

/-- The method `HandleRtpPacket`: its return value and the calls it makes on the Room. -/
def HandleRtpPacket (mp : MediaPusher) (env : RecvSessionEnv) (rtp_pkt : RtpPacket) :
    Int × List PusherCall :=
  let rtp_pkt := mp.SetExtensionIds rtp_pkt
  let ssrc := rtp_pkt.ssrc
  match mfind mp.ssrc2sessions_ ssrc with
  | some _ =>
    if !env.receive_rtp then (-1, [])
    else (0, [.OnRtpPacketFromRtcPusher mp.user_id_ mp.session_id_ mp.pusher_id_ rtp_pkt])
  | none =>
    match mfind mp.rtxssrc2sessions_ ssrc with
    | some _ =>
      if !env.receive_rtx then (-1, [])
      else
        let rtp_pkt := env.demux rtp_pkt
        if env.repeat_ then (0, [])
        else if rtp_pkt.ssrc = ssrc then (0, [])
        else if rtp_pkt.payload.length = 0 then (0, [])
        else (0, [.OnRtpPacketFromRtcPusher mp.user_id_ mp.session_id_ mp.pusher_id_ rtp_pkt])
    | none => (-1, [])

/-- The method `RequestKeyFrame`; `clock` is the value of `now_millisec()`. -/
def RequestKeyFrame (mp : MediaPusher) (clock : Int) (ssrc : Nat) :
    MediaPusher × List PusherCall :=
  ({ mp with last_keyframe_request_ms_ := clock }, [.OnTransportSendRtcp 0 ssrc])

/-- The statistics block of `OnTimer`; `none` is its early `return`. The log lines
    written in it are not part of the state. -/
def OnTimer_statics (mp : MediaPusher) (now_ms : Int) : Option MediaPusher :=
  if mp.last_statics_ms_ = -1 then some { mp with last_statics_ms_ := now_ms }
  else if now_ms - mp.last_statics_ms_ < 5000 then none
  else some { mp with last_statics_ms_ := now_ms }

/-- The method `OnTimer`; `clock` is the value of `now_millisec()`. -/
def OnTimer (mp : MediaPusher) (clock : Int) (now_ms : Int) : MediaPusher × List PusherCall :=
  match mp.OnTimer_statics now_ms with
  | none => (mp, [])
  | some mp =>
    if mp.param_.av_type_ = MEDIA_VIDEO_TYPE then
      if mp.last_keyframe_request_ms_ < 0 then
        ({ mp with last_keyframe_request_ms_ := now_ms }, [])
      else if now_ms - mp.last_keyframe_request_ms_ ≥ 8000 then
        mp.RequestKeyFrame clock mp.param_.ssrc_
      else (mp, [])
    else (mp, [])

end MediaPusher

/-! ## media_puller.cpp -/

/-- A call that leaves a `MediaPuller`: the bytes of a packet handed to the transport
    through `cb_`, or the timer of its send session. -/
inductive PullerCall where
  | OnTransportSendRtp (rtp_pkt : RtpPacket)
  | SendSessionOnTimer (now_ms : Int)
  deriving DecidableEq, Repr

/-- What a `MediaPuller` meets while it sends one packet: whether `cb_` is set and what
    its `IsConnected()` answers (`none` is a null `cb_`), the results of `UpdateMid`,
    `UpdateWideSeqExternId` and `UpdateAbsTimeExternId`, and the result of
    `SendRtpPacket` of the send session. -/
structure SendEnv where
  cb_ : Option Bool := some true
  update_mid : Bool := true
  update_tcc : Bool := true
  update_abs : Bool := true
  send_rtp_packet : Bool := true
  deriving DecidableEq, Repr

namespace MediaPuller

/-- The three rewrites of `OnTransportSendRtp`: an update that succeeds puts the id of
    `param_` on the packet, one that fails is logged and leaves it. -/
def UpdateExtensionIds (pl : MediaPuller) (env : SendEnv) (rtp_pkt : RtpPacket) : RtpPacket :=
  let rtp_pkt := if pl.param_.mid_ext_id_ > 0 ∧ pl.param_.mid_ ≥ 0 then
    (if env.update_mid then { rtp_pkt with mid_ext_id := pl.param_.mid_ext_id_.toNat }
     else rtp_pkt) else rtp_pkt
  let rtp_pkt := if pl.param_.tcc_ext_id_ > 0 then
    (if env.update_tcc then { rtp_pkt with tcc_ext_id := pl.param_.tcc_ext_id_.toNat }
     else rtp_pkt) else rtp_pkt
  let rtp_pkt := if pl.param_.abs_send_time_ext_id_ > 0 then
    (if env.update_abs then
      { rtp_pkt with abs_time_ext_id := pl.param_.abs_send_time_ext_id_.toNat }
     else rtp_pkt) else rtp_pkt
  rtp_pkt

/-- The method `OnTransportSendRtp(RtpPacket*)`: the calls it makes on the transport. The
    source tests `cb_` only around `IsConnected()`; its last line calls
    `cb_->OnTransportSendRtp` untested. The result `none` is that call through a null `cb_`,
    reached when the send session has accepted the packet. The send session is the one
    `CreateRtpSendSession` has made. -/
def OnTransportSendRtp (pl : MediaPuller) (env : SendEnv) (in_pkt : RtpPacket) :
    Option (List PullerCall) :=
  if in_pkt.payload.length = 0 then some []
  else if env.cb_ = some false then some []
  else
    let rtp_pkt := pl.UpdateExtensionIds env in_pkt
    if !env.send_rtp_packet then some []
    else
      match env.cb_ with
      | some _ => some [.OnTransportSendRtp rtp_pkt]
      | none => none

/-- The method `OnTimer`. The statistics it logs are not part of the state. -/
def OnTimer (pl : MediaPuller) (now_ms : Int) : MediaPuller × List PullerCall :=
  if pl.last_statics_ms_ < 0 then ({ pl with last_statics_ms_ := now_ms }, [])
  else
    let pl := if now_ms - pl.last_statics_ms_ > 5000 then
      { pl with last_statics_ms_ := now_ms } else pl
    (pl, [.SendSessionOnTimer now_ms])

end MediaPuller

/-! ## rtc_recv_relay.cpp: datagrams -/

/-- A call that leaves an `RtcRecvRelay`: a packet handed to the Room through
    `packet2room_cb_`, or a PLI written to the UDP client for an address. -/
inductive RelayCall where
  | OnRtpPacketFromRemoteRtcPusher (pusher_user_id pusher_id : String) (rtp_packet : RtpPacket)
  | UdpWrite (sender_ssrc media_ssrc : Nat) (address : UdpTuple)
  deriving DecidableEq, Repr

/-- What an `RtcRecvRelay` meets for one datagram: the random value drawn by the discard
    hook, the answers of `IsRtcp` and `IsRtp`, the result of `RtpPacket::Parse` (`none`
    is the exception it throws), the answers of the receive session as for a pusher, and
    whether `packet2room_cb_` is set. -/
structure DatagramEnv where
  rand_val : Nat := 100
  is_rtcp : Bool := false
  is_rtp : Bool := true
  parsed : Option RtpPacket := none
  receive_rtp : Bool := true
  receive_rtx : Bool := true
  repeat_ : Bool := false
  demux : RtpPacket → RtpPacket := id
  packet2room_cb_ : Bool := true

/-- One datagram read from the socket: the clock at its arrival, what the relay meets
    for it, its bytes and its sender. -/
structure Datagram where
  now : Int
  env : DatagramEnv
  data : List Nat
  address : UdpTuple

namespace RtcRecvRelay

/-- The method `DiscardPacketByPercent`; `rand_val` is the value of
    `ByteCrypto::GetRandomUint(0, 100)`. -/
def DiscardPacketByPercent (percent rand_val : Nat) : Bool :=
  if percent = 0 then false
  else if rand_val ≤ percent then true
  else false

/-- The session part of `HandleRtpPacket`: the packet that goes on to the payload test,
    `none` for each `return` before it. -/
def HandleRtpPacket_session (r : RtcRecvRelay) (env : DatagramEnv) (rtp_packet : RtpPacket) :
    Option RtpPacket :=
  let ssrc := rtp_packet.ssrc
  match mfind r.ssrc2recv_session_ ssrc with
  | some _ => if !env.receive_rtp then none else some rtp_packet
  | none =>
    match (match mfind r.rtx_ssrc2recv_session_ ssrc with
      | some _ =>
        if !env.receive_rtx then none else some (env.repeat_, env.demux rtp_packet)
      | none => some (false, rtp_packet)) with
    | none => none
    | some (is_repeat, rtp_packet) =>
      if is_repeat then none
      else if rtp_packet.ssrc = ssrc then none
      else some rtp_packet

/-- The method `HandleRtpPacket`: the relay after it and the calls it makes on the Room. -/
def HandleRtpPacket (r : RtcRecvRelay) (env : DatagramEnv) : RtcRecvRelay × List RelayCall :=
  match env.parsed with
  | none => (r, [])
  | some rtp_packet =>
    match r.HandleRtpPacket_session env rtp_packet with
    | none => (r, [])
    | some rtp_packet =>
      if rtp_packet.payload.length = 0 then (r, [])
      else
        let ssrc := rtp_packet.ssrc
        if env.packet2room_cb_ then
          match mfind r.ssrc2push_infos_ ssrc with
          | none => (r, [])
          | some info =>
            (r, [.OnRtpPacketFromRemoteRtcPusher r.pusher_user_id_ info.pusher_id_ rtp_packet])
        else (r, [])

/-- The method `OnRead`; `now` is the value of `now_millisec()`. The sender reports that
    `HandleRtcpPacket` hands to the receive sessions leave the relay as it is. -/
def OnRead (r : RtcRecvRelay) (now : Int) (env : DatagramEnv) (data : List Nat)
    (address : UdpTuple) : RtcRecvRelay × List RelayCall :=
  if DiscardPacketByPercent r.recv_discard_percent_ env.rand_val then (r, [])
  else if data.length = 0 then (r, [])
  else
    let r := { r with remote_address_ := address }
    if env.is_rtcp then (r, [])
    else if env.is_rtp then
      let r := { r with last_alive_ms_ := now }
      r.HandleRtpPacket env
    else (r, [])

/-- The method `OnTransportSendRtcp`, for the PLI built by `RequestKeyFrame`. -/
def OnTransportSendRtcp (r : RtcRecvRelay) (sender_ssrc media_ssrc : Nat) : List RelayCall :=
  if r.remote_address_.ip_address = "" ∨ r.remote_address_.port = 0 then []
  else [.UdpWrite sender_ssrc media_ssrc r.remote_address_]

/-- The method `RequestKeyFrame`. -/
def RequestKeyFrame (r : RtcRecvRelay) (ssrc : Nat) : List RelayCall :=
  match mfind r.ssrc2push_infos_ ssrc with
  | none => []
  | some _ => r.OnTransportSendRtcp 0 ssrc

/-- The relay after the datagrams of a list were read one after the other. -/
def OnRead_all (r : RtcRecvRelay) (datagrams : List Datagram) : RtcRecvRelay :=
  datagrams.foldl (fun acc d => (acc.OnRead d.now d.env d.data d.address).1) r

end RtcRecvRelay

/-- A call that leaves the Room. -/
inductive Event where
  | OnProtooResponse (resp_cb : RespCb) (id : Int) (code : Int) (err_msg : String) (data : Json)
  | Notification (resp_cb : RespCb) (method : String) (data : Json)
  | PilotAsyncRequest (method : String) (data : Json)
  | PilotAsyncNotification (method : String) (data : Json)
  | PullerOnTransportSendRtp (media_puller : MediaPuller) (rtp_packet : RtpPacket)
  | SendRelaySendRtpPacket (relay : RtcSendRelay) (rtp_packet : RtpPacket)

/-- The members of `Room`. A `shared_ptr<RtcRecvRelay>` is an index into
    `recv_relay_heap_`; `pilot_client_` tells whether the pointer is non-null. -/
structure Room where
  room_id_ : String
  pilot_client_ : Bool
  closed_ : Bool := false
  last_alive_ms_ : Int
  users_ : StrMap RtcUser := []
  pusherId2pusher_ : StrMap MediaPusher := []
  pusher2pullers_ : StrMap (StrMap MediaPuller) := []
  pusher_user_id2sendRelay_ : StrMap RtcSendRelay := []
  recv_relay_heap_ : List RtcRecvRelay := []
  pusherId2recvRelay_ : StrMap Nat := []
  pusher_user_id2recvRelay_ : StrMap Nat := []
  deriving DecidableEq, Repr

/-- The new state, the calls made, and the value returned. -/
structure Out (α : Type) where
  room : Room
  events : List Event
  ret : α

/-- What the collaborators of `HandlePushSdp` hand back: whether `GenAnswerSdp` gave an
    answer, the id of the new `WebRtcSession`, the parameters read from the answer, each
    with the UUID of the MediaPusher built for it, and the rendered answer. -/
structure PushSdpEnv where
  answer_sdp : Bool := true
  session_id : String := ""
  rtp_params : List (RtpSessionParam × String) := []
  answer_sdp_str : String := ""

/-- What the collaborators of the pull handlers hand back: `add_puller n` is the return
    code of the n-th call of `AddPullerRtpSession` on the new session and the UUID of the
    MediaPuller it builds; `relay_env h` are the settings met by the constructor of the
    relay that gets handle `h`. -/
structure PullSdpEnv where
  answer_sdp : Bool := true
  session_id : String := ""
  add_puller : Nat → Int × String := fun _ => (0, "")
  answer_sdp_str : String := ""
  relay_env : Nat → RelayEnv := fun _ => {}

namespace Room

/-! ## room.cpp -/

/-- The constructor of `Room`. -/
def create (room_id : String) (pilot_client : Bool) (now : Int) : Room :=
  { room_id_ := room_id, pilot_client_ := pilot_client, last_alive_ms_ := now }

/-- The method `Close`. -/
def Close (r : Room) : Room :=
  if r.closed_ then r else { r with closed_ := true }

/-- The method `Join2PilotCenter`. -/
def Join2PilotCenter (r : Room) (now : Int) (user_ptr : RtcUser) : Room × List Event :=
  if !r.pilot_client_ then (r, [])
  else
    let r := { r with last_alive_ms_ := now }
    let join_data := Json.obj []
    let join_data := join_data.set "roomId" (.str r.room_id_)
    let join_data := join_data.set "userId" (.str user_ptr.user_id_)
    let join_data := join_data.set "userName" (.str user_ptr.user_name_)
    (r, [Event.PilotAsyncRequest "join" join_data])

/-- The method `UserLeave2PilotCenter`. -/
def UserLeave2PilotCenter (r : Room) (now : Int) (user_id : String) : Room × List Event :=
  if !r.pilot_client_ then (r, [])
  else
    let r := { r with last_alive_ms_ := now }
    let leave_data := Json.obj []
    let leave_data := leave_data.set "roomId" (.str r.room_id_)
    let leave_data := leave_data.set "userId" (.str user_id)
    (r, [Event.PilotAsyncNotification "userLeave" leave_data])

/-- The method `UserDisconnect2PilotCenter`. -/
def UserDisconnect2PilotCenter (r : Room) (now : Int) (user_id : String) : Room × List Event :=
  if !r.pilot_client_ then (r, [])
  else
    let r := { r with last_alive_ms_ := now }
    let leave_data := Json.obj []
    let leave_data := leave_data.set "roomId" (.str r.room_id_)
    let leave_data := leave_data.set "userId" (.str user_id)
    (r, [Event.PilotAsyncNotification "userDisconnect" leave_data])

/-- The method `NewPusher2PilotCenter`. -/
def NewPusher2PilotCenter (r : Room) (now : Int) (pusher_user_id : String)
    (push_infos : List PushInfo) : Room × List Event :=
  if !r.pilot_client_ then (r, [])
  else
    let r := { r with last_alive_ms_ := now }
    match mfind r.users_ pusher_user_id with
    | none => (r, [])
    | some push_user =>
      let name := push_user.user_name_
      let push_data := Json.obj []
      let push_data := push_data.set "roomId" (.str r.room_id_)
      let push_data := push_data.set "userId" (.str pusher_user_id)
      let push_data := push_data.set "userName" (.str name)
      let push_data := push_data.set "publishers" (.arr [])
      let push_data := push_infos.foldl
        (fun acc push_info => acc.push_back_at "publishers" (push_info.DumpJson (.obj []))) push_data
      (r, [Event.PilotAsyncNotification "push" push_data])

/-- The method `NotifyNewUser`. -/
def NotifyNewUser (r : Room) (now : Int) (user_id user_name : String) : Room × List Event :=
  match mfind r.users_ user_id with
  | none => (r, [])
  | some new_user =>
    let r := { r with last_alive_ms_ := now }
    let user_json := Json.obj []
    let user_json := user_json.set "userId" (.str user_id)
    let user_json := user_json.set "userName" (.str user_name)
    let user_json := user_json.set "pushers" (.arr [])
    let user_json := new_user.pushers_.foldl
      (fun acc pair => acc.push_back_at "pushers" (pair.2.DumpJson (.obj []))) user_json
    let events := r.users_.filterMap (fun pair =>
      if pair.1 = user_id then none
      else if pair.2.remote_ then none
      else match pair.2.resp_cb_ with
        | none => none
        | some notify_cb =>
          some (Event.Notification notify_cb "newUser" ((Json.arr []).push_back user_json)))
    (r, events)

/-- The method `NotifyNewPusher`. -/
def NotifyNewPusher (r : Room) (now : Int) (pusher_user_id pusher_user_name : String)
    (push_infos : List PushInfo) : Room × List Event :=
  let r := { r with last_alive_ms_ := now }
  let pusher_json := Json.obj []
  let pusher_json := pusher_json.set "userId" (.str pusher_user_id)
  let pusher_json := pusher_json.set "userName" (.str pusher_user_name)
  let pusher_json := pusher_json.set "roomId" (.str r.room_id_)
  let pusher_json := pusher_json.set "pushers" (.arr [])
  let pusher_json := push_infos.foldl
    (fun acc push_info => acc.push_back_at "pushers" (push_info.DumpJson (.obj []))) pusher_json
  let events := r.users_.filterMap (fun pair =>
    if pair.1 = pusher_user_id then none
    else if pair.2.remote_ then none
    else match pair.2.resp_cb_ with
      | none => none
      | some notify_cb => some (Event.Notification notify_cb "newPusher" pusher_json))
  (r, events)

/-- The method `ReConnect`. -/
def ReConnect (r : Room) (new_user : RtcUser) (id : Int) (resp_cb : RespCb) : Out Int :=
  let notify_json := Json.obj []
  let notify_json := notify_json.set "userId" (.str new_user.user_id_)
  let notify_json := notify_json.set "userName" (.str new_user.user_name_)
  let notify_json := notify_json.set "roomId" (.str r.room_id_)
  let ev_notify := r.users_.filterMap (fun notify_user_pair =>
    let notify_user := notify_user_pair.2
    if notify_user.user_id_ = new_user.user_id_ then none
    else if notify_user.remote_ then none
    else match notify_user.resp_cb_ with
      | some notify_resp_cb => some (Event.Notification notify_resp_cb "userReConnect" notify_json)
      | none => none)
  let ev_pilot :=
    if r.pilot_client_ then
      let reconnect_data := Json.obj []
      let reconnect_data := reconnect_data.set "roomId" (.str r.room_id_)
      let reconnect_data := reconnect_data.set "userId" (.str new_user.user_id_)
      let reconnect_data := reconnect_data.set "userName" (.str new_user.user_name_)
      [Event.PilotAsyncNotification "userReConnect" reconnect_data]
    else []
  let resp_json := Json.obj []
  let resp_json := resp_json.set "code" (.num 0)
  let resp_json := resp_json.set "message" (.str "join success")
  let resp_json := resp_json.set "users" (.arr [])
  let resp_json := r.users_.foldl (fun acc pair =>
    if pair.1 = new_user.user_id_ then acc
    else
      let user := pair.2
      let user_json := Json.obj []
      let user_json := user_json.set "userId" (.str user.user_id_)
      let user_json := user_json.set "userName" (.str user.user_name_)
      let pusher_map := user.pushers_
      let user_json := user_json.set "pushers" (.arr [])
      let user_json := pusher_map.foldl
        (fun uj pair => uj.push_back_at "pushers" (pair.2.DumpJson (.obj []))) user_json
      acc.push_back_at "users" user_json) resp_json
  { room := r,
    events := ev_notify ++ ev_pilot ++ [Event.OnProtooResponse resp_cb id 0 "" resp_json],
    ret := 0 }

/-- The method `UserJoin`. -/
def UserJoin (r : Room) (now : Int) (user_id user_name : String) (id : Int) (resp_cb : RespCb) :
    Out Int :=
  if r.closed_ then { room := r, events := [], ret := -1 }
  else
    let r := { r with last_alive_ms_ := now }
    match mfind r.users_ user_id with
    | some existing => ReConnect r existing id resp_cb
    | none =>
      let new_user := RtcUser.create r.room_id_ user_id user_name (some resp_cb) now
      let r := { r with users_ := minsert r.users_ user_id new_user }
      let user_list := r.users_.filterMap (fun pair =>
        if pair.1 = user_id then none else some pair.2)
      let resp_json := Json.obj []
      let resp_json := resp_json.set "code" (.num 0)
      let resp_json := resp_json.set "message" (.str "join success")
      let resp_json := resp_json.set "users" (.arr [])
      let resp_json := user_list.foldl (fun acc user =>
        let user_json := Json.obj []
        let user_json := user_json.set "userId" (.str user.user_id_)
        let user_json := user_json.set "userName" (.str user.user_name_)
        let pusher_map := user.pushers_
        let user_json := user_json.set "pushers" (.arr [])
        let user_json := pusher_map.foldl
          (fun uj pair => uj.push_back_at "pushers" (pair.2.DumpJson (.obj []))) user_json
        acc.push_back_at "users" user_json) resp_json
      let (r, ev_pilot) := Join2PilotCenter r now new_user
      let ev_resp := [Event.OnProtooResponse resp_cb id 0 "" resp_json]
      let (r, ev_notify) := NotifyNewUser r now user_id user_name
      { room := r, events := ev_pilot ++ ev_resp ++ ev_notify, ret := 0 }

/-- The method `UserLeave`. -/
def UserLeave (r : Room) (now : Int) (user_id : String) : Out Int :=
  match mfind r.users_ user_id with
  | none => { room := r, events := [], ret := -1 }
  | some _ =>
    let r := { r with users_ := mmodify r.users_ user_id (fun u => u.SetRespCb none) }
    let notify_json := Json.obj []
    let notify_json := notify_json.set "userId" (.str user_id)
    let notify_json := notify_json.set "roomId" (.str r.room_id_)
    let ev_notify := r.users_.filterMap (fun pair =>
      if pair.1 = user_id then none
      else if pair.2.remote_ then none
      else match pair.2.resp_cb_ with
        | none => none
        | some notify_cb => some (Event.Notification notify_cb "userLeave" notify_json))
    let (r, ev_pilot) := UserLeave2PilotCenter r now user_id
    { room := r, events := ev_notify ++ ev_pilot, ret := 0 }

/-- The method `DisconnectUser`. -/
def DisconnectUser (r : Room) (now : Int) (user_id : String) : Out Int :=
  match mfind r.users_ user_id with
  | none => { room := r, events := [], ret := -1 }
  | some _ =>
    let r := { r with users_ := mmodify r.users_ user_id (fun u => u.SetRespCb none) }
    let notify_json := Json.obj []
    let notify_json := notify_json.set "userId" (.str user_id)
    let notify_json := notify_json.set "roomId" (.str r.room_id_)
    let ev_notify := r.users_.filterMap (fun pair =>
      if pair.1 = user_id then none
      else if pair.2.remote_ then none
      else match pair.2.resp_cb_ with
        | none => none
        | some notify_cb => some (Event.Notification notify_cb "userDisconnect" notify_json))
    let (r, ev_pilot) := UserDisconnect2PilotCenter r now user_id
    { room := r, events := ev_notify ++ ev_pilot, ret := 0 }

/-- The method `ReleaseUserResources`. -/
def ReleaseUserResources (r : Room) (now : Int) (user_id : String) : Room × List Event :=
  let left := UserLeave r now user_id
  let r := left.room
  match mfind r.users_ user_id with
  | none => (r, left.events)
  | some _ =>
    let r := { r with users_ := merase r.users_ user_id }
    let rm_pusher_ids := r.pusherId2pusher_.filterMap (fun item =>
      if item.2.user_id_ = user_id then some item.1 else none)
    let r := rm_pusher_ids.foldl
      (fun acc pusher_id => { acc with pusherId2pusher_ := merase acc.pusherId2pusher_ pusher_id }) r
    let r :=
      match mfind r.pusher_user_id2sendRelay_ user_id with
      | some _ =>
        { r with pusher_user_id2sendRelay_ := merase r.pusher_user_id2sendRelay_ user_id }
      | none => r
    let r := { r with pusher2pullers_ :=
      r.pusher2pullers_.map (fun (item : String × StrMap MediaPuller) =>
        (item.1, item.2.filter (fun puller_it => !decide (puller_it.2.puller_user_id_ = user_id)))) }
    let r := { r with pusher2pullers_ := merase r.pusher2pullers_ user_id }
    (r, left.events)

/-- The method `OnTimer`. -/
def OnTimer (r : Room) (now : Int) : Room × List Event :=
  let r := if !r.users_.isEmpty then { r with last_alive_ms_ := now } else r
  let rm_user_ids := r.users_.filterMap (fun pair =>
    if pair.2.remote_ then none
    else if !pair.2.IsAlive now then some pair.1
    else none)
  let released := rm_user_ids.foldl (fun (acc : Room × List Event) user_id =>
    let step := ReleaseUserResources acc.1 now user_id
    (step.1, acc.2 ++ step.2)) (r, [])
  let r := released.1
  let dead := r.pusherId2recvRelay_.filter (fun item =>
    match r.recv_relay_heap_.get? item.2 with
    | some relay_ptr => !relay_ptr.IsAlive now
    | none => false)
  let rm_pusher_ids := dead.map Prod.fst
  let rm_puller_user_ids := dead.filterMap (fun item =>
    (r.recv_relay_heap_.get? item.2).map (fun relay_ptr => relay_ptr.pusher_user_id_))
  let r := rm_pusher_ids.foldl
    (fun acc pusher_id => { acc with pusherId2recvRelay_ := merase acc.pusherId2recvRelay_ pusher_id })
    r
  let r := rm_puller_user_ids.foldl
    (fun acc uid =>
      { acc with pusher_user_id2recvRelay_ := merase acc.pusher_user_id2recvRelay_ uid }) r
  (r, released.2)

/-- The body of the loop `for (const auto& puller_pair : pullers_it->second)` of
    `OnRtpPacketFromRtcPusher` and of `OnRtpPacketFromRemoteRtcPusher`. -/
def forward_to_puller (now : Int) (rtp_packet : RtpPacket) (acc : Room × List Event)
    (puller_pair : String × MediaPuller) : Room × List Event :=
  let media_puller := puller_pair.2
  let puller_user_id := media_puller.puller_user_id_
  ({ acc.1 with
      users_ := mmodify acc.1.users_ puller_user_id (fun u => u.UpdateHeartbeat now) },
    acc.2 ++ [Event.PullerOnTransportSendRtp media_puller rtp_packet])

/-- The method `OnRtpPacketFromRtcPusher`. -/
def OnRtpPacketFromRtcPusher (r : Room) (now : Int) (user_id session_id pusher_id : String)
    (rtp_packet : RtpPacket) : Room × List Event :=
  let _ := session_id
  let r := { r with last_alive_ms_ := now }
  let r := { r with users_ := mmodify r.users_ user_id (fun u => u.UpdateHeartbeat now) }
  let fanout : Room × List Event :=
    match mfind r.pusher2pullers_ pusher_id with
    | some pullers => pullers.foldl (forward_to_puller now rtp_packet) (r, [])
    | none => (r, [])
  let r := fanout.1
  let ev_relay :=
    match mfind r.pusher_user_id2sendRelay_ user_id with
    | some relay => [Event.SendRelaySendRtpPacket relay rtp_packet]
    | none => []
  (r, fanout.2 ++ ev_relay)

/-- The method `OnRtpPacketFromRemoteRtcPusher`. -/
def OnRtpPacketFromRemoteRtcPusher (r : Room) (now : Int) (pusher_user_id pusher_id : String)
    (rtp_packet : RtpPacket) : Room × List Event :=
  let r := { r with last_alive_ms_ := now }
  let r := { r with users_ := mmodify r.users_ pusher_user_id (fun u => u.UpdateHeartbeat now) }
  match mfind r.pusher2pullers_ pusher_id with
  | some pullers => pullers.foldl (forward_to_puller now rtp_packet) (r, [])
  | none => (r, [])

/-- The method `HandleWsHeartbeat`. -/
def HandleWsHeartbeat (r : Room) (now : Int) (user_id : String) : Room × Int :=
  let r := { r with last_alive_ms_ := now }
  match mfind r.users_ user_id with
  | none => (r, -1)
  | some _ =>
    ({ r with users_ := mmodify r.users_ user_id (fun u => u.UpdateHeartbeat now) }, 0)

/-- The method `OnPushClose`. -/
def OnPushClose (r : Room) (pusher_id : String) : Room :=
  match mfind r.pusherId2pusher_ pusher_id with
  | some _ => { r with pusherId2pusher_ := merase r.pusherId2pusher_ pusher_id }
  | none => r

/-- The loop of `OnPullClose`: erase the puller from the first puller map holding it. -/
def OnPullClose_loop : StrMap (StrMap MediaPuller) → String → StrMap (StrMap MediaPuller)
  | [], _ => []
  | (pusher_id, pullers) :: rest, puller_id =>
    match mfind pullers puller_id with
    | some _ => (pusher_id, merase pullers puller_id) :: rest
    | none => (pusher_id, pullers) :: OnPullClose_loop rest puller_id

/-- The method `OnPullClose`. -/
def OnPullClose (r : Room) (puller_id : String) : Room :=
  { r with pusher2pullers_ := OnPullClose_loop r.pusher2pullers_ puller_id }

/-! ### Push and pull offers

`RtcSdp`, `WebRtcSession` and `GetRtpSessionParamsFromSdp` are not among the sources.
What they hand back to a handler is the handler's `env` argument. -/

/-- One round of the loop over `rtp_params` in `HandlePushSdp`; the second component is the
    pusher list of the session.
    Modelled from the spec: `WebRtcSession::AddPusherRtpSession` "create[s] a MediaPusher" for
    the parameter, and `GetMediaPushers` lists the pushers created so far. -/
def HandlePushSdp_step (now : Int) (user_id session_id : String)
    (acc : Room × List MediaPusher) (item : RtpSessionParam × String) : Room × List MediaPusher :=
  let r := acc.1
  let param := item.1
  let media_pusher := MediaPusher.create param r.room_id_ user_id session_id item.2
  let session_pushers := acc.2 ++ [media_pusher]
  let pusher_id := media_pusher.pusher_id_
  let r := { r with users_ := mmodify r.users_ user_id (fun u =>
    let push_info : PushInfo := { pusher_id_ := pusher_id, param_ := param }
    (u.UpdateHeartbeat now).AddPusher pusher_id push_info) }
  let r := session_pushers.foldl (fun (room : Room) mp =>
    { room with pusherId2pusher_ := minsert room.pusherId2pusher_ mp.pusher_id_ mp }) r
  (r, session_pushers)

/-- The method `HandlePushSdp`. -/
def HandlePushSdp (r : Room) (now : Int) (user_id : String) (env : PushSdpEnv) (id : Int)
    (resp_cb : RespCb) : Out Int :=
  let r := { r with last_alive_ms_ := now }
  if !env.answer_sdp then { room := r, events := [], ret := -1 }
  else if env.rtp_params.isEmpty then { room := r, events := [], ret := -1 }
  else
    let r := (env.rtp_params.foldl (HandlePushSdp_step now user_id env.session_id) (r, [])).1
    let resp_json := Json.obj []
    let resp_json := resp_json.set "code" (.num 0)
    let resp_json := resp_json.set "message" (.str "push success")
    let resp_json := resp_json.set "sdp" (.str env.answer_sdp_str)
    let ev_resp := [Event.OnProtooResponse resp_cb id 0 "" resp_json]
    match mfind r.users_ user_id with
    | none => { room := r, events := ev_resp, ret := -1 }
    | some user =>
      let push_infos := user.pushers_.map Prod.snd
      let user_name := user.user_name_
      let (r, ev_notify) := NotifyNewPusher r now user_id user_name push_infos
      let (r, ev_pilot) := NewPusher2PilotCenter r now user_id push_infos
      { room := r, events := ev_resp ++ ev_notify ++ ev_pilot, ret := 0 }

/-- The statement `pusher2pullers_[pusher_id][puller_id] = media_puller`. -/
def store_puller (m : StrMap (StrMap MediaPuller)) (media_puller : MediaPuller) :
    StrMap (StrMap MediaPuller) :=
  minsert m media_puller.pusher_id_
    (minsert ((mfind m media_puller.pusher_id_).getD []) media_puller.puller_id_ media_puller)

/-- The loop over `pull_info.pushers_` in `HandlePullSdp`: `n` counts the calls of
    `AddPullerRtpSession`, `acc` is the puller list of the session; an error is the code
    returned at once.
    Modelled from the spec: `WebRtcSession::AddPullerRtpSession` "add[s] a MediaPuller whose
    RtpSessionParam is copied from the pusher" for the user of the session. -/
def HandlePullSdp_loop (r : Room) (pull_info : PullRequestInfo) (env : PullSdpEnv) :
    List PushInfo → Nat → List MediaPuller → Except Int (List MediaPuller)
  | [], _, acc => .ok acc
  | push_info :: rest, n, acc =>
    match mfind r.pusherId2pusher_ push_info.pusher_id_ with
    | none => HandlePullSdp_loop r pull_info env rest n acc
    | some media_pusher =>
      let ret := (env.add_puller n).1
      if ret ≠ 0 then .error ret
      else
        HandlePullSdp_loop r pull_info env rest (n + 1)
          (acc ++ [MediaPuller.create media_pusher.param_ r.room_id_ pull_info.src_user_id_
            pull_info.target_user_id_ media_pusher.pusher_id_ env.session_id (env.add_puller n).2])

/-- The method `HandlePullSdp`. -/
def HandlePullSdp (r : Room) (now : Int) (pull_info : PullRequestInfo) (env : PullSdpEnv)
    (id : Int) (resp_cb : RespCb) : Out Int :=
  let r := { r with last_alive_ms_ := now }
  match mfind r.users_ pull_info.target_user_id_ with
  | none => { room := r, events := [], ret := -1 }
  | some _ =>
    if !env.answer_sdp then { room := r, events := [], ret := -1 }
    else
      match HandlePullSdp_loop r pull_info env pull_info.pushers_ 0 [] with
      | .error ret => { room := r, events := [], ret := ret }
      | .ok media_pullers =>
        let r := { r with pusher2pullers_ := media_pullers.foldl store_puller r.pusher2pullers_ }
        let resp_json := Json.obj []
        let resp_json := resp_json.set "code" (.num 0)
        let resp_json := resp_json.set "message" (.str "pull success")
        let resp_json := resp_json.set "sdp" (.str env.answer_sdp_str)
        { room := r, events := [Event.OnProtooResponse resp_cb id 0 "" resp_json], ret := 0 }

/-- A call through a `shared_ptr<RtcRecvRelay>` that changes the relay in place. -/
def heap_modify : List RtcRecvRelay → Nat → (RtcRecvRelay → RtcRecvRelay) → List RtcRecvRelay
  | [], _, _ => []
  | x :: rest, 0, f => f x :: rest
  | x :: rest, n + 1, f => x :: heap_modify rest n f

/-- The method `CreateOrGetRecvRtcRelay`; the relay is never null. -/
def CreateOrGetRecvRtcRelay (r : Room) (now : Int) (env : Nat → RelayEnv)
    (pusher_user_id : String) (push_info : PushInfo) : Room × Nat :=
  match mfind r.pusher_user_id2recvRelay_ pusher_user_id with
  | some rtc_relay_ptr =>
    ({ r with pusherId2recvRelay_ := minsert r.pusherId2recvRelay_ push_info.pusher_id_ rtc_relay_ptr },
      rtc_relay_ptr)
  | none =>
    let rtc_relay_ptr := r.recv_relay_heap_.length
    let relay := RtcRecvRelay.create r.room_id_ pusher_user_id (env rtc_relay_ptr) now
    let r := { r with
      recv_relay_heap_ := r.recv_relay_heap_ ++ [relay],
      pusher_user_id2recvRelay_ := minsert r.pusher_user_id2recvRelay_ pusher_user_id rtc_relay_ptr }
    ({ r with pusherId2recvRelay_ := minsert r.pusherId2recvRelay_ push_info.pusher_id_ rtc_relay_ptr },
      rtc_relay_ptr)

/-- The method `SendPullRequestToPilotCenter`, which returns 0. The source calls
    `pilot_client_->AsyncNotification` without testing the pointer, and reads the relay
    through `relay_ptr`: the result `none` is the call through a null `pilot_client_`, or
    the read through a handle that names no relay. -/
def SendPullRequestToPilotCenter (r : Room) (now : Int) (pusher_user_id : String)
    (push_info : PushInfo) (relay_ptr : Nat) : Option (Room × List Event) :=
  let r := { r with last_alive_ms_ := now }
  match r.recv_relay_heap_.get? relay_ptr with
  | none => none
  | some relay =>
    let pull_request_json := Json.obj []
    let pull_request_json := pull_request_json.set "roomId" (.str r.room_id_)
    let pull_request_json := pull_request_json.set "pusher_user_id" (.str pusher_user_id)
    let pull_request_json := pull_request_json.set "udp_ip" (.str relay.listen_ip_)
    let pull_request_json := pull_request_json.set "udp_port" (.num relay.udp_port_)
    let pull_request_json :=
      if push_info.param_.av_type_ = MEDIA_VIDEO_TYPE then
        pull_request_json.set "mediaType" (.str "video")
      else if push_info.param_.av_type_ = MEDIA_AUDIO_TYPE then
        pull_request_json.set "mediaType" (.str "audio")
      else pull_request_json.set "mediaType" (.str "unknown")
    let pull_request_json := pull_request_json.set "pushInfo" (push_info.DumpJson (.obj []))
    if r.pilot_client_ then
      some (r, [Event.PilotAsyncNotification "pullRemoteStream" pull_request_json])
    else none

/-- The method `PullRemotePusher`; `none` is the fault of `SendPullRequestToPilotCenter`,
    which leaves no Room behind. -/
def PullRemotePusher (r : Room) (now : Int) (env : Nat → RelayEnv) (pusher_user_id : String)
    (push_info : PushInfo) : Option (Out Int) :=
  let r := { r with last_alive_ms_ := now }
  let created := CreateOrGetRecvRtcRelay r now env pusher_user_id push_info
  let r := created.1
  let relay_ptr := created.2
  let r := { r with
    recv_relay_heap_ := heap_modify r.recv_relay_heap_ relay_ptr
      (fun relay => relay.AddVirtualPusher push_info) }
  match SendPullRequestToPilotCenter r now pusher_user_id push_info relay_ptr with
  | none => none
  | some sent => some { room := sent.1, events := sent.2, ret := 0 }

/-- The first loop over `pull_info.pushers_` in `HandleRemotePullSdp`; `none` is a fault
    in one of its rounds. -/
def HandleRemotePullSdp_relays (now : Int) (env : Nat → RelayEnv) (pusher_user_id : String)
    (pull_info : PullRequestInfo) (acc : Option (Room × List Event)) (push_info : PushInfo) :
    Option (Room × List Event) :=
  match acc with
  | none => none
  | some acc =>
    let r := acc.1
    match mfind r.users_ pusher_user_id with
    | none => some acc
    | some user =>
      match user.GetPusher push_info.pusher_id_ with
      | none => some acc
      | some full_push_info =>
        match PullRemotePusher r now env pull_info.target_user_id_ full_push_info with
        | none => none
        | some pulled => some (pulled.room, acc.2 ++ pulled.events)

/-- The second loop over `pull_info.pushers_` in `HandleRemotePullSdp`, read like
    `HandlePullSdp_loop`; here only a negative code of `AddPullerRtpSession` returns at once,
    and a puller is taken to be built when the code is 0. -/
def HandleRemotePullSdp_loop (r : Room) (pull_info : PullRequestInfo) (env : PullSdpEnv) :
    List PushInfo → Nat → List MediaPuller → Except Int (List MediaPuller)
  | [], _, acc => .ok acc
  | push_info :: rest, n, acc =>
    let id := push_info.pusher_id_
    match mfind r.pusherId2recvRelay_ id with
    | none => HandleRemotePullSdp_loop r pull_info env rest n acc
    | some recv_relay_ptr =>
      match (r.recv_relay_heap_.get? recv_relay_ptr).bind (fun relay => relay.GetPushInfo id) with
      | none => HandleRemotePullSdp_loop r pull_info env rest n acc
      | some relay_push_info =>
        let ret := (env.add_puller n).1
        if ret < 0 then .error ret
        else if ret ≠ 0 then HandleRemotePullSdp_loop r pull_info env rest (n + 1) acc
        else
          HandleRemotePullSdp_loop r pull_info env rest (n + 1)
            (acc ++ [MediaPuller.create relay_push_info.param_ r.room_id_ pull_info.src_user_id_
              pull_info.target_user_id_ relay_push_info.pusher_id_ env.session_id
              (env.add_puller n).2])

/-- The method `HandleRemotePullSdp`; `none` is a fault in its first loop. -/
def HandleRemotePullSdp (r : Room) (now : Int) (pusher_user_id : String)
    (pull_info : PullRequestInfo) (env : PullSdpEnv) (id : Int) (resp_cb : RespCb) :
    Option (Out Int) :=
  let r := { r with last_alive_ms_ := now }
  match pull_info.pushers_.foldl
      (HandleRemotePullSdp_relays now env.relay_env pusher_user_id pull_info) (some (r, [])) with
  | none => none
  | some relays =>
    let r := relays.1
    if !env.answer_sdp then some { room := r, events := relays.2, ret := -1 }
    else
      match HandleRemotePullSdp_loop r pull_info env pull_info.pushers_ 0 [] with
      | .error ret => some { room := r, events := relays.2, ret := ret }
      | .ok media_pullers =>
        let r := { r with pusher2pullers_ := media_pullers.foldl store_puller r.pusher2pullers_ }
        let resp_json := Json.obj []
        let resp_json := resp_json.set "code" (.num 0)
        let resp_json := resp_json.set "message" (.str "pull success")
        let resp_json := resp_json.set "sdp" (.str env.answer_sdp_str)
        some { room := r, events := relays.2 ++ [Event.OnProtooResponse resp_cb id 0 "" resp_json],
               ret := 0 }

/-! ### Pilot callbacks

A handler that catches an exception returns with the state reached so far; the
loops below therefore carry a flag telling whether an exception left them. -/

/-- The access `j[key].get<std::string>()`. -/
def json_string (j : Json) (key : String) : Option String :=
  (j.get key).bind Json.get_string

/-- The loop over `pushers_json` in `JoinResponseFromPilotCenter`; the flag tells that an
    exception left the loop. -/
def JoinResponse_pushers (user_id : String) : List Json → StrMap RtcUser → StrMap RtcUser × Bool
  | [], users => (users, false)
  | pusher_json :: rest, users =>
    match json_string pusher_json "pusherId" with
    | none => (users, true)
    | some pusher_id =>
      match pusher_json.find "rtpParam" with
      | none => JoinResponse_pushers user_id rest users
      | some rtp_param_json =>
        if !rtp_param_json.is_object then JoinResponse_pushers user_id rest users
        else
          match RtpSessionParam.FromJson {} rtp_param_json with
          | none => (users, true)
          | some rtp_param =>
            let push_info : PushInfo := { pusher_id_ := pusher_id, param_ := rtp_param }
            JoinResponse_pushers user_id rest
              (mmodify users user_id (fun u => u.AddPusher push_info.pusher_id_ push_info))

/-- The loop over `users_json` in `JoinResponseFromPilotCenter`; an exception ends it. -/
def JoinResponse_users (now : Int) : List Json → Room × List Event → Room × List Event
  | [], acc => acc
  | user_json :: rest, acc =>
    let r := acc.1
    match json_string user_json "userId", json_string user_json "userName" with
    | some user_id, some user_name =>
      match mfind r.users_ user_id with
      | some _ => JoinResponse_users now rest acc
      | none =>
        let new_user := (RtcUser.create r.room_id_ user_id user_name none now).SetRemote true
        let r := { r with users_ := minsert r.users_ user_id new_user }
        match user_json.get "pushers" with
        | none => (r, acc.2)
        | some pushers_json =>
          let parsed :=
            if !pushers_json.empty && pushers_json.is_array then
              JoinResponse_pushers user_id pushers_json.iter r.users_
            else (r.users_, false)
          let r := { r with users_ := parsed.1 }
          if parsed.2 then (r, acc.2)
          else
            let notified := NotifyNewUser r now user_id user_name
            JoinResponse_users now rest (notified.1, acc.2 ++ notified.2)
    | _, _ => acc

/-- The method `JoinResponseFromPilotCenter`. -/
def JoinResponseFromPilotCenter (r : Room) (now : Int) (resp_json : Json) : Room × List Event :=
  match json_string resp_json "roomId" with
  | none => (r, [])
  | some roomId =>
    let users_json := (resp_json.find "users").getD .null
    if roomId ≠ r.room_id_ then (r, [])
    else if !users_json.is_array then (r, [])
    else JoinResponse_users now users_json.iter (r, [])

/-- The method `OnAsyncRequestResponse`. -/
def OnAsyncRequestResponse (r : Room) (now : Int) (method : String) (resp_json : Json) :
    Room × List Event :=
  if method = "join" then JoinResponseFromPilotCenter r now resp_json else (r, [])

/-- The method `HandleNewUserNotificationFromCenter`. -/
def HandleNewUserNotificationFromCenter (r : Room) (now : Int) (data_json : Json) :
    Room × List Event :=
  let r := { r with last_alive_ms_ := now }
  match json_string data_json "userId", json_string data_json "userName" with
  | some user_id, some user_name =>
    match mfind r.users_ user_id with
    | some _ => (r, [])
    | none =>
      let new_user := (RtcUser.create r.room_id_ user_id user_name none now).SetRemote true
      let r := { r with users_ := minsert r.users_ user_id new_user }
      NotifyNewUser r now user_id user_name
  | _, _ => (r, [])

/-- The loop over `pushers_json` in `HandleNewPusherNotificationFromCenter`: the users, the
    collected `push_infos`, and whether an exception left the loop. -/
def NewPusher_pushers (remote_user_id : String) :
    List Json → StrMap RtcUser × List PushInfo → StrMap RtcUser × List PushInfo × Bool
  | [], acc => (acc.1, acc.2, false)
  | pusher_json :: rest, acc =>
    match json_string pusher_json "pusherId" with
    | none => (acc.1, acc.2, true)
    | some pusher_id =>
      match pusher_json.find "rtpParam" with
      | none => NewPusher_pushers remote_user_id rest acc
      | some rtp_param_json =>
        if !rtp_param_json.is_object then NewPusher_pushers remote_user_id rest acc
        else
          match RtpSessionParam.FromJson {} rtp_param_json with
          | none => (acc.1, acc.2, true)
          | some rtp_param =>
            let push_info : PushInfo := { pusher_id_ := pusher_id, param_ := rtp_param }
            NewPusher_pushers remote_user_id rest
              (mmodify acc.1 remote_user_id (fun u => u.AddPusher push_info.pusher_id_ push_info),
                acc.2 ++ [push_info])

/-- The method `HandleNewPusherNotificationFromCenter`. -/
def HandleNewPusherNotificationFromCenter (r : Room) (now : Int) (data_json : Json) :
    Room × List Event :=
  let r := { r with last_alive_ms_ := now }
  match json_string data_json "userId" with
  | none => (r, [])
  | some remote_user_id =>
    match mfind r.users_ remote_user_id with
    | none => (r, [])
    | some found =>
      let r := { r with users_ := mmodify r.users_ remote_user_id (fun u => u.SetRemote true) }
      let remote_user_name := found.user_name_
      let pushers_json := (data_json.find "pushers").getD .null
      let parsed := NewPusher_pushers remote_user_id pushers_json.iter (r.users_, [])
      let r := { r with users_ := parsed.1 }
      if parsed.2.2 then (r, [])
      else
        let notify_json := Json.obj []
        let notify_json := notify_json.set "pushers" (.arr [])
        let notify_json := parsed.2.1.foldl
          (fun acc push_info => acc.push_back_at "pushers" (push_info.DumpJson (.obj [])))
          notify_json
        let notify_json := notify_json.set "userId" (.str remote_user_id)
        let notify_json := notify_json.set "userName" (.str remote_user_name)
        let notify_json := notify_json.set "roomId" (.str r.room_id_)
        let events := r.users_.filterMap (fun notify_user_pair =>
          if notify_user_pair.1 = remote_user_id then none
          else match notify_user_pair.2.resp_cb_ with
            | some cb => some (Event.Notification cb "newPusher" notify_json)
            | none => none)
        (r, events)

/-- The method `HandlePullRemoteStreamNotificationFromCenter`; `env` are the settings met by
    the constructor of a new send relay. -/
def HandlePullRemoteStreamNotificationFromCenter (r : Room) (now : Int) (env : RelayEnv)
    (data_json : Json) : Room :=
  let r := { r with last_alive_ms_ := now }
  match json_string data_json "udp_ip", (data_json.get "udp_port").bind Json.get_int,
      json_string data_json "pusher_user_id" with
  | some remote_udp_ip, some remote_udp_port, some pusher_user_id =>
    let push_info_json := (data_json.find "pushInfo").getD .null
    match json_string push_info_json "pusherId" with
    | none => r
    | some pusher_id =>
      match push_info_json.find "rtpParam" with
      | none => r
      | some rtp_param_json =>
        if !rtp_param_json.is_object then r
        else
          match RtpSessionParam.FromJson {} rtp_param_json with
          | none => r
          | some rtp_param =>
            let push_info : PushInfo := { pusher_id_ := pusher_id, param_ := rtp_param }
            let r :=
              (match mfind r.pusher_user_id2sendRelay_ pusher_user_id with
              | none =>
                let remote_port : Nat := (remote_udp_port % 65536).toNat
                let send_relay_ptr :=
                  RtcSendRelay.create r.room_id_ pusher_user_id remote_udp_ip remote_port env now
                { r with pusher_user_id2sendRelay_ :=
                    minsert r.pusher_user_id2sendRelay_ pusher_user_id send_relay_ptr }
              | some _ => r)
            let relays := mmodify r.pusher_user_id2sendRelay_ pusher_user_id
              (fun relay => relay.AddPushInfo push_info)
            { r with pusher_user_id2sendRelay_ := relays }
  | _, _, _ => r

/-- The method `HandleUserDisconnectNotificationFromCenter`. -/
def HandleUserDisconnectNotificationFromCenter (r : Room) (data_json : Json) :
    Room × List Event :=
  match json_string data_json "userId" with
  | none => (r, [])
  | some user_id =>
    match mfind r.users_ user_id with
    | none => (r, [])
    | some user =>
      if !user.remote_ then (r, [])
      else
        let notify_json := Json.obj []
        let notify_json := notify_json.set "userId" (.str user_id)
        let notify_json := notify_json.set "roomId" (.str r.room_id_)
        (r, r.users_.filterMap (fun notify_user_pair =>
          match notify_user_pair.2.resp_cb_ with
          | some resp_cb => some (Event.Notification resp_cb "userDisconnect" notify_json)
          | none => none))

/-- The method `HandleUserLeaveNotificationFromCenter`. -/
def HandleUserLeaveNotificationFromCenter (r : Room) (data_json : Json) : Room × List Event :=
  match json_string data_json "userId" with
  | none => (r, [])
  | some user_id =>
    match mfind r.users_ user_id with
    | none => (r, [])
    | some user =>
      if !user.remote_ then (r, [])
      else
        let notify_json := Json.obj []
        let notify_json := notify_json.set "userId" (.str user_id)
        let notify_json := notify_json.set "roomId" (.str r.room_id_)
        (r, r.users_.filterMap (fun notify_user_pair =>
          let notify_user := notify_user_pair.2
          if notify_user.user_id_ = user_id then none
          else if notify_user.remote_ then none
          else match notify_user.resp_cb_ with
            | some resp_cb => some (Event.Notification resp_cb "userLeave" notify_json)
            | none => none))

/-- The method `NotifyTextMessage2LocalUsers`. -/
def NotifyTextMessage2LocalUsers (r : Room) (from_user_id from_user_name message : String) :
    List Event :=
  let notify_json := Json.obj []
  let notify_json := notify_json.set "userId" (.str from_user_id)
  let notify_json := notify_json.set "userName" (.str from_user_name)
  let notify_json := notify_json.set "message" (.str message)
  let notify_json := notify_json.set "roomId" (.str r.room_id_)
  r.users_.filterMap (fun notify_user_pair =>
    let notify_user := notify_user_pair.2
    if notify_user.user_id_ = from_user_id then none
    else match notify_user.resp_cb_ with
      | some resp_cb => some (Event.Notification resp_cb "textMessage" notify_json)
      | none => none)

/-- The method `HandleNotifyTextMessageFromCenter`. -/
def HandleNotifyTextMessageFromCenter (r : Room) (data_json : Json) : Room × List Event :=
  match json_string data_json "userId", json_string data_json "userName",
      json_string data_json "message" with
  | some from_user_id, some from_user_name, some message =>
    (r, NotifyTextMessage2LocalUsers r from_user_id from_user_name message)
  | _, _, _ => (r, [])

end Room

/-! ## rtc_send_relay.cpp: packets and receiver reports -/

/-- One report block of an RTCP receiver report, as far as the relay reads it: the
    reportee SSRC, and the rest of the block. -/
structure RtcpRrBlockInfo where
  reportee_ssrc : Nat
  body : List Nat := []
  deriving DecidableEq, Repr

/-- A call that leaves an `RtcSendRelay`: the bytes of a packet written to the UDP client
    for an address, or a report block handed to the send session of an SSRC. -/
inductive SendRelayCall where
  | UdpWrite (rtp_packet : RtpPacket) (address : UdpTuple)
  | RecvRtcpRrBlock (ssrc : Nat) (rr_block : RtcpRrBlockInfo)
  deriving DecidableEq, Repr

/-- What an `RtcSendRelay` meets while it sends one packet: the result of `SendRtpPacket`
    of the send session (`none` is a `CppStreamException` thrown by it) and the random
    value drawn by the discard hook. -/
structure SendRelayEnv where
  send_rtp_packet : Option Bool := some true
  rand_val : Nat := 100
  deriving DecidableEq, Repr

namespace RtcSendRelay

/-- The method `DiscardPacketByPercent`; `rand_val` is the value of
    `ByteCrypto::GetRandomUint(0, 100)`. -/
def DiscardPacketByPercent (percent rand_val : Nat) : Bool :=
  if percent > 0 then
    (if rand_val ≤ percent then true else false)
  else false

/-- The method `OnTransportSendRtp`; `now` is the value of `now_millisec()`. -/
def OnTransportSendRtp (r : RtcSendRelay) (now : Int) (env : SendRelayEnv) (rtp_packet : RtpPacket) :
    RtcSendRelay × List SendRelayCall :=
  if DiscardPacketByPercent r.send_discard_percent_ env.rand_val then (r, [])
  else
    let r := { r with last_alive_ms_ := now }
    let remote_address : UdpTuple := { ip_address := r.remote_ip_, port := r.remote_port_ }
    (r, [.UdpWrite rtp_packet remote_address])

/-- The call of `SendRtpPacket` on the session found for a packet, and what follows it. -/
def SendRtpPacket_session (r : RtcSendRelay) (now : Int) (env : SendRelayEnv)
    (rtp_packet : RtpPacket) : RtcSendRelay × List SendRelayCall :=
  match env.send_rtp_packet with
  | none => (r, [])
  | some false => (r, [])
  | some true => r.OnTransportSendRtp now env rtp_packet

/-- The method `SendRtpPacket`. -/
def SendRtpPacket (r : RtcSendRelay) (now : Int) (env : SendRelayEnv) (in_rtp_pkt : RtpPacket) :
    RtcSendRelay × List SendRelayCall :=
  let rtp_packet := in_rtp_pkt
  let ssrc := rtp_packet.ssrc
  match mfind r.ssrc2send_session_ ssrc with
  | some _ => r.SendRtpPacket_session now env rtp_packet
  | none =>
    match mfind r.rtx_ssrc2send_session_ ssrc with
    | some _ => r.SendRtpPacket_session now env rtp_packet
    | none => (r, [])

/-- The loop over the report blocks in `HandleRtcpRrPacket`. -/
def HandleRtcpRrPacket_loop (r : RtcSendRelay) : List RtcpRrBlockInfo → List SendRelayCall
  | [] => []
  | rr_block :: rest =>
    let reportee_ssrc := rr_block.reportee_ssrc
    match mfind r.ssrc2send_session_ reportee_ssrc with
    | some _ => .RecvRtcpRrBlock reportee_ssrc rr_block :: HandleRtcpRrPacket_loop r rest
    | none => []

/-- The method `HandleRtcpRrPacket`; `rr_blocks` is what `RtcpRrPacket::Parse` and
    `GetRrBlocks` give, `none` if the parse returns null or throws. -/
def HandleRtcpRrPacket (r : RtcSendRelay) (rr_blocks : Option (List RtcpRrBlockInfo)) :
    List SendRelayCall :=
  match rr_blocks with
  | none => []
  | some rr_blocks => r.HandleRtcpRrPacket_loop rr_blocks

end RtcSendRelay

/-! ## room.cpp: key frame requests and the answer of a pull -/

/-- A call that leaves the Room in `OnKeyFrameRequest`: one made by the `MediaPusher` or one
    made by the `RtcRecvRelay` the request was handed to. -/
inductive KeyFrameCall where
  | Pusher (call : PusherCall)
  | Relay (call : RelayCall)
  deriving DecidableEq, Repr

/-- The method `OnKeyFrameRequest`; `clock` is the value of `now_millisec()`. The result
    `none` is the access `user->second` through `users_.end()`, which the source makes
    without a test when `pusher_user_id` is no key of `users_`. The `assert` in
    `MediaPusher::RequestKeyFrame` is left out. -/
def Room.OnKeyFrameRequest (r : Room) (clock : Int) (pusher_id puller_user_id : String)
    (pusher_user_id : String) (ssrc : Nat) : Option (Room × List KeyFrameCall) :=
  let _ := puller_user_id
  match mfind r.users_ pusher_user_id with
  | none => none
  | some user =>
    if user.remote_ then
      match mfind r.pusher_user_id2recvRelay_ pusher_user_id with
      | some relay_ptr =>
        match r.recv_relay_heap_.get? relay_ptr with
        | some relay => some (r, (relay.RequestKeyFrame ssrc).map .Relay)
        | none => some (r, [])
      | none => some (r, [])
    else
      match mfind r.pusherId2pusher_ pusher_id with
      | some media_pusher =>
        let requested := media_pusher.RequestKeyFrame clock ssrc
        some ({ r with pusherId2pusher_ := minsert r.pusherId2pusher_ pusher_id requested.1 },
          requested.2.map .Pusher)
      | none => some (r, [])

/-- The directions of a media section that room.cpp names. -/
inductive SdpDirection where
  | DIRECTION_SENDONLY
  | DIRECTION_RECVONLY
  deriving DecidableEq, Repr

/-- The members of `SsrcInfo` that `UpdateRtcSdpByPullers` sets. -/
structure SsrcInfo where
  ssrc_ : Nat
  is_main_ : Bool
  cname_ : String
  stream_id_ : String
  deriving DecidableEq, Repr

/-- The members of `RtcSdpMediaCodec` that `UpdateRtcSdpByPullers` sets. -/
structure RtcSdpMediaCodec where
  codec_name_ : String
  is_rtx_ : Bool
  payload_type_ : Nat
  rate_ : Nat
  channel_ : Int
  fmtp_param_ : String
  rtx_payload_type_ : Nat
  rtcp_features_ : List String
  deriving DecidableEq, Repr

/-- The members of a media section that `UpdateRtcSdpByPullers` reads and writes. -/
structure RtcSdpMediaSection where
  media_type_ : MEDIA_PKT_TYPE
  direction_ : SdpDirection
  ssrc_infos_ : U32Map SsrcInfo := []
  media_codecs_ : U32Map RtcSdpMediaCodec := []
  deriving DecidableEq, Repr

/-- The member `media_sections_` of `RtcSdp`, a map the Room only iterates. -/
structure RtcSdp where
  media_sections_ : U32Map RtcSdpMediaSection := []
  deriving DecidableEq, Repr

/-- Modelled from the spec: `media_puller.hpp` is not among the sources; the media type of
    a puller is the av_type of the parameters "copied from the pusher" it was built with. -/
def MediaPuller.GetMediaType (pl : MediaPuller) : MEDIA_PKT_TYPE := pl.param_.av_type_

namespace Room

/-- The body of the inner loop of `UpdateRtcSdpByPullers` for a media section of the
    puller's media type; `stream_id` is the value of `UUID::MakeUUID2()`. -/
def UpdateRtcSdpByPullers_section (param : RtpSessionParam) (stream_id : String)
    (section_ : RtcSdpMediaSection) : RtcSdpMediaSection :=
  let ssrc_info : SsrcInfo :=
    { ssrc_ := param.ssrc_, is_main_ := true, cname_ := "cname_" ++ toString param.ssrc_,
      stream_id_ := stream_id }
  let ssrc_infos := minsert ([] : U32Map SsrcInfo) param.ssrc_ ssrc_info
  let ssrc_infos :=
    if param.rtx_ssrc_ ≠ 0 then
      let rtx_ssrc_info : SsrcInfo :=
        { ssrc_ := param.rtx_ssrc_, is_main_ := false,
          cname_ := "cname_" ++ toString param.rtx_ssrc_, stream_id_ := ssrc_info.stream_id_ }
      minsert ssrc_infos param.rtx_ssrc_ rtx_ssrc_info
    else ssrc_infos
  let main_codec_ptr : RtcSdpMediaCodec :=
    { codec_name_ := param.codec_name_, is_rtx_ := false, payload_type_ := param.payload_type_,
      rate_ := param.clock_rate_, channel_ := param.channel_, fmtp_param_ := param.fmtp_param_,
      rtx_payload_type_ := param.rtx_payload_type_, rtcp_features_ := param.rtcp_features_ }
  { section_ with
    direction_ := .DIRECTION_SENDONLY
    ssrc_infos_ := ssrc_infos
    media_codecs_ := minsert section_.media_codecs_ param.payload_type_ main_codec_ptr }

/-- The inner loop of `UpdateRtcSdpByPullers` over the media sections for one puller; `n`
    counts the UUIDs drawn so far and `uuid n` is the n-th one. -/
def UpdateRtcSdpByPullers_sections (media_puller : MediaPuller) (uuid : Nat → String) :
    U32Map RtcSdpMediaSection → Nat → U32Map RtcSdpMediaSection × Nat
  | [], n => ([], n)
  | (key, section_) :: rest, n =>
    if section_.media_type_ = media_puller.GetMediaType then
      let updated := UpdateRtcSdpByPullers_section media_puller.param_ (uuid n) section_
      let tail := UpdateRtcSdpByPullers_sections media_puller uuid rest (n + 1)
      ((key, updated) :: tail.1, tail.2)
    else
      let tail := UpdateRtcSdpByPullers_sections media_puller uuid rest n
      ((key, section_) :: tail.1, tail.2)

/-- The method `UpdateRtcSdpByPullers`, which returns 0: the answer after it. -/
def UpdateRtcSdpByPullers (media_pullers : List MediaPuller) (answer_sdp : RtcSdp)
    (uuid : Nat → String) : RtcSdp :=
  (media_pullers.foldl (fun (acc : RtcSdp × Nat) media_puller =>
    let sections := UpdateRtcSdpByPullers_sections media_puller uuid acc.1.media_sections_ acc.2
    (({ media_sections_ := sections.1 } : RtcSdp), sections.2)) (answer_sdp, 0)).1

end Room

/-! ## Runs of a Room -/

/-- A call of a Room method, with the time at which it runs and what its collaborators
    hand back. -/
inductive Op where
  | UserJoin (now : Int) (user_id user_name : String) (id : Int) (resp_cb : RespCb)
  | UserLeave (now : Int) (user_id : String)
  | DisconnectUser (now : Int) (user_id : String)
  | HandlePushSdp (now : Int) (user_id : String) (env : PushSdpEnv) (id : Int) (resp_cb : RespCb)
  | HandlePullSdp (now : Int) (pull_info : PullRequestInfo) (env : PullSdpEnv) (id : Int)
      (resp_cb : RespCb)
  | HandleRemotePullSdp (now : Int) (pusher_user_id : String) (pull_info : PullRequestInfo)
      (env : PullSdpEnv) (id : Int) (resp_cb : RespCb)
  | HandleWsHeartbeat (now : Int) (user_id : String)
  | OnRtpPacketFromRtcPusher (now : Int) (user_id session_id pusher_id : String)
      (rtp_packet : RtpPacket)
  | OnRtpPacketFromRemoteRtcPusher (now : Int) (pusher_user_id pusher_id : String)
      (rtp_packet : RtpPacket)
  | OnPushClose (pusher_id : String)
  | OnPullClose (puller_id : String)
  | OnTimer (now : Int)
  | OnAsyncRequestResponse (now : Int) (method : String) (resp_json : Json)
  | HandleNewUserNotificationFromCenter (now : Int) (data_json : Json)
  | HandleNewPusherNotificationFromCenter (now : Int) (data_json : Json)
  | HandlePullRemoteStreamNotificationFromCenter (now : Int) (env : RelayEnv) (data_json : Json)
  | HandleUserDisconnectNotificationFromCenter (data_json : Json)
  | HandleUserLeaveNotificationFromCenter (data_json : Json)
  | HandleNotifyTextMessageFromCenter (data_json : Json)
  | Close

/-- The Room after a call. A call that faults leaves no Room behind: the run stays at the
    Room before it, as if the call had not been made, so every Room a run passes through
    is one the Room can be in. -/
def step (r : Room) : Op → Room
  | .UserJoin now user_id user_name id resp_cb => (r.UserJoin now user_id user_name id resp_cb).room
  | .UserLeave now user_id => (r.UserLeave now user_id).room
  | .DisconnectUser now user_id => (r.DisconnectUser now user_id).room
  | .HandlePushSdp now user_id env id resp_cb => (r.HandlePushSdp now user_id env id resp_cb).room
  | .HandlePullSdp now pull_info env id resp_cb =>
    (r.HandlePullSdp now pull_info env id resp_cb).room
  | .HandleRemotePullSdp now pusher_user_id pull_info env id resp_cb =>
    match r.HandleRemotePullSdp now pusher_user_id pull_info env id resp_cb with
    | some out => out.room
    | none => r
  | .HandleWsHeartbeat now user_id => (r.HandleWsHeartbeat now user_id).1
  | .OnRtpPacketFromRtcPusher now user_id session_id pusher_id rtp_packet =>
    (r.OnRtpPacketFromRtcPusher now user_id session_id pusher_id rtp_packet).1
  | .OnRtpPacketFromRemoteRtcPusher now pusher_user_id pusher_id rtp_packet =>
    (r.OnRtpPacketFromRemoteRtcPusher now pusher_user_id pusher_id rtp_packet).1
  | .OnPushClose pusher_id => r.OnPushClose pusher_id
  | .OnPullClose puller_id => r.OnPullClose puller_id
  | .OnTimer now => (r.OnTimer now).1
  | .OnAsyncRequestResponse now method resp_json =>
    (r.OnAsyncRequestResponse now method resp_json).1
  | .HandleNewUserNotificationFromCenter now data_json =>
    (r.HandleNewUserNotificationFromCenter now data_json).1
  | .HandleNewPusherNotificationFromCenter now data_json =>
    (r.HandleNewPusherNotificationFromCenter now data_json).1
  | .HandlePullRemoteStreamNotificationFromCenter now env data_json =>
    r.HandlePullRemoteStreamNotificationFromCenter now env data_json
  | .HandleUserDisconnectNotificationFromCenter data_json =>
    (r.HandleUserDisconnectNotificationFromCenter data_json).1
  | .HandleUserLeaveNotificationFromCenter data_json =>
    (r.HandleUserLeaveNotificationFromCenter data_json).1
  | .HandleNotifyTextMessageFromCenter data_json =>
    (r.HandleNotifyTextMessageFromCenter data_json).1
  | .Close => r.Close

/-- The Room after a sequence of calls. -/
def run (r : Room) (ops : List Op) : Room := ops.foldl step r

/-- The states a Room can be in: those reached from a freshly constructed Room by a
    sequence of calls. -/
inductive Reachable : Room → Prop where
  | init (room_id : String) (pilot_client : Bool) (now : Int) :
      Reachable (Room.create room_id pilot_client now)
  | step {r : Room} (op : Op) : Reachable r → Reachable (step r op)

/-! ## Scenarios -/

/-- A video stream: primary SSRC 100, RTX SSRC 101. -/
def video100 : RtpSessionParam :=
  { av_type_ := MEDIA_VIDEO_TYPE, ssrc_ := 100, rtx_ssrc_ := 101, payload_type_ := 96,
    rtx_payload_type_ := 97 }

/-- User a joins and publishes pusher p, user b joins and pulls p, then the session of a
    closes the pusher. -/
def closed_pusher_ops : List Op :=
  [ .UserJoin 0 "a" "A" 1 10,
    .HandlePushSdp 0 "a" { session_id := "s", rtp_params := [(video100, "p")] } 2 10,
    .UserJoin 0 "b" "B" 3 11,
    .HandlePullSdp 0
      { target_user_id_ := "a", src_user_id_ := "b", room_id_ := "R",
        pushers_ := [{ pusher_id_ := "p" }] }
      { session_id := "t", add_puller := fun _ => (0, "q") } 4 11,
    .OnPushClose "p" ]

/-- The Room after `closed_pusher_ops`. -/
def closed_pusher_room : Room := run (Room.create "R" false 0) closed_pusher_ops

/-- An RTP packet of the stream `video100`. -/
def packet100 : RtpPacket := { ssrc := 100, seq := 1, payload_type := 96, payload := [1, 2, 3] }

/-- The pullers named by the `MediaPuller::OnTransportSendRtp` calls, in call order. -/
def puller_calls (events : List Event) : List MediaPuller :=
  events.filterMap (fun e =>
    match e with
    | .PullerOnTransportSendRtp media_puller _ => some media_puller
    | _ => none)

/-- The relays named by the `RtcSendRelay::SendRtpPacket` calls, in call order. -/
def relay_calls (events : List Event) : List RtcSendRelay :=
  events.filterMap (fun e =>
    match e with
    | .SendRelaySendRtpPacket relay _ => some relay
    | _ => none)

/-- Users a and b are in the Room; a publishes pusher p. -/
def two_users_room : Room :=
  run (Room.create "R" false 0)
    [ .UserJoin 0 "a" "A" 1 10,
      .HandlePushSdp 0 "a" { session_id := "s", rtp_params := [(video100, "p")] } 2 10,
      .UserJoin 0 "b" "B" 3 11 ]

/-- User u joins with callback 10, leaves, and joins again with callback 20. -/
def rejoin_ops : List Op :=
  [ .UserJoin 0 "u" "U" 1 10, .UserLeave 1000 "u", .UserJoin 2000 "u" "U" 2 20 ]

/-- Nothing of user u is left in the Room: no entry in `users_`, no MediaPusher owned by u,
    no send relay of u, and no MediaPuller whose puller user is u. -/
def released (r : Room) (u : String) : Prop :=
  (∀ e ∈ r.users_, e.1 ≠ u) ∧ mfind r.users_ u = none ∧
    (∀ e ∈ r.pusherId2pusher_, e.2.user_id_ ≠ u) ∧
    (∀ e ∈ r.pusher_user_id2sendRelay_, e.1 ≠ u) ∧
    mfind r.pusher_user_id2sendRelay_ u = none ∧
    (∀ e ∈ r.pusher2pullers_, ∀ q ∈ e.2, q.2.puller_user_id_ ≠ u)

/-- User a publishes pusher p and user b pulls it. -/
def pull_room : Room := run (Room.create "R" false 0) (closed_pusher_ops.take 4)

/-- The entry of one user in a join snapshot, in the words of the spec:
    `{userId, userName, pushers[]}`, the pushers being the `DumpJson` of each PushInfo. -/
def snapshot_entry (user : RtcUser) : Json :=
  .obj [("pushers", .arr (user.pushers_.map (fun pair => pair.2.DumpJson (.obj [])))),
    ("userId", .str user.user_id_), ("userName", .str user.user_name_)]

/-- The `users` array of a join snapshot, in the words of the spec: one entry for each user
    of the Room other than the one joining. -/
def join_snapshot (users : StrMap RtcUser) (u : String) : List Json :=
  (users.filter (fun pair => !decide (pair.1 = u))).map (fun pair => snapshot_entry pair.2)

/-- The `users` member of each response sent, in call order. -/
def response_users (events : List Event) : List Json :=
  events.filterMap (fun e =>
    match e with
    | .OnProtooResponse _ _ _ _ data => data.find "users"
    | _ => none)

/-- Every user is stored under its own id. -/
def users_keyed (r : Room) : Prop := ∀ e ∈ r.users_, e.2.user_id_ = e.1

/-- User u joins on callback 10; then the pilot announces a pusher of user u. -/
def local_marked_remote_ops : List Op :=
  [ .UserJoin 0 "u" "U" 1 10,
    .HandleNewPusherNotificationFromCenter 5
      (.obj [("pushers", .arr []), ("roomId", .str "R"), ("userId", .str "u"),
        ("userName", .str "U")]) ]

/-- Invariant 1 of the spec: every pusher id under which `pusher2pullers_` holds at least
    one MediaPuller is a key of `pusherId2pusher_` or of `pusherId2recvRelay_`. -/
def pullers_have_pusher (r : Room) : Prop :=
  ∀ p pullers, mfind r.pusher2pullers_ p = some pullers → pullers ≠ [] →
    mcontains r.pusherId2pusher_ p = true ∨ mcontains r.pusherId2recvRelay_ p = true

/-- The calls that take a pusher or a recv relay out of the Room. -/
def Op.removes_pusher : Op → Bool
  | .OnPushClose _ => true
  | .OnTimer _ => true
  | _ => false

/-- The second Room differs from the first in `users_` and `last_alive_ms_` at most. -/
def only_users_changed (r r' : Room) : Prop :=
  ∃ users last_alive_ms, r' = { r with users_ := users, last_alive_ms_ := last_alive_ms }

/-- Every pusher and every PushInfo of a recv relay is stored under its own pusher id. -/
def pushers_keyed (r : Room) : Prop :=
  (∀ e ∈ r.pusherId2pusher_, e.2.pusher_id_ = e.1) ∧
    (∀ relay ∈ r.recv_relay_heap_, ∀ e ∈ relay.push_infos_, e.2.pusher_id_ = e.1)

/-- Invariant 1 of the spec together with the keying of pushers that upholds it. -/
def media_consistent (r : Room) : Prop := pullers_have_pusher r ∧ pushers_keyed r

/-- The second Room holds the pushers and pullers of the first, every key of
    `pusherId2recvRelay_` of the first, and relays whose PushInfos are stored under their
    own pusher ids if those of the first are. -/
def relays_grow (r r' : Room) : Prop :=
  r'.pusher2pullers_ = r.pusher2pullers_ ∧ r'.pusherId2pusher_ = r.pusherId2pusher_ ∧
    (∀ p, mcontains r.pusherId2recvRelay_ p = true → mcontains r'.pusherId2recvRelay_ p = true) ∧
    ((∀ relay ∈ r.recv_relay_heap_, ∀ e ∈ relay.push_infos_, e.2.pusher_id_ = e.1) →
      (∀ relay ∈ r'.recv_relay_heap_, ∀ e ∈ relay.push_infos_, e.2.pusher_id_ = e.1))

/-- The object of the JSON schema of `RtpSessionParam`, written out key by key in the
    order of the keys: the ten keys that are always there, `channel`, `key_request` and
    the three extension ids only under their conditions, and `rtcp_features` as the array
    of the features in order. -/
def schema_object (p : RtpSessionParam) : Json :=
  .obj (
    (if p.abs_send_time_ext_id_ > 0 then
      [("abs_send_time_ext_id", Json.num p.abs_send_time_ext_id_)] else []) ++
    [("av_type", Json.str (avtype_tostring p.av_type_))] ++
    (if p.channel_ > 0 then [("channel", Json.num p.channel_)] else []) ++
    [("clock_rate", Json.num p.clock_rate_),
     ("codec", Json.str p.codec_name_),
     ("fmtp_param", Json.str p.fmtp_param_)] ++
    (if p.key_request_ then [("key_request", Json.bool true)] else []) ++
    (if p.mid_ext_id_ > 0 then [("mid_ext_id", Json.num p.mid_ext_id_)] else []) ++
    [("payload_type", Json.num p.payload_type_),
     ("rtcp_features", Json.arr (p.rtcp_features_.map Json.str)),
     ("rtx_payload_type", Json.num p.rtx_payload_type_),
     ("rtx_ssrc", Json.num p.rtx_ssrc_),
     ("ssrc", Json.num p.ssrc_)] ++
    (if p.tcc_ext_id_ > 0 then [("tcc_ext_id", Json.num p.tcc_ext_id_)] else []) ++
    [("use_nack", Json.bool p.use_nack_)])

/-- The keys of the schema that `p` has: the ten fixed ones and the optional ones whose
    condition holds for `p`. -/
def schema_key (p : RtpSessionParam) (k : String) : Prop :=
  k ∈ ["av_type", "codec", "fmtp_param", "rtcp_features", "ssrc", "payload_type",
       "clock_rate", "rtx_ssrc", "rtx_payload_type", "use_nack"] ∨
  (k = "channel" ∧ p.channel_ > 0) ∨
  (k = "key_request" ∧ p.key_request_ = true) ∨
  (k = "mid_ext_id" ∧ p.mid_ext_id_ > 0) ∨
  (k = "tcc_ext_id" ∧ p.tcc_ext_id_ > 0) ∨
  (k = "abs_send_time_ext_id" ∧ p.abs_send_time_ext_id_ > 0)

/-- The value ranges of the C++ member types of `RtpSessionParam`: `uint32_t` for the
    SSRCs and the clock rate, `uint8_t` for the payload types, `int` for the channel
    count and the three extension ids. -/
def RtpSessionParam.in_range (p : RtpSessionParam) : Prop :=
  p.ssrc_ < 4294967296 ∧ p.payload_type_ < 256 ∧ p.clock_rate_ < 4294967296 ∧
  p.rtx_ssrc_ < 4294967296 ∧ p.rtx_payload_type_ < 256 ∧
  (-2147483648 ≤ p.channel_ ∧ p.channel_ < 2147483648) ∧
  (-2147483648 ≤ p.mid_ext_id_ ∧ p.mid_ext_id_ < 2147483648) ∧
  (-2147483648 ≤ p.tcc_ext_id_ ∧ p.tcc_ext_id_ < 2147483648) ∧
  (-2147483648 ≤ p.abs_send_time_ext_id_ ∧ p.abs_send_time_ext_id_ < 2147483648)

/-- What a default-constructed `RtpSessionParam` holds after it has read the schema
    object of `p`: the fields of `p`, except that `mid_` and every optional field whose
    key `p` does not write keep their default. -/
def RtpSessionParam.schema_image (p : RtpSessionParam) : RtpSessionParam :=
  { p with
    mid_ := -1
    channel_ := if p.channel_ > 0 then p.channel_ else 0
    mid_ext_id_ := if p.mid_ext_id_ > 0 then p.mid_ext_id_ else -1
    tcc_ext_id_ := if p.tcc_ext_id_ > 0 then p.tcc_ext_id_ else -1
    abs_send_time_ext_id_ :=
      if p.abs_send_time_ext_id_ > 0 then p.abs_send_time_ext_id_ else -1 }

/-- A video stream whose mid extension id is 0. -/
def zero_ext_id_param : RtpSessionParam :=
  { av_type_ := MEDIA_VIDEO_TYPE, ssrc_ := 100, payload_type_ := 96, mid_ext_id_ := 0 }

/-- A video pusher for SSRC 100 with RTX SSRC 101, with its receive session created. -/
def rtx_pusher : MediaPusher :=
  (MediaPusher.create video100 "R" "a" "s" "p").CreateRtpRecvSession

/-- An RTX packet for SSRC 101 with three bytes of payload. -/
def packet101 : RtpPacket := { ssrc := 101, seq := 7, payload_type := 97, payload := [1, 2, 3] }

/-- A receive session that accepts an RTX packet, flags no repeat, and leaves the packet
    under the RTX SSRC it came with. -/
def undemuxed_env : RecvSessionEnv :=
  { receive_rtp := true, receive_rtx := true, repeat_ := false, demux := id }

/-- The packet a `MediaPusher` hands to the Room: the stamped packet on the primary path,
    the stamped packet as `ReceiveRtxPacket` leaves it on the RTX path. -/
def MediaPusher.forwarded (mp : MediaPusher) (env : RecvSessionEnv) (pkt : RtpPacket) :
    RtpPacket :=
  if mcontains mp.ssrc2sessions_ pkt.ssrc then mp.SetExtensionIds pkt
  else env.demux (mp.SetExtensionIds pkt)

/-- A video pusher that logged statistics at 9000 ms and last asked for a key frame at
    0 ms. -/
def late_statics_pusher : MediaPusher :=
  { rtx_pusher with last_statics_ms_ := 9000, last_keyframe_request_ms_ := 0 }

/-- A puller of pusher p as its constructor leaves it. -/
def fresh_puller : MediaPuller := MediaPuller.create video100 "R" "b" "a" "p" "s2" "q"

/-- A receive relay for the remote user u, constructed at time 0, that carries the video
    stream with SSRC 100 as pusher p. -/
def virtual_relay : RtcRecvRelay :=
  (RtcRecvRelay.create "R" "u" {} 0).AddVirtualPusher { pusher_id_ := "p", param_ := video100 }

/-- A datagram that `IsRtp` takes for RTP and on which `RtpPacket::Parse` throws. -/
def unparsable_env : DatagramEnv := { is_rtcp := false, is_rtp := true, parsed := none }

/-- A datagram that is neither RTCP nor RTP. -/
def unknown_env : DatagramEnv := { is_rtcp := false, is_rtp := false, parsed := none }

/-- A datagram that parses as the RTP packet with SSRC 100. -/
def rtp100_env : DatagramEnv := { is_rtcp := false, is_rtp := true, parsed := some packet100 }

/-- Two sender addresses. -/
def address_a : UdpTuple := { ip_address := "10.0.0.1", port := 5000 }

/-- The second sender address. -/
def address_b : UdpTuple := { ip_address := "10.0.0.2", port := 6000 }

/-- An RTP datagram from the first address at time 1, then a datagram of unknown type
    from the second address at time 2. -/
def two_senders : List Datagram :=
  [ { now := 1, env := rtp100_env, data := [128, 96], address := address_a },
    { now := 2, env := unknown_env, data := [0], address := address_b } ]

/-- Whether a relay with the given discard percentage goes on to classify a datagram: the
    discard hook lets it pass and it is not empty. -/
def Datagram.passes (percent : Nat) (d : Datagram) : Bool :=
  !RtcRecvRelay.DiscardPacketByPercent percent d.env.rand_val && d.data.length != 0

/-- The sender of the last datagram of a list that passes, or the given address if none
    does. -/
def last_sender (percent : Nat) (start : UdpTuple) (datagrams : List Datagram) : UdpTuple :=
  (((datagrams.filter (Datagram.passes percent)).map (fun d => d.address)).getLast?).getD start

/-- The packet an `RtcRecvRelay` hands to the Room: the parsed packet if its SSRC has a
    primary session, the packet as `ReceiveRtxPacket` leaves it otherwise. -/
def RtcRecvRelay.effective (r : RtcRecvRelay) (env : DatagramEnv) (pkt : RtpPacket) :
    RtpPacket :=
  if mcontains r.ssrc2recv_session_ pkt.ssrc then pkt else env.demux pkt

/-- A second PushInfo under the pusher id p and the SSRC 100 that the relay already
    carries, with another payload type. -/
def changed_push_info : PushInfo :=
  { pusher_id_ := "p", param_ := { video100 with payload_type_ := 98 } }

/-- The receive session an `RtcRecvRelay` builds for a PushInfo. -/
def PushInfo.recv_session (pi : PushInfo) : RtpSession := { param_ := pi.param_ }

/-- A send relay for user u toward 10.0.0.9:7000 that carries the video stream with SSRC
    100 and RTX SSRC 101 as pusher p and discards nothing. -/
def video_send_relay : RtcSendRelay :=
  (RtcSendRelay.create "R" "u" "10.0.0.9" 7000 {} 0).AddPushInfo
    { pusher_id_ := "p", param_ := video100 }

/-- A receiver report whose first block names the unknown SSRC 999 and whose second block
    names SSRC 100. -/
def mixed_report : List RtcpRrBlockInfo :=
  [ { reportee_ssrc := 999, body := [1] }, { reportee_ssrc := 100, body := [2] } ]

/-- The push offer of one video stream, for which the session builds pusher p. -/
def one_stream_env : PushSdpEnv :=
  { session_id := "s", rtp_params := [(video100, "p")], answer_sdp_str := "answer" }

/-- The responses among the calls of a handler: callback, request id and code of each. -/
def protoo_responses (events : List Event) : List (RespCb × Int × Int) :=
  events.filterMap (fun e =>
    match e with
    | .OnProtooResponse resp_cb id code _ _ => some (resp_cb, id, code)
    | _ => none)

/-- User a joins at 0 ms and user b at 30000 ms; then the pilot announces the remote
    user c. -/
def timer_room : Room :=
  run (Room.create "R" false 0)
    [ .UserJoin 0 "a" "A" 1 10,
      .UserJoin 30000 "b" "B" 2 11,
      .HandleNewUserNotificationFromCenter 30000
        (.obj [("roomId", .str "R"), ("userId", .str "c"), ("userName", .str "C")]) ]

/-- The pilot's notification that user c left or was disconnected. -/
def gone_c : Json := .obj [("roomId", .str "R"), ("userId", .str "c")]

/-- The pilot's notification that a subscriber at `udp_ip`:`udp_port` pulls the video
    stream with SSRC 100, pusher `pusher_id`, of user a. -/
def pull_notification (udp_ip : String) (udp_port : Int) (pusher_id : String) : Json :=
  .obj [("pushInfo", ({ pusher_id_ := pusher_id, param_ := video100 } : PushInfo).DumpJson
          (.obj [])),
        ("pusher_user_id", .str "a"), ("udp_ip", .str udp_ip), ("udp_port", .num udp_port)]

/-- The Room after the pilot announced a subscriber at 10.0.0.7:7000 for pusher p of
    user a. -/
def relayed_room : Room :=
  run (Room.create "R" false 0)
    [ .HandlePullRemoteStreamNotificationFromCenter 1 {} (pull_notification "10.0.0.7" 7000 "p") ]

/-- The codec of a media section built from the publisher's parameters: payload type,
    codec name, clock rate, channel, fmtp, RTX payload type and rtcp features. -/
def codec_of (param : RtpSessionParam) : RtcSdpMediaCodec :=
  { codec_name_ := param.codec_name_, is_rtx_ := false, payload_type_ := param.payload_type_,
    rate_ := param.clock_rate_, channel_ := param.channel_, fmtp_param_ := param.fmtp_param_,
    rtx_payload_type_ := param.rtx_payload_type_, rtcp_features_ := param.rtcp_features_ }

/-- The SSRC entry a pulled media section has under `s`: the RTX SSRC of the puller, not
    main, if `rtx_ssrc` is not 0; its primary SSRC, main; nothing else. Both carry the
    stream id `stream_id`. -/
def ssrc_info_of (param : RtpSessionParam) (stream_id : String) (s : Nat) : Option SsrcInfo :=
  if param.rtx_ssrc_ ≠ 0 ∧ param.rtx_ssrc_ = s then
    some { ssrc_ := param.rtx_ssrc_, is_main_ := false,
           cname_ := "cname_" ++ toString param.rtx_ssrc_, stream_id_ := stream_id }
  else if param.ssrc_ = s then
    some { ssrc_ := param.ssrc_, is_main_ := true,
           cname_ := "cname_" ++ toString param.ssrc_, stream_id_ := stream_id }
  else none

/-- Section `b` is section `a` after a puller with parameters `param` was written into
    it: same media type, direction sendonly, the SSRC entries of the puller and no
    others, the codec of the puller under its payload type, and under every other
    payload type the codec `a` had. -/
def pulled_section (param : RtpSessionParam) (stream_id : String)
    (a b : RtcSdpMediaSection) : Prop :=
  b.media_type_ = a.media_type_ ∧ b.direction_ = .DIRECTION_SENDONLY ∧
  (∀ s, mfind b.ssrc_infos_ s = ssrc_info_of param stream_id s) ∧
  (∀ k, mfind b.media_codecs_ k =
    if param.payload_type_ = k then some (codec_of param) else mfind a.media_codecs_ k)

/-- What `UpdateRtcSdpByPullers` for a list of pullers does to one media section `a`,
    stored under the same key as `b`: nothing if no puller has its media type; else the
    direction is sendonly, the SSRC entries are those of one of the pullers of its media
    type, whose codec is there under its payload type; no codec `a` had is dropped. -/
def pulled_by (media_pullers : List MediaPuller) (a b : Nat × RtcSdpMediaSection) : Prop :=
  b.1 = a.1 ∧ b.2.media_type_ = a.2.media_type_ ∧
  ((∀ pl ∈ media_pullers, pl.GetMediaType ≠ a.2.media_type_) → b = a) ∧
  ((∃ pl ∈ media_pullers, pl.GetMediaType = a.2.media_type_) →
    b.2.direction_ = .DIRECTION_SENDONLY ∧
    ∃ pl ∈ media_pullers, pl.GetMediaType = a.2.media_type_ ∧ ∃ stream_id,
      (∀ s, mfind b.2.ssrc_infos_ s = ssrc_info_of pl.param_ stream_id s) ∧
      mfind b.2.media_codecs_ pl.param_.payload_type_ = some (codec_of pl.param_)) ∧
  (∀ k, (mfind a.2.media_codecs_ k).isSome = true → (mfind b.2.media_codecs_ k).isSome = true)

/-- An answer with one video section that offers H264 under payload type 96 and VP8 under
    payload type 98. -/
def two_codec_sdp : RtcSdp :=
  { media_sections_ :=
      [(0, { media_type_ := MEDIA_VIDEO_TYPE, direction_ := .DIRECTION_RECVONLY,
             media_codecs_ :=
               [(96, { codec_of video100 with codec_name_ := "H264" }),
                (98, { codec_of video100 with codec_name_ := "VP8", payload_type_ := 98 })] })] }

section MapLemmas

variable {κ : Type} {V : Type} [DecidableEq κ]

theorem mfind_merase_self (m : List (κ × V)) (k : κ) : mfind (merase m k) k = none := by
  induction m with
  | nil => simp [merase, mfind]
  | cons hd tl ih =>
    obtain ⟨k', v'⟩ := hd
    by_cases h1 : k' = k
    · simpa [merase, List.filter_cons, h1] using ih
    · simpa [merase, List.filter_cons, h1, mfind] using ih

theorem mfind_merase_ne (m : List (κ × V)) (k k2 : κ) (h : k ≠ k2) :
    mfind (merase m k) k2 = mfind m k2 := by
  induction m with
  | nil => simp [merase, mfind]
  | cons hd tl ih =>
    obtain ⟨k', v'⟩ := hd
    by_cases h1 : k' = k
    · subst h1
      simpa [merase, List.filter_cons, mfind, h] using ih
    · by_cases h3 : k' = k2
      · subst h3
        simp [merase, List.filter_cons, h1, mfind]
      · simpa [merase, List.filter_cons, h1, mfind, h3] using ih

theorem mfind_merase (m : List (κ × V)) (k k2 : κ) :
    mfind (merase m k) k2 = if k = k2 then none else mfind m k2 := by
  by_cases h : k = k2
  · subst h
    simp [mfind_merase_self]
  · simp [h, mfind_merase_ne m k k2 h]

theorem mfind_mmodify (m : List (κ × V)) (k k2 : κ) (f : V → V) :
    mfind (mmodify m k f) k2 = if k = k2 then (mfind m k2).map f else mfind m k2 := by
  induction m with
  | nil => simp [mmodify, mfind]
  | cons hd tl ih =>
    obtain ⟨k', v'⟩ := hd
    by_cases h1 : k' = k
    · subst h1
      by_cases h2 : k' = k2
      · simp [mmodify, mfind, h2]
      · simp [mmodify, mfind, h2]
    · by_cases h2 : k' = k2
      · subst h2
        have h3 : ¬ k = k' := fun h => h1 h.symm
        simp [mmodify, mfind, h1, h3]
      · simp [mmodify, mfind, h1, h2, ih]

theorem mkeys_mmodify (m : List (κ × V)) (k : κ) (f : V → V) :
    mkeys (mmodify m k f) = mkeys m := by
  induction m with
  | nil => simp [mmodify, mkeys]
  | cons hd tl ih =>
    obtain ⟨k', v'⟩ := hd
    by_cases h1 : k' = k
    · simp [mmodify, mkeys, h1]
    · simpa [mmodify, mkeys, h1] using ih

theorem mfind_some_mem (m : List (κ × V)) (k : κ) (v : V) (h : mfind m k = some v) :
    (k, v) ∈ m := by
  induction m with
  | nil => simp [mfind] at h
  | cons hd tl ih =>
    obtain ⟨k', v'⟩ := hd
    by_cases h1 : k' = k
    · simp [mfind, h1] at h
      simp [h1, h]
    · simp [mfind, h1] at h
      exact List.mem_cons_of_mem _ (ih h)

theorem mem_mfind_isSome (m : List (κ × V)) (k : κ) (v : V) (h : (k, v) ∈ m) :
    (mfind m k).isSome = true := by
  induction m with
  | nil => simp at h
  | cons hd tl ih =>
    obtain ⟨k', v'⟩ := hd
    by_cases h1 : k' = k
    · simp [mfind, h1]
    · simp only [mfind, h1, if_false]
      rcases List.mem_cons.mp h with h2 | h2
      · exact absurd (congrArg Prod.fst h2).symm h1
      · exact ih h2

theorem mem_merase (m : List (κ × V)) (k : κ) (e : κ × V) :
    e ∈ merase m k ↔ e ∈ m ∧ e.1 ≠ k := by
  simp [merase, List.mem_filter]

variable [KeyLt κ]

theorem mfind_minsert_self (m : List (κ × V)) (k : κ) (v : V) :
    mfind (minsert m k v) k = some v := by
  induction m with
  | nil => simp [minsert, mfind]
  | cons hd tl ih =>
    obtain ⟨k', v'⟩ := hd
    by_cases h1 : k' = k
    · simp [minsert, mfind, h1]
    · by_cases h2 : KeyLt.lt k k' = true
      · simp [minsert, mfind, h1, h2]
      · simp [minsert, mfind, h1, h2, ih]

theorem mfind_minsert_ne (m : List (κ × V)) (k k2 : κ) (v : V) (h : k ≠ k2) :
    mfind (minsert m k v) k2 = mfind m k2 := by
  induction m with
  | nil => simp [minsert, mfind, h]
  | cons hd tl ih =>
    obtain ⟨k', v'⟩ := hd
    by_cases h1 : k' = k
    · subst h1
      simp [minsert, mfind, h]
    · by_cases h2 : KeyLt.lt k k' = true
      · simp [minsert, mfind, h1, h2, h]
      · simp [minsert, mfind, h1, h2, ih]

theorem mfind_minsert (m : List (κ × V)) (k k2 : κ) (v : V) :
    mfind (minsert m k v) k2 = if k = k2 then some v else mfind m k2 := by
  by_cases h : k = k2
  · subst h
    simp [mfind_minsert_self]
  · simp [h, mfind_minsert_ne m k k2 v h]

end MapLemmas

/-! ## Fan-out of a packet of a local pusher -/

theorem forward_fold (now : Int) (pkt : RtpPacket) (pullers : StrMap MediaPuller)
    (acc : Room × List Event) :
    (pullers.foldl (Room.forward_to_puller now pkt) acc).2 =
        acc.2 ++ pullers.map (fun pp => Event.PullerOnTransportSendRtp pp.2 pkt) ∧
      (pullers.foldl (Room.forward_to_puller now pkt) acc).1.pusher_user_id2sendRelay_ =
        acc.1.pusher_user_id2sendRelay_ := by
  induction pullers generalizing acc with
  | nil => simp
  | cons hd tl ih =>
    have h := ih (Room.forward_to_puller now pkt acc hd)
    simp only [List.foldl_cons, List.map_cons]
    refine ⟨?_, ?_⟩
    · rw [h.1]
      simp [Room.forward_to_puller]
    · rw [h.2]
      simp [Room.forward_to_puller]

/-- The calls made by `OnRtpPacketFromRtcPusher`: one per puller stored under the pusher
    id, in map order, then one to the send relay of the user when there is one. -/
theorem OnRtpPacketFromRtcPusher_events (r : Room) (now : Int) (u s p : String)
    (pkt : RtpPacket) :
    (r.OnRtpPacketFromRtcPusher now u s p pkt).2 =
      ((mfind r.pusher2pullers_ p).getD []).map
          (fun pp => Event.PullerOnTransportSendRtp pp.2 pkt) ++
        (match mfind r.pusher_user_id2sendRelay_ u with
          | some relay => [Event.SendRelaySendRtpPacket relay pkt]
          | none => []) := by
  simp only [Room.OnRtpPacketFromRtcPusher]
  cases hp : mfind r.pusher2pullers_ p with
  | none => simp
  | some pullers =>
    simp only [Option.getD_some]
    have h := forward_fold now pkt pullers
      ({ r with last_alive_ms_ := now,
                users_ := mmodify r.users_ u (fun usr => usr.UpdateHeartbeat now) }, [])
    simp only [List.nil_append] at h
    rw [h.1, h.2]

theorem puller_calls_append (a b : List Event) :
    puller_calls (a ++ b) = puller_calls a ++ puller_calls b := by
  simp [puller_calls, List.filterMap_append]

theorem relay_calls_append (a b : List Event) :
    relay_calls (a ++ b) = relay_calls a ++ relay_calls b := by
  simp [relay_calls, List.filterMap_append]

theorem puller_calls_map (pullers : StrMap MediaPuller) (pkt : RtpPacket) :
    puller_calls (pullers.map (fun pp => Event.PullerOnTransportSendRtp pp.2 pkt)) =
      pullers.map Prod.snd := by
  induction pullers with
  | nil => rfl
  | cons hd tl ih =>
    simp only [puller_calls, List.map_cons, List.filterMap_cons] at ih ⊢
    rw [ih]

theorem relay_calls_map (pullers : StrMap MediaPuller) (pkt : RtpPacket) :
    relay_calls (pullers.map (fun pp => Event.PullerOnTransportSendRtp pp.2 pkt)) = [] := by
  induction pullers with
  | nil => rfl
  | cons hd tl ih =>
    simp only [relay_calls, List.map_cons, List.filterMap_cons] at ih ⊢
    rw [ih]

/-- C1: a call `OnRtpPacketFromRtcPusher(u, s, p, pkt)` invokes `OnTransportSendRtp` on
    exactly the pullers stored in `pusher2pullers_[p]`, each once (none when `p` is no key),
    so the number of these calls is the number of stored pullers, and it invokes
    `SendRtpPacket` once on the send relay of `u` when there is one and not at all
    otherwise; every call carries the packet. -/
theorem C1_fanout_counts (r : Room) (now : Int) (u s p : String) (pkt : RtpPacket) :
    puller_calls (r.OnRtpPacketFromRtcPusher now u s p pkt).2 =
        ((mfind r.pusher2pullers_ p).getD []).map Prod.snd ∧
      (puller_calls (r.OnRtpPacketFromRtcPusher now u s p pkt).2).length =
        ((mfind r.pusher2pullers_ p).getD []).length ∧
      relay_calls (r.OnRtpPacketFromRtcPusher now u s p pkt).2 =
        (mfind r.pusher_user_id2sendRelay_ u).toList ∧
      (r.OnRtpPacketFromRtcPusher now u s p pkt).2 =
        (((mfind r.pusher2pullers_ p).getD []).map Prod.snd).map
            (fun puller => Event.PullerOnTransportSendRtp puller pkt) ++
          (mfind r.pusher_user_id2sendRelay_ u).toList.map
            (fun relay => Event.SendRelaySendRtpPacket relay pkt) := by
  rw [OnRtpPacketFromRtcPusher_events]
  rw [puller_calls_append, relay_calls_append, puller_calls_map, relay_calls_map]
  cases hrel : mfind r.pusher_user_id2sendRelay_ u with
  | none => simp [puller_calls, relay_calls]
  | some relay => simp [puller_calls, relay_calls]

theorem reachable_run (r : Room) (h : Reachable r) (ops : List Op) : Reachable (run r ops) := by
  induction ops generalizing r with
  | nil => exact h
  | cons op rest ih => exact ih (step r op) (Reachable.step op h)

theorem closed_pusher_room_reachable : Reachable closed_pusher_room :=
  reachable_run _ (Reachable.init "R" false 0) closed_pusher_ops

/-- C2, as stated, fails: in the Room reached when user a publishes pusher p, user b pulls
    it and the pusher is then closed, p is no key of `pusherId2pusher_`, yet a packet
    delivered for p is still forwarded to the puller of b. -/
theorem C2_counterexample :
    Reachable closed_pusher_room ∧
      mfind closed_pusher_room.pusherId2pusher_ "p" = none ∧
      puller_calls (closed_pusher_room.OnRtpPacketFromRtcPusher 1 "a" "s" "p" packet100).2 =
        [MediaPuller.create video100 "R" "b" "a" "p" "t" "q"] :=
  ⟨closed_pusher_room_reachable, by decide, by decide⟩

/-- C2, amended: `OnRtpPacketFromRtcPusher` never consults `pusherId2pusher_`: the calls it
    makes are the same whatever that table holds, and the packet is forwarded to nobody
    exactly when `pusher2pullers_` holds no puller under p and u has no send relay. -/
theorem C2_forwarding_ignores_pusher_table (r : Room) (now : Int) (u s p : String)
    (pkt : RtpPacket) (pushers : StrMap MediaPusher) :
    ({ r with pusherId2pusher_ := pushers }.OnRtpPacketFromRtcPusher now u s p pkt).2 =
        (r.OnRtpPacketFromRtcPusher now u s p pkt).2 ∧
      ((r.OnRtpPacketFromRtcPusher now u s p pkt).2 = [] ↔
        (mfind r.pusher2pullers_ p).getD [] = [] ∧
          mfind r.pusher_user_id2sendRelay_ u = none) := by
  refine ⟨?_, ?_⟩
  · rw [OnRtpPacketFromRtcPusher_events, OnRtpPacketFromRtcPusher_events]
  · rw [OnRtpPacketFromRtcPusher_events]
    cases hrel : mfind r.pusher_user_id2sendRelay_ u with
    | none => simp
    | some relay => simp

/-! ## Join, reconnect and leave -/

/-- C7, evaluated: after `UserJoin`, `UserLeave` and a second `UserJoin` with callback 20
    the callback stored for the user is still null, where the claim says it is 20; the
    second join is answered on callback 20 and returns 0. -/
theorem C7_rejoin_keeps_null_callback :
    (mfind (run (Room.create "R" false 0) rejoin_ops).users_ "u").map RtcUser.resp_cb_ =
        some none ∧
      ((run (Room.create "R" false 0) (rejoin_ops.take 2)).UserJoin 2000 "u" "U" 2 20).ret = 0 ∧
      (mfind (run (Room.create "R" false 0) (rejoin_ops.take 2)).users_ "u").map
        RtcUser.resp_cb_ = some none := by
  decide

theorem UserLeave_absent (r : Room) (now : Int) (u : String) (hu : mfind r.users_ u = none) :
    r.UserLeave now u = { room := r, events := [], ret := -1 } := by
  simp [Room.UserLeave, hu]

theorem UserLeave_present (r : Room) (now : Int) (u : String) (usr : RtcUser)
    (hu : mfind r.users_ u = some usr) :
    (r.UserLeave now u).ret = 0 ∧
      (r.UserLeave now u).room =
        { r with
          users_ := mmodify r.users_ u (fun x => x.SetRespCb none),
          last_alive_ms_ := if r.pilot_client_ then now else r.last_alive_ms_ } := by
  cases hp : r.pilot_client_ <;> simp [Room.UserLeave, hu, Room.UserLeave2PilotCenter, hp]

/-- C10: `UserLeave(u)` for a user in `users_` returns 0, nulls the response callback of u
    and frees nothing: the keys of `users_` are the same, u keeps its PushInfos, every
    other user is untouched, and `pusherId2pusher_`, `pusher2pullers_` and the relay tables
    are unchanged. For u not in `users_` it returns -1, makes no call and leaves the Room
    as it was. -/
theorem C10_user_leave_frame (r : Room) (now : Int) (u : String) :
    (mfind r.users_ u = none →
        (r.UserLeave now u).ret = -1 ∧ (r.UserLeave now u).room = r ∧
          (r.UserLeave now u).events = []) ∧
      (∀ usr, mfind r.users_ u = some usr →
        (r.UserLeave now u).ret = 0 ∧
          mfind (r.UserLeave now u).room.users_ u = some { usr with resp_cb_ := none } ∧
          mkeys (r.UserLeave now u).room.users_ = mkeys r.users_ ∧
          (∀ v, v ≠ u → mfind (r.UserLeave now u).room.users_ v = mfind r.users_ v) ∧
          (r.UserLeave now u).room.pusherId2pusher_ = r.pusherId2pusher_ ∧
          (r.UserLeave now u).room.pusher2pullers_ = r.pusher2pullers_ ∧
          (r.UserLeave now u).room.pusher_user_id2sendRelay_ = r.pusher_user_id2sendRelay_ ∧
          (r.UserLeave now u).room.pusherId2recvRelay_ = r.pusherId2recvRelay_ ∧
          (r.UserLeave now u).room.pusher_user_id2recvRelay_ = r.pusher_user_id2recvRelay_ ∧
          (r.UserLeave now u).room.recv_relay_heap_ = r.recv_relay_heap_) := by
  refine ⟨?_, ?_⟩
  · intro hu
    rw [UserLeave_absent r now u hu]
    simp
  · intro usr hu
    obtain ⟨h1, h2⟩ := UserLeave_present r now u usr hu
    rw [h1, h2]
    refine ⟨rfl, ?_, ?_, ?_, rfl, rfl, rfl, rfl, rfl, rfl⟩
    · simp [mfind_mmodify, hu, RtcUser.SetRespCb]
    · simp [mkeys_mmodify]
    · intro v hv
      have hne : ¬ u = v := fun h => hv h.symm
      simp [mfind_mmodify, hne]

theorem C10_user_leave_frame_witness :
    (two_users_room.UserLeave 7 "a").ret = 0 ∧
      (mfind (two_users_room.UserLeave 7 "a").room.users_ "a").map RtcUser.resp_cb_ =
        some none ∧
      (two_users_room.UserLeave 7 "a").room.pusherId2pusher_ = two_users_room.pusherId2pusher_ ∧
      (two_users_room.UserLeave 7 "zz").ret = -1 ∧
      (two_users_room.UserLeave 7 "zz").room = two_users_room := by
  have h := C10_user_leave_frame two_users_room 7 "a"
  have h2 := C10_user_leave_frame two_users_room 7 "zz"
  have hz : mfind two_users_room.users_ "zz" = none := by decide
  cases ha : mfind two_users_room.users_ "a" with
  | none => exact absurd ha (by decide)
  | some usr =>
    obtain ⟨r0, r1, _, _, r4, _⟩ := h.2 usr ha
    exact ⟨r0, by rw [r1]; rfl, r4, (h2.1 hz).1, (h2.1 hz).2.1⟩

/-! ## Release of a user -/

section EraseLemmas

variable {κ : Type} {V : Type} [DecidableEq κ]

theorem merase_of_mfind_none (m : List (κ × V)) (k : κ) (h : mfind m k = none) :
    merase m k = m := by
  induction m with
  | nil => rfl
  | cons hd tl ih =>
    obtain ⟨k', v'⟩ := hd
    by_cases h1 : k' = k
    · simp [mfind, h1] at h
    · simp only [mfind, h1, if_false] at h
      have := ih h
      simp only [merase] at this ⊢
      simp [List.filter_cons, h1, this]

theorem mem_foldl_merase (ids : List κ) (m : List (κ × V)) (e : κ × V) :
    e ∈ ids.foldl merase m ↔ e ∈ m ∧ e.1 ∉ ids := by
  induction ids generalizing m with
  | nil => simp
  | cons id rest ih =>
    simp only [List.foldl_cons, ih, mem_merase, List.mem_cons, not_or]
    constructor
    · rintro ⟨⟨h1, h2⟩, h3⟩
      exact ⟨h1, h2, h3⟩
    · rintro ⟨h1, h2, h3⟩
      exact ⟨⟨h1, h2⟩, h3⟩

theorem mem_mmodify_key (m : List (κ × V)) (k : κ) (f : V → V) (e : κ × V)
    (h : e ∈ mmodify m k f) : e.1 ∈ mkeys m := by
  have : e.1 ∈ mkeys (mmodify m k f) := List.mem_map_of_mem Prod.fst h
  rwa [mkeys_mmodify] at this

end EraseLemmas

theorem foldl_erase_pushers (ids : List String) (r : Room) :
    ids.foldl (fun (acc : Room) pusher_id =>
        { acc with pusherId2pusher_ := merase acc.pusherId2pusher_ pusher_id }) r =
      { r with pusherId2pusher_ := ids.foldl merase r.pusherId2pusher_ } := by
  induction ids generalizing r with
  | nil => rfl
  | cons id rest ih => simp only [List.foldl_cons, ih]

/-- The Room left by `ReleaseUserResources` for a user that is in `users_`. -/
theorem ReleaseUserResources_present (r : Room) (now : Int) (u : String) (usr : RtcUser)
    (hu : mfind r.users_ u = some usr) :
    (r.ReleaseUserResources now u).1 =
      { r with
        last_alive_ms_ := if r.pilot_client_ then now else r.last_alive_ms_,
        users_ := merase (mmodify r.users_ u (fun x => x.SetRespCb none)) u,
        pusherId2pusher_ :=
          (r.pusherId2pusher_.filterMap (fun item =>
            if item.2.user_id_ = u then some item.1 else none)).foldl merase r.pusherId2pusher_,
        pusher_user_id2sendRelay_ := merase r.pusher_user_id2sendRelay_ u,
        pusher2pullers_ :=
          merase (r.pusher2pullers_.map (fun (item : String × StrMap MediaPuller) =>
            (item.1, item.2.filter (fun puller_it =>
              !decide (puller_it.2.puller_user_id_ = u))))) u } := by
  obtain ⟨_, h2⟩ := UserLeave_present r now u usr hu
  have hfound : mfind (mmodify r.users_ u (fun x => x.SetRespCb none)) u =
      some (usr.SetRespCb none) := by
    simp [mfind_mmodify, hu]
  simp only [Room.ReleaseUserResources, h2, hfound, foldl_erase_pushers]
  cases hrel : mfind r.pusher_user_id2sendRelay_ u with
  | none => simp [merase_of_mfind_none _ _ hrel]
  | some relay => simp

/-- The Room left by `ReleaseUserResources` for a user that is not in `users_`. -/
theorem ReleaseUserResources_absent (r : Room) (now : Int) (u : String)
    (hu : mfind r.users_ u = none) : (r.ReleaseUserResources now u).1 = r := by
  simp [Room.ReleaseUserResources, UserLeave_absent r now u hu, hu]

theorem released_after_release (r : Room) (now : Int) (u : String) (usr : RtcUser)
    (hu : mfind r.users_ u = some usr) : released (r.ReleaseUserResources now u).1 u := by
  rw [ReleaseUserResources_present r now u usr hu]
  refine ⟨?_, ?_, ?_, ?_, ?_, ?_⟩
  · intro e he
    exact ((mem_merase _ _ _).mp he).2
  · exact mfind_merase_self _ _
  · intro e he hown
    have h := (mem_foldl_merase _ _ _).mp he
    apply h.2
    simp only [List.mem_filterMap]
    exact ⟨e, h.1, by simp [hown]⟩
  · intro e he
    exact ((mem_merase _ _ _).mp he).2
  · exact mfind_merase_self _ _
  · intro e he q hq
    have h := ((mem_merase _ _ _).mp he).1
    simp only [List.mem_map] at h
    obtain ⟨orig, _, rfl⟩ := h
    simp only [List.mem_filter] at hq
    simpa using hq.2

theorem mfind_none_of_forall_ne {κ V : Type} [DecidableEq κ] (m : List (κ × V)) (k : κ)
    (h : ∀ e ∈ m, e.1 ≠ k) : mfind m k = none := by
  cases hf : mfind m k with
  | none => rfl
  | some v => exact absurd rfl (h _ (mfind_some_mem m k v hf))

theorem released_preserved (r : Room) (now : Int) (u v : String) (h : released r u) :
    released (r.ReleaseUserResources now v).1 u := by
  cases hv : mfind r.users_ v with
  | none => rw [ReleaseUserResources_absent r now v hv]; exact h
  | some usr =>
    obtain ⟨h1, _, h3, h4, _, h6⟩ := h
    rw [ReleaseUserResources_present r now v usr hv]
    have husers : ∀ e ∈ merase (mmodify r.users_ v (fun x => x.SetRespCb none)) v, e.1 ≠ u := by
      intro e he
      have hk := mem_mmodify_key _ _ _ _ ((mem_merase _ _ _).mp he).1
      simp only [mkeys, List.mem_map] at hk
      obtain ⟨e', he', hk'⟩ := hk
      rw [← hk']
      exact h1 e' he'
    have hrel : ∀ e ∈ merase r.pusher_user_id2sendRelay_ v, e.1 ≠ u :=
      fun e he => h4 e ((mem_merase _ _ _).mp he).1
    refine ⟨husers, mfind_none_of_forall_ne _ _ husers, ?_, hrel,
      mfind_none_of_forall_ne _ _ hrel, ?_⟩
    · intro e he
      exact h3 e ((mem_foldl_merase _ _ _).mp he).1
    · intro e he q hq
      have hm := ((mem_merase _ _ _).mp he).1
      simp only [List.mem_map] at hm
      obtain ⟨orig, horig, rfl⟩ := hm
      simp only [List.mem_filter] at hq
      exact h6 orig horig q hq.1

theorem release_keeps_other_user (r : Room) (now : Int) (u v : String) (hne : v ≠ u) :
    mfind (r.ReleaseUserResources now v).1.users_ u = mfind r.users_ u := by
  cases hv : mfind r.users_ v with
  | none => rw [ReleaseUserResources_absent r now v hv]
  | some usr =>
    rw [ReleaseUserResources_present r now v usr hv]
    simp [mfind_merase, mfind_mmodify, hne]

theorem release_fold_released (now : Int) (u : String) (ids : List String)
    (acc : Room × List Event)
    (h : released acc.1 u ∨ (u ∈ ids ∧ (mfind acc.1.users_ u).isSome = true)) :
    released (ids.foldl (fun (acc : Room × List Event) user_id =>
      let step := Room.ReleaseUserResources acc.1 now user_id
      (step.1, acc.2 ++ step.2)) acc).1 u := by
  induction ids generalizing acc with
  | nil =>
    rcases h with h | ⟨h, _⟩
    · exact h
    · simp at h
  | cons v rest ih =>
    simp only [List.foldl_cons]
    apply ih
    rcases h with h | ⟨hmem, hpres⟩
    · exact Or.inl (released_preserved acc.1 now u v h)
    · by_cases hvu : v = u
      · subst hvu
        cases hf : mfind acc.1.users_ v with
        | none => simp [hf] at hpres
        | some usr => exact Or.inl (released_after_release acc.1 now v usr hf)
      · right
        refine ⟨?_, ?_⟩
        · rcases List.mem_cons.mp hmem with h | h
          · exact absurd h.symm hvu
          · exact h
        · simpa [release_keeps_other_user acc.1 now u v hvu] using hpres

theorem foldl_erase_recv (ids : List String) (r : Room) :
    ids.foldl (fun (acc : Room) pusher_id =>
        { acc with pusherId2recvRelay_ := merase acc.pusherId2recvRelay_ pusher_id }) r =
      { r with pusherId2recvRelay_ := ids.foldl merase r.pusherId2recvRelay_ } := by
  induction ids generalizing r with
  | nil => rfl
  | cons id rest ih => simp only [List.foldl_cons, ih]

theorem foldl_erase_recv_user (ids : List String) (r : Room) :
    ids.foldl (fun (acc : Room) uid =>
        { acc with pusher_user_id2recvRelay_ := merase acc.pusher_user_id2recvRelay_ uid }) r =
      { r with pusher_user_id2recvRelay_ := ids.foldl merase r.pusher_user_id2recvRelay_ } := by
  induction ids generalizing r with
  | nil => rfl
  | cons id rest ih => simp only [List.foldl_cons, ih]

theorem OnTimer_released (r : Room) (now : Int) (u : String) (usr : RtcUser)
    (hu : mfind r.users_ u = some usr) (hlocal : usr.remote_ = false)
    (hdead : usr.IsAlive now = false) : released (r.OnTimer now).1 u := by
  have hmem : (u, usr) ∈ r.users_ := mfind_some_mem _ _ _ hu
  have hne : r.users_.isEmpty = false := by
    cases hr : r.users_ with
    | nil => rw [hr] at hmem; simp at hmem
    | cons _ _ => rfl
  have hfold := release_fold_released now u
    (r.users_.filterMap (fun pair =>
      if pair.2.remote_ then none
      else if !pair.2.IsAlive now then some pair.1
      else none))
    ({ r with last_alive_ms_ := now }, [])
    (Or.inr ⟨by
      simp only [List.mem_filterMap]
      exact ⟨(u, usr), hmem, by simp [hlocal, hdead]⟩, by simp [hu]⟩)
  simp only [Room.OnTimer, hne, foldl_erase_recv, foldl_erase_recv_user]
  simpa [released] using hfold

/-- C6: after `ReleaseUserResources(u)` for a user u in `users_`, `users_` has no entry for
    u, `pusherId2pusher_` holds no MediaPusher owned by u, `pusher_user_id2sendRelay_` has
    no entry for u and no puller map holds a MediaPuller whose puller user is u; the same
    holds after an `OnTimer` tick that finds the local user u with a heartbeat older than
    40 s. -/
theorem C6_eviction_releases_user (r : Room) (now : Int) (u : String)
    (hu : mcontains r.users_ u = true) :
    released (r.ReleaseUserResources now u).1 u ∧
      ((mfind r.users_ u).map RtcUser.remote_ = some false →
        (mfind r.users_ u).map (fun x => x.IsAlive now) = some false →
        released (r.OnTimer now).1 u) := by
  cases hf : mfind r.users_ u with
  | none => simp [mcontains, hf] at hu
  | some usr =>
    refine ⟨released_after_release r now u usr hf, ?_⟩
    intro hlocal hdead
    simp only [Option.map_some', Option.some.injEq] at hlocal hdead
    exact OnTimer_released r now u usr hf hlocal hdead

theorem C6_eviction_releases_user_witness :
    released (pull_room.ReleaseUserResources 50000 "b").1 "b" ∧
      released (pull_room.OnTimer 50000).1 "b" :=
  ⟨(C6_eviction_releases_user pull_room 50000 "b" (by decide)).1,
    (C6_eviction_releases_user pull_room 50000 "b" (by decide)).2 (by decide) (by decide)⟩

/-! ## The join snapshot -/

section InsertLemmas

variable {κ : Type} {V : Type} [DecidableEq κ] [KeyLt κ]

theorem minsert_minsert (m : List (κ × V)) (k : κ) (a b : V) :
    minsert (minsert m k a) k b = minsert m k b := by
  induction m with
  | nil => simp [minsert]
  | cons hd tl ih =>
    obtain ⟨k', v'⟩ := hd
    by_cases h1 : k' = k
    · simp [minsert, h1]
    · by_cases h2 : KeyLt.lt k k' = true
      · simp [minsert, h1, h2]
      · simp [minsert, h1, h2, ih]

theorem filter_ne_minsert (m : List (κ × V)) (k : κ) (v : V) :
    (minsert m k v).filter (fun p => !decide (p.1 = k)) =
      m.filter (fun p => !decide (p.1 = k)) := by
  induction m with
  | nil => simp [minsert]
  | cons hd tl ih =>
    obtain ⟨k', v'⟩ := hd
    by_cases h1 : k' = k
    · simp [minsert, h1, List.filter_cons]
    · by_cases h2 : KeyLt.lt k k' = true
      · simp [minsert, h1, h2, List.filter_cons]
      · simp [minsert, h1, h2, List.filter_cons, ih]

end InsertLemmas

theorem filter_ne_merase {κ V : Type} [DecidableEq κ] (m : List (κ × V)) (k : κ) :
    (merase m k).filter (fun p => !decide (p.1 = k)) =
      m.filter (fun p => !decide (p.1 = k)) := by
  simp [merase, List.filter_filter]

theorem foldl_push_back_at {α : Type} (f : α → Json) (k : String) (xs : List α)
    (kvs : List (String × Json)) (ys : List Json) :
    xs.foldl (fun acc x => acc.push_back_at k (f x)) (Json.obj (minsert kvs k (Json.arr ys))) =
      Json.obj (minsert kvs k (Json.arr (ys ++ xs.map f))) := by
  induction xs generalizing ys with
  | nil => simp
  | cons x rest ih =>
    simp only [List.foldl_cons, List.map_cons]
    have hstep : (Json.obj (minsert kvs k (Json.arr ys))).push_back_at k (f x) =
        Json.obj (minsert kvs k (Json.arr (ys ++ [f x]))) := by
      simp [Json.push_back_at, Json.find, Json.set, mfind_minsert_self, Json.push_back,
        minsert_minsert]
    rw [hstep, ih]
    simp

theorem foldl_skip {α β : Type} (p : α → Prop) [DecidablePred p] (g : β → α → β)
    (xs : List α) (a : β) :
    xs.foldl (fun acc x => if p x then acc else g acc x) a =
      (xs.filter (fun x => !decide (p x))).foldl g a := by
  induction xs generalizing a with
  | nil => rfl
  | cons x rest ih =>
    by_cases hp : p x <;> simp [List.filter_cons, hp, ih]

/-- The entry built for one user by the loops of `UserJoin` and `ReConnect`. -/
theorem user_json_built (user : RtcUser) :
    user.pushers_.foldl
        (fun uj (pair : String × PushInfo) => uj.push_back_at "pushers" (pair.2.DumpJson (.obj [])))
        ((((Json.obj []).set "userId" (.str user.user_id_)).set "userName"
          (.str user.user_name_)).set "pushers" (.arr [])) =
      snapshot_entry user := by
  have h := foldl_push_back_at (fun (pair : String × PushInfo) => pair.2.DumpJson (.obj []))
    "pushers" user.pushers_
    [("userId", Json.str user.user_id_), ("userName", Json.str user.user_name_)] []
  simp only [List.nil_append] at h
  exact h

/-- The `users` array built over a list of users. -/
theorem users_json_built {α : Type} (f : α → Json) (users : List α) :
    users.foldl (fun acc user => acc.push_back_at "users" (f user))
        ((((Json.obj []).set "code" (.num 0)).set "message" (.str "join success")).set "users"
          (.arr [])) =
      Json.obj [("code", .num 0), ("message", .str "join success"),
        ("users", .arr (users.map f))] := by
  have h := foldl_push_back_at f "users" users
    [("code", Json.num 0), ("message", Json.str "join success")] []
  simp only [List.nil_append] at h
  exact h

theorem response_users_append (a b : List Event) :
    response_users (a ++ b) = response_users a ++ response_users b := by
  simp [response_users, List.filterMap_append]

theorem response_users_nil_of_notifications (evs : List Event)
    (h : ∀ e ∈ evs, ∃ cb method data, e = Event.Notification cb method data) :
    response_users evs = [] := by
  induction evs with
  | nil => rfl
  | cons e rest ih =>
    obtain ⟨cb, method, data, rfl⟩ := h _ (List.mem_cons_self _ _)
    have := ih (fun e he => h e (List.mem_cons_of_mem _ he))
    simpa [response_users] using this

theorem NotifyNewUser_events (r : Room) (now : Int) (u name : String) :
    ∀ e ∈ (r.NotifyNewUser now u name).2, ∃ cb method data, e = Event.Notification cb method data := by
  intro e he
  unfold Room.NotifyNewUser at he
  cases hf : mfind r.users_ u with
  | none => simp [hf] at he
  | some usr =>
    simp only [hf, List.mem_filterMap] at he
    obtain ⟨pair, _, hpair⟩ := he
    split at hpair
    · simp at hpair
    · split at hpair
      · simp at hpair
      · split at hpair
        · simp at hpair
        · simp only [Option.some.injEq] at hpair
          exact ⟨_, _, _, hpair.symm⟩

theorem response_users_pilot (r : Room) (now : Int) (usr : RtcUser) :
    response_users (r.Join2PilotCenter now usr).2 = [] := by
  cases hp : r.pilot_client_ <;> simp [Room.Join2PilotCenter, hp, response_users]

/-- The `users` array answered by `UserJoin` to a user that is not yet in the Room. -/
theorem UserJoin_fresh_users (r : Room) (now : Int) (u name : String) (id : Int) (cb : RespCb)
    (hopen : r.closed_ = false) (hu : mfind r.users_ u = none) :
    response_users (r.UserJoin now u name id cb).events = [Json.arr (join_snapshot r.users_ u)] := by
  have hlist : (minsert r.users_ u (RtcUser.create r.room_id_ u name (some cb) now)).filterMap
      (fun pair => if pair.1 = u then none else some pair.2) =
      (r.users_.filter (fun pair => !decide (pair.1 = u))).map Prod.snd := by
    rw [← filter_ne_minsert r.users_ u (RtcUser.create r.room_id_ u name (some cb) now)]
    generalize minsert r.users_ u (RtcUser.create r.room_id_ u name (some cb) now) = m
    induction m with
    | nil => rfl
    | cons hd tl ih =>
      by_cases h : hd.1 = u <;> simp [List.filterMap_cons, List.filter_cons, h, ih]
  simp only [Room.UserJoin, hopen, hu, hlist, user_json_built, users_json_built,
    Bool.false_eq_true, if_false]
  simp only [response_users_append]
  rw [response_users_pilot, response_users_nil_of_notifications _ (NotifyNewUser_events _ _ _ _)]
  simp [response_users, Json.find, mfind, join_snapshot]

theorem ReConnect_notify_events (r : Room) (usr : RtcUser) (notify_json : Json) :
    ∀ e ∈ r.users_.filterMap (fun notify_user_pair =>
        if notify_user_pair.2.user_id_ = usr.user_id_ then none
        else if notify_user_pair.2.remote_ then none
        else match notify_user_pair.2.resp_cb_ with
          | some notify_resp_cb =>
            some (Event.Notification notify_resp_cb "userReConnect" notify_json)
          | none => none),
      ∃ cb method data, e = Event.Notification cb method data := by
  intro e he
  simp only [List.mem_filterMap] at he
  obtain ⟨pair, _, hpair⟩ := he
  split at hpair
  · simp at hpair
  · split at hpair
    · simp at hpair
    · split at hpair
      · simp only [Option.some.injEq] at hpair
        exact ⟨_, _, _, hpair.symm⟩
      · simp at hpair

/-- The `users` array answered by `ReConnect` for a user stored under its own id. -/
theorem ReConnect_users (r : Room) (usr : RtcUser) (id : Int) (cb : RespCb) :
    response_users (r.ReConnect usr id cb).events =
      [Json.arr (join_snapshot r.users_ usr.user_id_)] := by
  simp only [Room.ReConnect, user_json_built]
  have hskip := foldl_skip (fun (pair : String × RtcUser) => pair.1 = usr.user_id_)
    (fun (acc : Json) pair => acc.push_back_at "users" (snapshot_entry pair.2)) r.users_
    ((((Json.obj []).set "code" (.num 0)).set "message" (.str "join success")).set "users"
      (.arr []))
  rw [hskip]
  rw [users_json_built (fun (pair : String × RtcUser) => snapshot_entry pair.2)]
  simp only [response_users_append]
  rw [response_users_nil_of_notifications _ (ReConnect_notify_events r usr _)]
  cases hp : r.pilot_client_ <;> simp [response_users, Json.find, mfind, join_snapshot]

/-- C9: in an open Room whose users are stored under their own ids, `UserJoin` for user u
    sends one response whose `users` array holds exactly one entry
    `{userId, userName, pushers}` for each user in `users_` other than u, local or remote,
    in map order, the pushers being the `DumpJson` of every PushInfo of that user; this
    holds on the fresh path and on the reconnect path alike, so the array answered to a
    reconnecting u equals the array answered when u joins afresh a Room with the same
    other users. -/
theorem C9_join_snapshot (r : Room) (now : Int) (u name : String) (id : Int) (cb : RespCb)
    (hopen : r.closed_ = false) (hkeyed : users_keyed r) :
    response_users (r.UserJoin now u name id cb).events =
        [Json.arr (join_snapshot r.users_ u)] ∧
      response_users ({ r with users_ := merase r.users_ u }.UserJoin now u name id cb).events =
        response_users (r.UserJoin now u name id cb).events := by
  have hmain : ∀ (r : Room), r.closed_ = false → users_keyed r →
      response_users (r.UserJoin now u name id cb).events =
        [Json.arr (join_snapshot r.users_ u)] := by
    intro r hopen hkeyed
    cases hu : mfind r.users_ u with
    | none => exact UserJoin_fresh_users r now u name id cb hopen hu
    | some usr =>
      have hid : usr.user_id_ = u := hkeyed _ (mfind_some_mem _ _ _ hu)
      have h := ReConnect_users { r with last_alive_ms_ := now } usr id cb
      rw [hid] at h
      simpa [Room.UserJoin, hopen, hu] using h
  refine ⟨hmain r hopen hkeyed, ?_⟩
  rw [hmain r hopen hkeyed]
  have hk : users_keyed { r with users_ := merase r.users_ u } := by
    intro e he
    exact hkeyed e ((mem_merase _ _ _).mp he).1
  rw [hmain { r with users_ := merase r.users_ u } hopen hk]
  simp [join_snapshot, filter_ne_merase]

theorem C9_join_snapshot_witness :
    response_users (two_users_room.UserJoin 9 "b" "B" 5 12).events =
        [Json.arr (join_snapshot two_users_room.users_ "b")] ∧
      response_users
          ({ two_users_room with users_ := merase two_users_room.users_ "b" }.UserJoin
            9 "b" "B" 5 12).events =
        response_users (two_users_room.UserJoin 9 "b" "B" 5 12).events :=
  C9_join_snapshot two_users_room 9 "b" "B" 5 12 (by decide) (by unfold users_keyed; decide)

/-! ## Remote users -/

/-- C4, evaluated: the Room reached by `UserJoin` of user u on callback 10 followed by a
    `newPusher` notification of the pilot naming user u holds u with `remote == true` and
    the non-null response callback 10, where the claim says no operation produces such a
    user. -/
theorem C4_new_pusher_marks_local_user_remote :
    Reachable (run (Room.create "R" true 0) local_marked_remote_ops) ∧
      (mfind (run (Room.create "R" true 0) local_marked_remote_ops).users_ "u").map
          (fun usr => (usr.remote_, usr.resp_cb_)) = some (true, some 10) :=
  ⟨reachable_run _ (Reachable.init "R" true 0) _, by decide⟩

/-! ## Registration of pushers -/

theorem mem_minsert {κ V : Type} [DecidableEq κ] [KeyLt κ] (m : List (κ × V)) (k : κ) (v : V)
    (e : κ × V) (h : e ∈ minsert m k v) : e = (k, v) ∨ e ∈ m := by
  induction m with
  | nil => simpa [minsert] using h
  | cons hd tl ih =>
    obtain ⟨k', v'⟩ := hd
    by_cases h1 : k' = k
    · simp only [minsert, h1, if_true, List.mem_cons] at h
      rcases h with h | h
      · exact Or.inl h
      · exact Or.inr (List.mem_cons_of_mem _ h)
    · by_cases h2 : KeyLt.lt k k' = true
      · simp only [minsert, h1, h2, if_true, if_false, List.mem_cons] at h
        rcases h with h | h | h
        · exact Or.inl h
        · exact Or.inr (by simp [h])
        · exact Or.inr (List.mem_cons_of_mem _ h)
      · simp only [minsert, h1, h2, if_false, List.mem_cons, Bool.false_eq_true] at h
        rcases h with h3 | h3
        · exact Or.inr (by simp [h3])
        · rcases ih h3 with h4 | h4
          · exact Or.inl h4
          · exact Or.inr (List.mem_cons_of_mem _ h4)

theorem foldl_insert_pushers (mps : List MediaPusher) (r : Room) :
    mps.foldl (fun (room : Room) mp =>
        { room with pusherId2pusher_ := minsert room.pusherId2pusher_ mp.pusher_id_ mp }) r =
      { r with pusherId2pusher_ :=
          mps.foldl (fun m mp => minsert m mp.pusher_id_ mp) r.pusherId2pusher_ } := by
  induction mps generalizing r with
  | nil => rfl
  | cons mp rest ih => simp only [List.foldl_cons, ih]

theorem mem_foldl_insert (mps : List MediaPusher) (m : StrMap MediaPusher)
    (e : String × MediaPusher)
    (h : e ∈ mps.foldl (fun m mp => minsert m mp.pusher_id_ mp) m) :
    e ∈ m ∨ (e.2 ∈ mps ∧ e.1 = e.2.pusher_id_) := by
  induction mps generalizing m with
  | nil => exact Or.inl h
  | cons mp rest ih =>
    simp only [List.foldl_cons] at h
    rcases ih _ h with h1 | ⟨h1, h2⟩
    · rcases mem_minsert _ _ _ _ h1 with h3 | h3
      · right
        subst h3
        exact ⟨List.mem_cons_self _ _, rfl⟩
      · exact Or.inl h3
    · exact Or.inr ⟨List.mem_cons_of_mem _ h1, h2⟩

theorem isSome_foldl_insert (mps : List MediaPusher) (m : StrMap MediaPusher) (p : String)
    (h : (mfind m p).isSome = true ∨ ∃ mp ∈ mps, mp.pusher_id_ = p) :
    (mfind (mps.foldl (fun m mp => minsert m mp.pusher_id_ mp) m) p).isSome = true := by
  induction mps generalizing m with
  | nil =>
    rcases h with h | ⟨mp, hmp, _⟩
    · exact h
    · simp at hmp
  | cons mp rest ih =>
    simp only [List.foldl_cons]
    apply ih
    by_cases hk : mp.pusher_id_ = p
    · left
      simp [mfind_minsert, hk]
    · rcases h with h | ⟨mp', hmp', hp'⟩
      · left
        simpa [mfind_minsert, hk] using h
      · rcases List.mem_cons.mp hmp' with h1 | h1
        · subst h1
          exact absurd hp' hk
        · exact Or.inr ⟨mp', h1, hp'⟩

/-- What one round of the loop of `HandlePushSdp` does to the pusher table and to the
    pusher list of the session. -/
theorem HandlePushSdp_step_tables (now : Int) (user_id session_id : String)
    (acc : Room × List MediaPusher) (item : RtpSessionParam × String) :
    (Room.HandlePushSdp_step now user_id session_id acc item).2 =
        acc.2 ++ [MediaPusher.create item.1 acc.1.room_id_ user_id session_id item.2] ∧
      (Room.HandlePushSdp_step now user_id session_id acc item).1.pusherId2pusher_ =
        (acc.2 ++ [MediaPusher.create item.1 acc.1.room_id_ user_id session_id item.2]).foldl
          (fun m mp => minsert m mp.pusher_id_ mp) acc.1.pusherId2pusher_ ∧
      (Room.HandlePushSdp_step now user_id session_id acc item).1.room_id_ = acc.1.room_id_ := by
  simp only [Room.HandlePushSdp_step, foldl_insert_pushers]
  simp

/-- What the loop of `HandlePushSdp` does to the pusher table: every entry afterwards was
    there before or is a pusher of this session stored under its own id, and every pusher
    id handed out in the loop is a key afterwards. -/
theorem HandlePushSdp_loop_tables (now : Int) (user_id session_id : String)
    (items : List (RtpSessionParam × String)) (acc : Room × List MediaPusher) :
    (items.foldl (Room.HandlePushSdp_step now user_id session_id) acc).1.room_id_ =
        acc.1.room_id_ ∧
      (∀ e ∈ (items.foldl (Room.HandlePushSdp_step now user_id session_id) acc).1.pusherId2pusher_,
        e ∈ acc.1.pusherId2pusher_ ∨
          (e.1 = e.2.pusher_id_ ∧
            (e.2 ∈ acc.2 ∨ ∃ item ∈ items,
              e.2 = MediaPusher.create item.1 acc.1.room_id_ user_id session_id item.2))) ∧
      (∀ p, ((mfind acc.1.pusherId2pusher_ p).isSome = true ∨ ∃ item ∈ items, item.2 = p) →
        (mfind (items.foldl (Room.HandlePushSdp_step now user_id session_id)
          acc).1.pusherId2pusher_ p).isSome = true) := by
  induction items generalizing acc with
  | nil =>
    refine ⟨rfl, fun e he => Or.inl he, ?_⟩
    intro p hp
    rcases hp with hp | ⟨item, hitem, _⟩
    · exact hp
    · simp at hitem
  | cons item rest ih =>
    obtain ⟨hs2, hs1, hsroom⟩ := HandlePushSdp_step_tables now user_id session_id acc item
    obtain ⟨ih1, ih2, ih3⟩ := ih (Room.HandlePushSdp_step now user_id session_id acc item)
    simp only [List.foldl_cons]
    refine ⟨by rw [ih1, hsroom], ?_, ?_⟩
    · intro e he
      rcases ih2 e he with h | ⟨hkey, h⟩
      · rw [hs1] at h
        rcases mem_foldl_insert _ _ _ h with h' | ⟨h', hkey⟩
        · exact Or.inl h'
        · right
          refine ⟨hkey, ?_⟩
          rcases List.mem_append.mp h' with h'' | h''
          · exact Or.inl h''
          · right
            simp only [List.mem_singleton] at h''
            exact ⟨item, List.mem_cons_self _ _, h''⟩
      · right
        refine ⟨hkey, ?_⟩
        rcases h with h | ⟨item', hitem', h⟩
        · rw [hs2] at h
          rcases List.mem_append.mp h with h'' | h''
          · exact Or.inl h''
          · right
            simp only [List.mem_singleton] at h''
            exact ⟨item, List.mem_cons_self _ _, h''⟩
        · right
          rw [hsroom] at h
          exact ⟨item', List.mem_cons_of_mem _ hitem', h⟩
    · intro p hp
      apply ih3
      rcases hp with hp | ⟨item', hitem', hp⟩
      · left
        rw [hs1]
        exact isSome_foldl_insert _ _ _ (Or.inl hp)
      · rcases List.mem_cons.mp hitem' with h | h
        · left
          rw [hs1]
          apply isSome_foldl_insert _ _ _ (Or.inr ?_)
          subst h
          exact ⟨_, List.mem_append_right _ (List.mem_singleton_self _), hp⟩
        · exact Or.inr ⟨item', h, hp⟩

theorem NotifyNewPusher_room (r : Room) (now : Int) (a b : String) (l : List PushInfo) :
    (r.NotifyNewPusher now a b l).1 = { r with last_alive_ms_ := now } := rfl

theorem NewPusher2PilotCenter_room (r : Room) (now : Int) (a : String) (l : List PushInfo) :
    ∃ t, (r.NewPusher2PilotCenter now a l).1 = { r with last_alive_ms_ := t } := by
  unfold Room.NewPusher2PilotCenter
  by_cases hp : r.pilot_client_ = true
  · cases hu : mfind r.users_ a with
    | none => exact ⟨now, by simp [hp, hu]⟩
    | some usr => exact ⟨now, by simp [hp, hu]⟩
  · have hp' : (!r.pilot_client_) = true := by simpa using hp
    exact ⟨r.last_alive_ms_, by rw [if_pos hp']⟩

/-- The pusher table left by `HandlePushSdp` when an answer was generated and it holds
    at least one stream. -/
theorem HandlePushSdp_pushers (r : Room) (now : Int) (user_id : String) (env : PushSdpEnv)
    (id : Int) (cb : RespCb) (hans : env.answer_sdp = true) (hne : env.rtp_params ≠ []) :
    (r.HandlePushSdp now user_id env id cb).room.pusherId2pusher_ =
      (env.rtp_params.foldl (Room.HandlePushSdp_step now user_id env.session_id)
        ({ r with last_alive_ms_ := now }, [])).1.pusherId2pusher_ := by
  have hem : env.rtp_params.isEmpty = false := by
    cases h : env.rtp_params with
    | nil => exact absurd h hne
    | cons _ _ => rfl
  simp only [Room.HandlePushSdp, hans, hem, Bool.not_true, Bool.false_eq_true, if_false]
  split
  · rfl
  · simp only []
    obtain ⟨t, ht⟩ := NewPusher2PilotCenter_room
      ((List.foldl (Room.HandlePushSdp_step now user_id env.session_id)
        ({ r with last_alive_ms_ := now }, []) env.rtp_params).1.NotifyNewPusher now user_id
          (by assumption : RtcUser).user_name_
          (List.map Prod.snd (by assumption : RtcUser).pushers_)).1 now user_id
      (List.map Prod.snd (by assumption : RtcUser).pushers_)
    rw [ht, NotifyNewPusher_room]

/-- C3, as stated, fails: after user a publishes pusher p, user b pulls it and the pusher
    is closed (`OnPushClose`), the reachable Room still holds the MediaPuller of b under p,
    while p is a key neither of `pusherId2pusher_` nor of `pusherId2recvRelay_`. -/
theorem C3_counterexample :
    Reachable closed_pusher_room ∧ ¬ pullers_have_pusher closed_pusher_room := by
  refine ⟨closed_pusher_room_reachable, ?_⟩
  intro h
  have hp : mfind closed_pusher_room.pusher2pullers_ "p" =
      some [("q", MediaPuller.create video100 "R" "b" "a" "p" "t" "q")] := by decide
  rcases h "p" _ hp (by decide) with h1 | h1
  · exact absurd h1 (by decide)
  · exact absurd h1 (by decide)

theorem ouc_with (r : Room) (users : StrMap RtcUser) (t : Int) :
    only_users_changed r { r with users_ := users, last_alive_ms_ := t } := ⟨users, t, rfl⟩

theorem ouc_refl (r : Room) : only_users_changed r r := ⟨r.users_, r.last_alive_ms_, rfl⟩

theorem ouc_trans {a b c : Room} (h1 : only_users_changed a b) (h2 : only_users_changed b c) :
    only_users_changed a c := by
  obtain ⟨u1, t1, rfl⟩ := h1
  obtain ⟨u2, t2, rfl⟩ := h2
  exact ⟨u2, t2, rfl⟩

theorem ouc_Join2PilotCenter (r : Room) (now : Int) (usr : RtcUser) :
    only_users_changed r (r.Join2PilotCenter now usr).1 := by
  unfold Room.Join2PilotCenter
  split
  · exact ouc_refl r
  · exact ⟨r.users_, now, rfl⟩

theorem ouc_UserLeave2PilotCenter (r : Room) (now : Int) (u : String) :
    only_users_changed r (r.UserLeave2PilotCenter now u).1 := by
  unfold Room.UserLeave2PilotCenter
  split
  · exact ouc_refl r
  · exact ⟨r.users_, now, rfl⟩

theorem ouc_UserDisconnect2PilotCenter (r : Room) (now : Int) (u : String) :
    only_users_changed r (r.UserDisconnect2PilotCenter now u).1 := by
  unfold Room.UserDisconnect2PilotCenter
  split
  · exact ouc_refl r
  · exact ⟨r.users_, now, rfl⟩

theorem ouc_NotifyNewUser (r : Room) (now : Int) (u name : String) :
    only_users_changed r (r.NotifyNewUser now u name).1 := by
  unfold Room.NotifyNewUser
  split
  · exact ouc_refl r
  · exact ⟨r.users_, now, rfl⟩

theorem ouc_NotifyNewPusher (r : Room) (now : Int) (a b : String) (l : List PushInfo) :
    only_users_changed r (r.NotifyNewPusher now a b l).1 := ⟨r.users_, now, rfl⟩

theorem ouc_NewPusher2PilotCenter (r : Room) (now : Int) (a : String) (l : List PushInfo) :
    only_users_changed r (r.NewPusher2PilotCenter now a l).1 := by
  obtain ⟨t, ht⟩ := NewPusher2PilotCenter_room r now a l
  exact ⟨r.users_, t, ht⟩

theorem ouc_UserJoin (r : Room) (now : Int) (u name : String) (id : Int) (cb : RespCb) :
    only_users_changed r (r.UserJoin now u name id cb).room := by
  unfold Room.UserJoin
  split
  · exact ouc_refl r
  · simp only []
    split
    · exact ⟨r.users_, now, rfl⟩
    · exact ouc_trans (ouc_with _ _ _)
        (ouc_trans (ouc_Join2PilotCenter _ _ _) (ouc_NotifyNewUser _ _ _ _))

theorem ouc_UserLeave (r : Room) (now : Int) (u : String) :
    only_users_changed r (r.UserLeave now u).room := by
  unfold Room.UserLeave
  split
  · exact ouc_refl r
  · exact ouc_trans (ouc_with _ _ r.last_alive_ms_) (ouc_UserLeave2PilotCenter _ _ _)

theorem ouc_DisconnectUser (r : Room) (now : Int) (u : String) :
    only_users_changed r (r.DisconnectUser now u).room := by
  unfold Room.DisconnectUser
  split
  · exact ouc_refl r
  · exact ouc_trans (ouc_with _ _ r.last_alive_ms_) (ouc_UserDisconnect2PilotCenter _ _ _)

theorem ouc_HandleWsHeartbeat (r : Room) (now : Int) (u : String) :
    only_users_changed r (r.HandleWsHeartbeat now u).1 := by
  unfold Room.HandleWsHeartbeat
  simp only []
  split
  · exact ⟨r.users_, now, rfl⟩
  · exact ⟨_, now, rfl⟩

theorem ouc_forward_fold (now : Int) (pkt : RtpPacket) (pullers : StrMap MediaPuller)
    (acc : Room × List Event) :
    only_users_changed acc.1 (pullers.foldl (Room.forward_to_puller now pkt) acc).1 := by
  induction pullers generalizing acc with
  | nil => exact ouc_refl _
  | cons hd tl ih =>
    simp only [List.foldl_cons]
    exact ouc_trans (ouc_with _ _ acc.1.last_alive_ms_) (ih (Room.forward_to_puller now pkt acc hd))

theorem ouc_OnRtpPacketFromRtcPusher (r : Room) (now : Int) (u s p : String)
    (pkt : RtpPacket) : only_users_changed r (r.OnRtpPacketFromRtcPusher now u s p pkt).1 := by
  unfold Room.OnRtpPacketFromRtcPusher
  simp only []
  split
  · exact ouc_trans (ouc_with r _ now) (ouc_forward_fold _ _ _ _)
  · exact ⟨_, now, rfl⟩

theorem ouc_OnRtpPacketFromRemoteRtcPusher (r : Room) (now : Int) (u p : String)
    (pkt : RtpPacket) :
    only_users_changed r (r.OnRtpPacketFromRemoteRtcPusher now u p pkt).1 := by
  unfold Room.OnRtpPacketFromRemoteRtcPusher
  simp only []
  split
  · exact ouc_trans (ouc_with r _ now) (ouc_forward_fold _ _ _ _)
  · exact ⟨_, now, rfl⟩

theorem ouc_JoinResponse_users (now : Int) (users_json : List Json) (acc : Room × List Event) :
    only_users_changed acc.1 (Room.JoinResponse_users now users_json acc).1 := by
  induction users_json generalizing acc with
  | nil => exact ouc_refl _
  | cons user_json rest ih =>
    unfold Room.JoinResponse_users
    simp only []
    repeat' split
    all_goals first
      | exact ouc_refl _
      | exact ih acc
      | exact ouc_with _ _ acc.1.last_alive_ms_
      | exact ⟨_, acc.1.last_alive_ms_, rfl⟩
      | exact ouc_trans (ouc_trans (ouc_with acc.1 _ acc.1.last_alive_ms_)
          (ouc_NotifyNewUser _ _ _ _)) (ih _)

theorem ouc_JoinResponseFromPilotCenter (r : Room) (now : Int) (resp_json : Json) :
    only_users_changed r (r.JoinResponseFromPilotCenter now resp_json).1 := by
  unfold Room.JoinResponseFromPilotCenter
  split
  · exact ouc_refl r
  · simp only []
    split
    · exact ouc_refl r
    · split
      · exact ouc_refl r
      · exact ouc_JoinResponse_users now _ (r, [])

theorem ouc_OnAsyncRequestResponse (r : Room) (now : Int) (method : String) (resp_json : Json) :
    only_users_changed r (r.OnAsyncRequestResponse now method resp_json).1 := by
  unfold Room.OnAsyncRequestResponse
  split
  · exact ouc_JoinResponseFromPilotCenter r now resp_json
  · exact ouc_refl r

theorem ouc_HandleNewUserNotificationFromCenter (r : Room) (now : Int) (data_json : Json) :
    only_users_changed r (r.HandleNewUserNotificationFromCenter now data_json).1 := by
  unfold Room.HandleNewUserNotificationFromCenter
  simp only []
  split
  · split
    · exact ⟨r.users_, now, rfl⟩
    · exact ouc_trans (ouc_with r _ now) (ouc_NotifyNewUser _ _ _ _)
  · exact ⟨r.users_, now, rfl⟩

theorem ouc_HandleNewPusherNotificationFromCenter (r : Room) (now : Int) (data_json : Json) :
    only_users_changed r (r.HandleNewPusherNotificationFromCenter now data_json).1 := by
  unfold Room.HandleNewPusherNotificationFromCenter
  simp only []
  split
  · exact ⟨r.users_, now, rfl⟩
  · split
    · exact ⟨r.users_, now, rfl⟩
    · split
      · exact ⟨_, now, rfl⟩
      · exact ⟨_, now, rfl⟩

theorem ouc_HandleUserDisconnectNotificationFromCenter (r : Room) (data_json : Json) :
    only_users_changed r (r.HandleUserDisconnectNotificationFromCenter data_json).1 := by
  unfold Room.HandleUserDisconnectNotificationFromCenter
  split
  · exact ouc_refl r
  · split
    · exact ouc_refl r
    · split <;> exact ouc_refl r

theorem ouc_HandleUserLeaveNotificationFromCenter (r : Room) (data_json : Json) :
    only_users_changed r (r.HandleUserLeaveNotificationFromCenter data_json).1 := by
  unfold Room.HandleUserLeaveNotificationFromCenter
  split
  · exact ouc_refl r
  · split
    · exact ouc_refl r
    · split <;> exact ouc_refl r

theorem ouc_HandleNotifyTextMessageFromCenter (r : Room) (data_json : Json) :
    only_users_changed r (r.HandleNotifyTextMessageFromCenter data_json).1 := by
  unfold Room.HandleNotifyTextMessageFromCenter
  split <;> exact ouc_refl r

theorem media_consistent_congr (r r' : Room)
    (h1 : r'.pusher2pullers_ = r.pusher2pullers_) (h2 : r'.pusherId2pusher_ = r.pusherId2pusher_)
    (h3 : r'.pusherId2recvRelay_ = r.pusherId2recvRelay_)
    (h4 : r'.recv_relay_heap_ = r.recv_relay_heap_) (h : media_consistent r) :
    media_consistent r' := by
  unfold media_consistent pullers_have_pusher pushers_keyed at *
  rw [h1, h2, h3, h4]
  exact h

theorem media_consistent_of_ouc (r r' : Room) (hc : only_users_changed r r')
    (h : media_consistent r) : media_consistent r' := by
  obtain ⟨us, t, rfl⟩ := hc
  exact media_consistent_congr r _ rfl rfl rfl rfl h

theorem media_consistent_create (room_id : String) (pilot : Bool) (now : Int) :
    media_consistent (Room.create room_id pilot now) := by
  refine ⟨?_, ?_, ?_⟩
  · intro p pullers h
    simp [Room.create, mfind] at h
  · intro e he
    simp [Room.create] at he
  · intro relay hrelay
    simp [Room.create] at hrelay

theorem media_consistent_Close (r : Room) (h : media_consistent r) :
    media_consistent r.Close := by
  unfold Room.Close
  split
  · exact h
  · exact media_consistent_congr r _ rfl rfl rfl rfl h

theorem media_consistent_HandlePullRemoteStream (r : Room) (now : Int) (env : RelayEnv)
    (data_json : Json) (h : media_consistent r) :
    media_consistent (r.HandlePullRemoteStreamNotificationFromCenter now env data_json) := by
  unfold Room.HandlePullRemoteStreamNotificationFromCenter
  simp only []
  repeat' split
  all_goals exact media_consistent_congr r _ rfl rfl rfl rfl h

theorem OnPullClose_loop_find (m : StrMap (StrMap MediaPuller)) (q p : String)
    (X : StrMap MediaPuller) (h : mfind (Room.OnPullClose_loop m q) p = some X) :
    ∃ Y, mfind m p = some Y ∧ (X = Y ∨ X = merase Y q) := by
  induction m with
  | nil => simp [Room.OnPullClose_loop, mfind] at h
  | cons hd tl ih =>
    obtain ⟨k, pullers⟩ := hd
    unfold Room.OnPullClose_loop at h
    split at h
    · by_cases hk : k = p
      · simp only [mfind, hk, if_true, Option.some.injEq] at h ⊢
        exact ⟨pullers, rfl, Or.inr h.symm⟩
      · simp only [mfind, hk, if_false] at h ⊢
        exact ⟨X, h, Or.inl rfl⟩
    · by_cases hk : k = p
      · simp only [mfind, hk, if_true, Option.some.injEq] at h ⊢
        exact ⟨pullers, rfl, Or.inl h.symm⟩
      · simp only [mfind, hk, if_false] at h ⊢
        exact ih h

theorem media_consistent_OnPullClose (r : Room) (q : String) (h : media_consistent r) :
    media_consistent (r.OnPullClose q) := by
  refine ⟨?_, h.2⟩
  intro p X hX hne
  obtain ⟨Y, hY, hXY⟩ := OnPullClose_loop_find r.pusher2pullers_ q p X hX
  apply h.1 p Y hY
  rcases hXY with rfl | rfl
  · exact hne
  · intro hY0
    apply hne
    rw [hY0]
    rfl

theorem HandlePushSdp_loop_frame (now : Int) (user_id session_id : String)
    (items : List (RtpSessionParam × String)) (acc : Room × List MediaPusher) :
    (items.foldl (Room.HandlePushSdp_step now user_id session_id) acc).1.pusher2pullers_ =
        acc.1.pusher2pullers_ ∧
      (items.foldl (Room.HandlePushSdp_step now user_id session_id) acc).1.pusherId2recvRelay_ =
        acc.1.pusherId2recvRelay_ ∧
      (items.foldl (Room.HandlePushSdp_step now user_id session_id) acc).1.recv_relay_heap_ =
        acc.1.recv_relay_heap_ := by
  induction items generalizing acc with
  | nil => exact ⟨rfl, rfl, rfl⟩
  | cons item rest ih =>
    simp only [List.foldl_cons]
    obtain ⟨h1, h2, h3⟩ := ih (Room.HandlePushSdp_step now user_id session_id acc item)
    rw [h1, h2, h3]
    simp [Room.HandlePushSdp_step, foldl_insert_pushers]

theorem HandlePushSdp_frame (r : Room) (now : Int) (user_id : String) (env : PushSdpEnv)
    (id : Int) (cb : RespCb) :
    (r.HandlePushSdp now user_id env id cb).room.pusher2pullers_ = r.pusher2pullers_ ∧
      (r.HandlePushSdp now user_id env id cb).room.pusherId2recvRelay_ =
        r.pusherId2recvRelay_ ∧
      (r.HandlePushSdp now user_id env id cb).room.recv_relay_heap_ = r.recv_relay_heap_ := by
  obtain ⟨h1, h2, h3⟩ := HandlePushSdp_loop_frame now user_id env.session_id env.rtp_params
    ({ r with last_alive_ms_ := now }, [])
  unfold Room.HandlePushSdp
  simp only []
  split
  · exact ⟨rfl, rfl, rfl⟩
  · split
    · exact ⟨rfl, rfl, rfl⟩
    · split
      · exact ⟨h1, h2, h3⟩
      · rename_i user _
        obtain ⟨us, t, ht⟩ := ouc_trans
          (ouc_NotifyNewPusher
            (List.foldl (Room.HandlePushSdp_step now user_id env.session_id)
              ({ r with last_alive_ms_ := now }, []) env.rtp_params).1 now user_id
            user.user_name_ (List.map Prod.snd user.pushers_))
          (ouc_NewPusher2PilotCenter _ now user_id (List.map Prod.snd user.pushers_))
        rw [ht]
        exact ⟨h1, h2, h3⟩

theorem media_consistent_HandlePushSdp (r : Room) (now : Int) (user_id : String)
    (env : PushSdpEnv) (id : Int) (cb : RespCb) (h : media_consistent r) :
    media_consistent (r.HandlePushSdp now user_id env id cb).room := by
  obtain ⟨f1, f2, f3⟩ := HandlePushSdp_frame r now user_id env id cb
  by_cases hstay : env.answer_sdp = true ∧ env.rtp_params ≠ []
  · obtain ⟨hans, hne⟩ := hstay
    have hp := HandlePushSdp_pushers r now user_id env id cb hans hne
    obtain ⟨_, hmem, hkeys⟩ := HandlePushSdp_loop_tables now user_id env.session_id
      env.rtp_params ({ r with last_alive_ms_ := now }, [])
    refine ⟨?_, ?_, ?_⟩
    · intro p pullers hfind hne'
      rw [f1] at hfind
      rw [f2]
      rcases h.1 p pullers hfind hne' with h1 | h1
      · left
        rw [hp]
        exact hkeys p (Or.inl h1)
      · exact Or.inr h1
    · intro e he
      rw [hp] at he
      rcases hmem e he with h1 | ⟨h1, _⟩
      · exact h.2.1 e h1
      · exact h1.symm
    · rw [f3]
      exact h.2.2
  · have hsame : (r.HandlePushSdp now user_id env id cb).room.pusherId2pusher_ =
        r.pusherId2pusher_ := by
      unfold Room.HandlePushSdp
      simp only []
      split
      · rfl
      · split
        · rfl
        · rename_i h1 h2
          exfalso
          apply hstay
          refine ⟨by simpa using h1, ?_⟩
          intro hnil
          rw [hnil] at h2
          simp at h2
    exact media_consistent_congr r _ f1 hsame f2 f3 h

theorem store_puller_find (pls : List MediaPuller) (m : StrMap (StrMap MediaPuller))
    (p : String) (X : StrMap MediaPuller)
    (h : mfind (pls.foldl Room.store_puller m) p = some X) :
    (∃ pl ∈ pls, pl.pusher_id_ = p) ∨ mfind m p = some X := by
  induction pls generalizing m with
  | nil => exact Or.inr h
  | cons pl rest ih =>
    simp only [List.foldl_cons] at h
    rcases ih _ h with ⟨pl', hpl', hp⟩ | h1
    · exact Or.inl ⟨pl', List.mem_cons_of_mem _ hpl', hp⟩
    · by_cases hk : pl.pusher_id_ = p
      · exact Or.inl ⟨pl, List.mem_cons_self _ _, hk⟩
      · right
        simpa [Room.store_puller, mfind_minsert, hk] using h1

theorem HandlePullSdp_loop_pushers (r : Room) (pull_info : PullRequestInfo) (env : PullSdpEnv)
    (pushers : List PushInfo) (n : Nat) (acc res : List MediaPuller)
    (h : Room.HandlePullSdp_loop r pull_info env pushers n acc = .ok res) :
    ∀ pl ∈ res, pl ∈ acc ∨
      ∃ k mp, mfind r.pusherId2pusher_ k = some mp ∧ pl.pusher_id_ = mp.pusher_id_ := by
  induction pushers generalizing n acc with
  | nil =>
    simp only [Room.HandlePullSdp_loop, Except.ok.injEq] at h
    subst h
    exact fun pl hpl => Or.inl hpl
  | cons push_info rest ih =>
    unfold Room.HandlePullSdp_loop at h
    split at h
    · exact ih n acc h
    · rename_i media_pusher hfind
      simp only [] at h
      split at h
      · simp at h
      · intro pl hpl
        rcases ih _ _ h pl hpl with h1 | h1
        · rcases List.mem_append.mp h1 with h2 | h2
          · exact Or.inl h2
          · right
            simp only [List.mem_singleton] at h2
            exact ⟨_, media_pusher, hfind, by rw [h2]; rfl⟩
        · exact Or.inr h1

theorem media_consistent_HandlePullSdp (r : Room) (now : Int) (pull_info : PullRequestInfo)
    (env : PullSdpEnv) (id : Int) (cb : RespCb) (h : media_consistent r) :
    media_consistent (r.HandlePullSdp now pull_info env id cb).room := by
  unfold Room.HandlePullSdp
  simp only []
  repeat' split
  all_goals first
    | exact media_consistent_congr r _ rfl rfl rfl rfl h
    | skip
  rename_i media_pullers hloop
  refine ⟨?_, h.2⟩
  intro p X hX hne
  rcases store_puller_find media_pullers _ p X hX with ⟨pl, hpl, hp⟩ | h1
  · left
    rcases HandlePullSdp_loop_pushers _ pull_info env _ 0 [] media_pullers hloop pl hpl with
      h2 | ⟨k, mp, hk, hid⟩
    · simp at h2
    · have hkey : mp.pusher_id_ = k := h.2.1 (k, mp) (mfind_some_mem _ _ _ hk)
      have : p = k := by rw [← hp, hid, hkey]
      subst this
      simp only [mcontains]
      simp only [] at hk
      rw [hk]
      rfl
  · exact h.1 p X h1 hne

theorem mem_memplace {κ V : Type} [DecidableEq κ] [KeyLt κ] (m : List (κ × V)) (k : κ) (v : V)
    (e : κ × V) (h : e ∈ memplace m k v) : e = (k, v) ∨ e ∈ m := by
  unfold memplace at h
  split at h
  · exact Or.inr h
  · exact mem_minsert m k v e h

theorem mem_heap_modify (l : List RtcRecvRelay) (n : Nat) (f : RtcRecvRelay → RtcRecvRelay)
    (x : RtcRecvRelay) (h : x ∈ Room.heap_modify l n f) : x ∈ l ∨ ∃ y ∈ l, x = f y := by
  induction l generalizing n with
  | nil => simp [Room.heap_modify] at h
  | cons hd tl ih =>
    cases n with
    | zero =>
      simp only [Room.heap_modify, List.mem_cons] at h
      rcases h with h | h
      · exact Or.inr ⟨hd, List.mem_cons_self _ _, h⟩
      · exact Or.inl (List.mem_cons_of_mem _ h)
    | succ n =>
      simp only [Room.heap_modify, List.mem_cons] at h
      rcases h with h | h
      · exact Or.inl (by simp [h])
      · rcases ih n h with h1 | ⟨y, hy, h1⟩
        · exact Or.inl (List.mem_cons_of_mem _ h1)
        · exact Or.inr ⟨y, List.mem_cons_of_mem _ hy, h1⟩

theorem AddVirtualPusher_push_infos (relay : RtcRecvRelay) (push_info : PushInfo) :
    (relay.AddVirtualPusher push_info).push_infos_ =
      memplace relay.push_infos_ push_info.pusher_id_ push_info := by
  unfold RtcRecvRelay.AddVirtualPusher
  simp only []
  split <;> rfl

theorem AddVirtualPusher_keyed (relay : RtcRecvRelay) (push_info : PushInfo)
    (h : ∀ e ∈ relay.push_infos_, e.2.pusher_id_ = e.1) :
    ∀ e ∈ (relay.AddVirtualPusher push_info).push_infos_, e.2.pusher_id_ = e.1 := by
  intro e he
  rw [AddVirtualPusher_push_infos] at he
  rcases mem_memplace _ _ _ _ he with h1 | h1
  · rw [h1]
  · exact h e h1

theorem relays_grow_refl (r : Room) : relays_grow r r := ⟨rfl, rfl, fun _ h => h, fun h => h⟩

theorem relays_grow_trans {a b c : Room} (h1 : relays_grow a b) (h2 : relays_grow b c) :
    relays_grow a c :=
  ⟨h2.1.trans h1.1, h2.2.1.trans h1.2.1, fun p h => h2.2.2.1 p (h1.2.2.1 p h),
    fun h => h2.2.2.2 (h1.2.2.2 h)⟩

theorem relays_grow_alive (r : Room) (t : Int) :
    relays_grow r { r with last_alive_ms_ := t } := ⟨rfl, rfl, fun _ h => h, fun h => h⟩

theorem relays_grow_CreateOrGet (r : Room) (now : Int) (env : Nat → RelayEnv)
    (u : String) (push_info : PushInfo) :
    relays_grow r (r.CreateOrGetRecvRtcRelay now env u push_info).1 := by
  have hkeys : ∀ (m : StrMap Nat) (h : Nat) (p : String),
      mcontains m p = true → mcontains (minsert m push_info.pusher_id_ h) p = true := by
    intro m h p hp
    simp only [mcontains, mfind_minsert] at hp ⊢
    split
    · rfl
    · exact hp
  unfold Room.CreateOrGetRecvRtcRelay
  split
  · exact ⟨rfl, rfl, hkeys _ _, fun h => h⟩
  · refine ⟨rfl, rfl, hkeys _ _, ?_⟩
    intro hk relay hrelay
    rcases List.mem_append.mp hrelay with h1 | h1
    · exact hk relay h1
    · simp only [List.mem_singleton] at h1
      rw [h1]
      intro e he
      simp [RtcRecvRelay.create] at he

theorem AddVirtualPusher_heap_keyed (heap : List RtcRecvRelay) (n : Nat) (push_info : PushInfo)
    (hk : ∀ relay ∈ heap, ∀ e ∈ relay.push_infos_, e.2.pusher_id_ = e.1) :
    ∀ relay ∈ Room.heap_modify heap n (fun relay => relay.AddVirtualPusher push_info),
      ∀ e ∈ relay.push_infos_, e.2.pusher_id_ = e.1 := by
  intro relay hrelay
  rcases mem_heap_modify _ _ _ _ hrelay with h1 | ⟨y, hy, h1⟩
  · exact hk relay h1
  · rw [h1]
    exact AddVirtualPusher_keyed y push_info (hk y hy)

theorem SendPullRequestToPilotCenter_room (r : Room) (now : Int) (u : String)
    (push_info : PushInfo) (relay_ptr : Nat) (sent : Room × List Event)
    (h : r.SendPullRequestToPilotCenter now u push_info relay_ptr = some sent) :
    sent.1 = { r with last_alive_ms_ := now } := by
  unfold Room.SendPullRequestToPilotCenter at h
  simp only [] at h
  split at h
  · simp at h
  · split at h
    · simp only [Option.some.injEq] at h
      rw [← h]
    · simp at h

theorem relays_grow_PullRemotePusher (r : Room) (now : Int) (env : Nat → RelayEnv)
    (u : String) (push_info : PushInfo) (out : Out Int)
    (h : r.PullRemotePusher now env u push_info = some out) :
    relays_grow r out.room := by
  have hc := relays_grow_CreateOrGet { r with last_alive_ms_ := now } now env u push_info
  unfold Room.PullRemotePusher at h
  simp only [] at h
  split at h
  · simp at h
  · rename_i sent hsent
    simp only [Option.some.injEq] at h
    rw [← h]
    simp only []
    rw [SendPullRequestToPilotCenter_room _ _ _ _ _ _ hsent]
    exact ⟨hc.1, hc.2.1, hc.2.2.1, fun hk => AddVirtualPusher_heap_keyed _ _ _ (hc.2.2.2 hk)⟩

theorem HandleRemotePullSdp_relays_none (now : Int) (env : Nat → RelayEnv) (u : String)
    (pull_info : PullRequestInfo) (pushers : List PushInfo) :
    pushers.foldl (Room.HandleRemotePullSdp_relays now env u pull_info) none = none := by
  induction pushers with
  | nil => rfl
  | cons push_info rest ih =>
    simp only [List.foldl_cons, Room.HandleRemotePullSdp_relays]
    exact ih

theorem relays_grow_loop (now : Int) (env : Nat → RelayEnv) (u : String)
    (pull_info : PullRequestInfo) (pushers : List PushInfo) (acc res : Room × List Event)
    (h : pushers.foldl (Room.HandleRemotePullSdp_relays now env u pull_info) (some acc) =
      some res) :
    relays_grow acc.1 res.1 := by
  induction pushers generalizing acc with
  | nil =>
    simp only [List.foldl_nil, Option.some.injEq] at h
    rw [h]
    exact relays_grow_refl _
  | cons push_info rest ih =>
    simp only [List.foldl_cons] at h
    cases hstep : Room.HandleRemotePullSdp_relays now env u pull_info (some acc) push_info with
    | none =>
      rw [hstep, HandleRemotePullSdp_relays_none] at h
      simp at h
    | some mid =>
      rw [hstep] at h
      refine relays_grow_trans ?_ (ih mid h)
      unfold Room.HandleRemotePullSdp_relays at hstep
      simp only [] at hstep
      split at hstep
      · simp only [Option.some.injEq] at hstep
        rw [← hstep]
        exact relays_grow_refl _
      · split at hstep
        · simp only [Option.some.injEq] at hstep
          rw [← hstep]
          exact relays_grow_refl _
        · split at hstep
          · simp at hstep
          · rename_i pulled hpulled
            simp only [Option.some.injEq] at hstep
            rw [← hstep]
            exact relays_grow_PullRemotePusher _ _ _ _ _ _ hpulled

theorem HandleRemotePullSdp_loop_relays (r : Room) (pull_info : PullRequestInfo)
    (env : PullSdpEnv) (pushers : List PushInfo) (n : Nat) (acc res : List MediaPuller)
    (h : Room.HandleRemotePullSdp_loop r pull_info env pushers n acc = .ok res) :
    ∀ pl ∈ res, pl ∈ acc ∨
      ∃ k ptr relay pi, mfind r.pusherId2recvRelay_ k = some ptr ∧
        relay ∈ r.recv_relay_heap_ ∧ mfind relay.push_infos_ k = some pi ∧
        pl.pusher_id_ = pi.pusher_id_ := by
  induction pushers generalizing n acc with
  | nil =>
    simp only [Room.HandleRemotePullSdp_loop, Except.ok.injEq] at h
    subst h
    exact fun pl hpl => Or.inl hpl
  | cons push_info rest ih =>
    unfold Room.HandleRemotePullSdp_loop at h
    simp only [] at h
    split at h
    · exact ih n acc h
    · rename_i ptr hptr
      split at h
      · exact ih n acc h
      · rename_i relay_push_info hinfo
        split at h
        · simp at h
        · split at h
          · exact ih _ acc h
          · intro pl hpl
            rcases ih _ _ h pl hpl with h1 | h1
            · rcases List.mem_append.mp h1 with h2 | h2
              · exact Or.inl h2
              · right
                simp only [List.mem_singleton] at h2
                cases hget : r.recv_relay_heap_[ptr]? with
                | none => simp [hget] at hinfo
                | some relay =>
                  simp [hget, RtcRecvRelay.GetPushInfo] at hinfo
                  exact ⟨_, ptr, relay, relay_push_info, hptr, List.getElem?_mem hget, hinfo,
                    by rw [h2]; rfl⟩
            · exact Or.inr h1

theorem media_consistent_HandleRemotePullSdp (r : Room) (now : Int) (u : String)
    (pull_info : PullRequestInfo) (env : PullSdpEnv) (id : Int) (cb : RespCb)
    (h : media_consistent r) (out : Out Int)
    (hout : r.HandleRemotePullSdp now u pull_info env id cb = some out) :
    media_consistent out.room := by
  unfold Room.HandleRemotePullSdp at hout
  simp only [] at hout
  cases hfold : pull_info.pushers_.foldl
      (Room.HandleRemotePullSdp_relays now env.relay_env u pull_info)
      (some ({ r with last_alive_ms_ := now }, [])) with
  | none =>
    rw [hfold] at hout
    simp at hout
  | some relays =>
    rw [hfold] at hout
    simp only [] at hout
    have hg := relays_grow_trans (relays_grow_alive r now)
      (relays_grow_loop now env.relay_env u pull_info pull_info.pushers_
        ({ r with last_alive_ms_ := now }, []) relays hfold)
    have hmid : media_consistent relays.1 := by
      refine ⟨?_, ?_, hg.2.2.2 h.2.2⟩
      · intro p X hX hne
        rw [hg.1] at hX
        rw [hg.2.1]
        rcases h.1 p X hX hne with h1 | h1
        · exact Or.inl h1
        · exact Or.inr (hg.2.2.1 p h1)
      · rw [hg.2.1]
        exact h.2.1
    split at hout
    · simp only [Option.some.injEq] at hout
      rw [← hout]
      exact hmid
    · split at hout
      · simp only [Option.some.injEq] at hout
        rw [← hout]
        exact hmid
      · rename_i media_pullers hloop
        simp only [Option.some.injEq] at hout
        rw [← hout]
        refine ⟨?_, hmid.2⟩
        intro p X hX hne
        rcases store_puller_find media_pullers _ p X hX with ⟨pl, hpl, hp⟩ | h1
        · right
          rcases HandleRemotePullSdp_loop_relays _ pull_info env _ 0 [] media_pullers hloop pl
            hpl with h2 | ⟨k, ptr, relay, pi, hk, hrelay, hpi, hid⟩
          · simp at h2
          · have hkey : pi.pusher_id_ = k :=
              hmid.2.2 relay hrelay (k, pi) (mfind_some_mem _ _ _ hpi)
            have : p = k := by rw [← hp, hid, hkey]
            subst this
            simp only [mcontains]
            rw [hk]
            rfl
        · exact hmid.1 p X h1 hne

theorem media_consistent_step (r : Room) (op : Op) (hop : op.removes_pusher = false)
    (h : media_consistent r) : media_consistent (step r op) := by
  cases op with
  | UserJoin now u name id cb => exact media_consistent_of_ouc _ _ (ouc_UserJoin r now u name id cb) h
  | UserLeave now u => exact media_consistent_of_ouc _ _ (ouc_UserLeave r now u) h
  | DisconnectUser now u => exact media_consistent_of_ouc _ _ (ouc_DisconnectUser r now u) h
  | HandlePushSdp now u env id cb => exact media_consistent_HandlePushSdp r now u env id cb h
  | HandlePullSdp now pull_info env id cb =>
    exact media_consistent_HandlePullSdp r now pull_info env id cb h
  | HandleRemotePullSdp now u pull_info env id cb =>
    simp only [step]
    cases hout : r.HandleRemotePullSdp now u pull_info env id cb with
    | none => exact h
    | some out => exact media_consistent_HandleRemotePullSdp r now u pull_info env id cb h out hout
  | HandleWsHeartbeat now u => exact media_consistent_of_ouc _ _ (ouc_HandleWsHeartbeat r now u) h
  | OnRtpPacketFromRtcPusher now u s p pkt =>
    exact media_consistent_of_ouc _ _ (ouc_OnRtpPacketFromRtcPusher r now u s p pkt) h
  | OnRtpPacketFromRemoteRtcPusher now u p pkt =>
    exact media_consistent_of_ouc _ _ (ouc_OnRtpPacketFromRemoteRtcPusher r now u p pkt) h
  | OnPushClose p => simp [Op.removes_pusher] at hop
  | OnPullClose q => exact media_consistent_OnPullClose r q h
  | OnTimer now => simp [Op.removes_pusher] at hop
  | OnAsyncRequestResponse now method resp_json =>
    exact media_consistent_of_ouc _ _ (ouc_OnAsyncRequestResponse r now method resp_json) h
  | HandleNewUserNotificationFromCenter now data_json =>
    exact media_consistent_of_ouc _ _ (ouc_HandleNewUserNotificationFromCenter r now data_json) h
  | HandleNewPusherNotificationFromCenter now data_json =>
    exact media_consistent_of_ouc _ _ (ouc_HandleNewPusherNotificationFromCenter r now data_json) h
  | HandlePullRemoteStreamNotificationFromCenter now env data_json =>
    exact media_consistent_HandlePullRemoteStream r now env data_json h
  | HandleUserDisconnectNotificationFromCenter data_json =>
    exact media_consistent_of_ouc _ _ (ouc_HandleUserDisconnectNotificationFromCenter r data_json) h
  | HandleUserLeaveNotificationFromCenter data_json =>
    exact media_consistent_of_ouc _ _ (ouc_HandleUserLeaveNotificationFromCenter r data_json) h
  | HandleNotifyTextMessageFromCenter data_json =>
    exact media_consistent_of_ouc _ _ (ouc_HandleNotifyTextMessageFromCenter r data_json) h
  | Close => exact media_consistent_Close r h

theorem media_consistent_run (r : Room) (ops : List Op)
    (hops : ∀ op ∈ ops, op.removes_pusher = false) (h : media_consistent r) :
    media_consistent (run r ops) := by
  induction ops generalizing r with
  | nil => exact h
  | cons op rest ih =>
    exact ih (step r op) (fun o ho => hops o (List.mem_cons_of_mem _ ho))
      (media_consistent_step r op (hops op (List.mem_cons_self _ _)) h)

/-- C3, amended: in every Room state reached from a freshly constructed Room by a sequence
    of operations that holds neither `OnPushClose` nor `OnTimer`, every pusher id under
    which `pusher2pullers_` holds at least one MediaPuller is a key of `pusherId2pusher_`
    or of `pusherId2recvRelay_`: the pull handlers store a puller only under a pusher or
    relay registered at that moment, and no other operation takes a pusher or relay
    away. -/
theorem C3_pullers_have_pusher_without_removal (room_id : String) (pilot_client : Bool)
    (now : Int) (ops : List Op) (hops : ∀ op ∈ ops, op.removes_pusher = false) :
    pullers_have_pusher (run (Room.create room_id pilot_client now) ops) :=
  (media_consistent_run _ ops hops (media_consistent_create room_id pilot_client now)).1

theorem C3_pullers_have_pusher_without_removal_witness :
    pullers_have_pusher (run (Room.create "R" false 0) (closed_pusher_ops.take 4)) :=
  C3_pullers_have_pusher_without_removal "R" false 0 (closed_pusher_ops.take 4) (by decide)

/-! ## Heartbeats -/

/-- C11, counterexample: in a room last alive at time 0 a heartbeat at time 5 for the
    unknown user "zz" returns -1 and leaves `users_`, but the Room's `last_alive_ms_`
    is 5 afterwards, not 0. -/
theorem C11_counterexample :
    mfind two_users_room.users_ "zz" = none ∧
    (Room.HandleWsHeartbeat two_users_room 5 "zz").2 = -1 ∧
    (Room.HandleWsHeartbeat two_users_room 5 "zz").1.users_ = two_users_room.users_ ∧
    two_users_room.last_alive_ms_ = 0 ∧
    (Room.HandleWsHeartbeat two_users_room 5 "zz").1.last_alive_ms_ = 5 := by
  decide

/-- C11, amended: `HandleWsHeartbeat` sets the Room's `last_alive_ms_` to the current time
    for every user id, known or not, and changes nothing but `users_` besides. For a user
    id that is not in `users_` it returns -1 and leaves `users_` as it is; for one that is
    there it returns 0, sets that user's last heartbeat to the current time and leaves
    every other user and the keys of `users_`. -/
theorem C11_heartbeat_refreshes_room (r : Room) (now : Int) (user_id : String) :
    (Room.HandleWsHeartbeat r now user_id).1.last_alive_ms_ = now ∧
    { (Room.HandleWsHeartbeat r now user_id).1 with
        users_ := r.users_, last_alive_ms_ := r.last_alive_ms_ } = r ∧
    (Room.HandleWsHeartbeat r now user_id).2 = (if mcontains r.users_ user_id then 0 else -1) ∧
    (mcontains r.users_ user_id = false →
      (Room.HandleWsHeartbeat r now user_id).1.users_ = r.users_) ∧
    mkeys (Room.HandleWsHeartbeat r now user_id).1.users_ = mkeys r.users_ ∧
    (∀ k, mfind (Room.HandleWsHeartbeat r now user_id).1.users_ k =
      if user_id = k then (mfind r.users_ k).map (fun u => u.UpdateHeartbeat now)
      else mfind r.users_ k) := by
  cases h : mfind r.users_ user_id with
  | none =>
    have hres : Room.HandleWsHeartbeat r now user_id = ({ r with last_alive_ms_ := now }, -1) := by
      simp [Room.HandleWsHeartbeat, h]
    rw [hres]
    refine ⟨rfl, rfl, by simp [mcontains, h], by simp, rfl, ?_⟩
    intro k
    by_cases hk : user_id = k
    · subst hk
      simp [h]
    · simp [hk]
  | some u =>
    have hres : Room.HandleWsHeartbeat r now user_id =
        ({ r with last_alive_ms_ := now,
                  users_ := mmodify r.users_ user_id (fun u => u.UpdateHeartbeat now) }, 0) := by
      simp [Room.HandleWsHeartbeat, h]
    rw [hres]
    refine ⟨rfl, rfl, by simp [mcontains, h], by simp [mcontains, h], ?_, ?_⟩
    · exact mkeys_mmodify _ _ _
    · intro k
      exact mfind_mmodify _ _ _ _

theorem mfind_append {κ V : Type} [DecidableEq κ] (l1 l2 : List (κ × V)) (k : κ) :
    mfind (l1 ++ l2) k = (mfind l1 k).orElse (fun _ => mfind l2 k) := by
  induction l1 with
  | nil => simp [mfind]
  | cons hd tl ih =>
    obtain ⟨k', v'⟩ := hd
    by_cases h : k' = k
    · simp [mfind, h]
    · simp [mfind, h, ih]

theorem mfind_isSome_iff {κ V : Type} [DecidableEq κ] (m : List (κ × V)) (k : κ) :
    (mfind m k).isSome ↔ k ∈ mkeys m := by
  induction m with
  | nil => simp [mfind, mkeys]
  | cons hd tl ih =>
    obtain ⟨k', v'⟩ := hd
    by_cases h : k' = k
    · simp [mfind, mkeys, h]
    · have h2 : ¬ k = k' := fun e => h e.symm
      simp only [mkeys] at ih
      simp [mfind, mkeys, h, h2, ih]

theorem mem_map_fst_ite (c : Prop) [Decidable c] (k a : String) (b : Json) :
    k ∈ List.map Prod.fst (if c then [(a, b)] else []) ↔ (k = a ∧ c) := by
  split <;> simp [*]

theorem schema_object_find (p : RtpSessionParam) (k : String) :
    ((schema_object p).find k).isSome ↔ schema_key p k := by
  simp only [schema_object, Json.find, schema_key, mfind_isSome_iff, mkeys, List.map_append,
    List.mem_append, mem_map_fst_ite, List.map_cons, List.map_nil, List.mem_cons,
    List.mem_singleton, List.not_mem_nil, or_false]
  simp only [or_assoc, or_comm, or_left_comm]

theorem mfind_ite_singleton (c : Prop) [Decidable c] (a k : String) (b : Json) :
    mfind (if c then [(a, b)] else []) k = if a = k ∧ c then some b else none := by
  by_cases hc : c <;> by_cases ha : a = k <;> simp [mfind, hc, ha]

theorem schema_object_av_type (p : RtpSessionParam) :
    (schema_object p).find "av_type" = some (Json.str (avtype_tostring p.av_type_)) := by
  simp [schema_object, Json.find, mfind_append, mfind_ite_singleton, mfind]

theorem schema_object_clock_rate (p : RtpSessionParam) :
    (schema_object p).find "clock_rate" = some (Json.num p.clock_rate_) := by
  simp [schema_object, Json.find, mfind_append, mfind_ite_singleton, mfind]

theorem schema_object_codec (p : RtpSessionParam) :
    (schema_object p).find "codec" = some (Json.str p.codec_name_) := by
  simp [schema_object, Json.find, mfind_append, mfind_ite_singleton, mfind]

theorem schema_object_fmtp_param (p : RtpSessionParam) :
    (schema_object p).find "fmtp_param" = some (Json.str p.fmtp_param_) := by
  simp [schema_object, Json.find, mfind_append, mfind_ite_singleton, mfind]

theorem schema_object_payload_type (p : RtpSessionParam) :
    (schema_object p).find "payload_type" = some (Json.num p.payload_type_) := by
  simp [schema_object, Json.find, mfind_append, mfind_ite_singleton, mfind]

theorem schema_object_rtcp_features (p : RtpSessionParam) :
    (schema_object p).find "rtcp_features" = some (Json.arr (p.rtcp_features_.map Json.str)) := by
  simp [schema_object, Json.find, mfind_append, mfind_ite_singleton, mfind]

theorem schema_object_rtx_payload_type (p : RtpSessionParam) :
    (schema_object p).find "rtx_payload_type" = some (Json.num p.rtx_payload_type_) := by
  simp [schema_object, Json.find, mfind_append, mfind_ite_singleton, mfind]

theorem schema_object_rtx_ssrc (p : RtpSessionParam) :
    (schema_object p).find "rtx_ssrc" = some (Json.num p.rtx_ssrc_) := by
  simp [schema_object, Json.find, mfind_append, mfind_ite_singleton, mfind]

theorem schema_object_ssrc (p : RtpSessionParam) :
    (schema_object p).find "ssrc" = some (Json.num p.ssrc_) := by
  simp [schema_object, Json.find, mfind_append, mfind_ite_singleton, mfind]

theorem schema_object_use_nack (p : RtpSessionParam) :
    (schema_object p).find "use_nack" = some (Json.bool p.use_nack_) := by
  simp [schema_object, Json.find, mfind_append, mfind_ite_singleton, mfind]

theorem schema_object_channel (p : RtpSessionParam) :
    (schema_object p).find "channel" = if p.channel_ > 0 then some (Json.num p.channel_) else none := by
  simp [schema_object, Json.find, mfind_append, mfind_ite_singleton, mfind]

theorem schema_object_key_request (p : RtpSessionParam) :
    (schema_object p).find "key_request" = if p.key_request_ = true then some (Json.bool true) else none := by
  simp [schema_object, Json.find, mfind_append, mfind_ite_singleton, mfind]

theorem schema_object_mid_ext_id (p : RtpSessionParam) :
    (schema_object p).find "mid_ext_id" = if p.mid_ext_id_ > 0 then some (Json.num p.mid_ext_id_) else none := by
  simp [schema_object, Json.find, mfind_append, mfind_ite_singleton, mfind]

theorem schema_object_tcc_ext_id (p : RtpSessionParam) :
    (schema_object p).find "tcc_ext_id" = if p.tcc_ext_id_ > 0 then some (Json.num p.tcc_ext_id_) else none := by
  simp [schema_object, Json.find, mfind_append, mfind_ite_singleton, mfind]

theorem schema_object_abs_send_time_ext_id (p : RtpSessionParam) :
    (schema_object p).find "abs_send_time_ext_id" = if p.abs_send_time_ext_id_ > 0 then some (Json.num p.abs_send_time_ext_id_) else none := by
  simp [schema_object, Json.find, mfind_append, mfind_ite_singleton, mfind]

set_option maxHeartbeats 1600000 in
theorem Dump_eq_schema_object (p : RtpSessionParam) :
    p.Dump (.obj []) = schema_object p := by
  have hf := foldl_push_back_at Json.str "rtcp_features" p.rtcp_features_
    (minsert (minsert (minsert ([] : List (String × Json)) "av_type"
      (Json.str (avtype_tostring p.av_type_))) "codec" (Json.str p.codec_name_))
      "fmtp_param" (Json.str p.fmtp_param_)) []
  simp only [RtpSessionParam.Dump, Json.set, hf, schema_object, List.nil_append]
  by_cases h1 : p.channel_ > 0 <;> by_cases h2 : p.key_request_ = true <;>
    by_cases h3 : p.mid_ext_id_ > 0 <;> by_cases h4 : p.tcc_ext_id_ > 0 <;>
    by_cases h5 : p.abs_send_time_ext_id_ > 0 <;>
    simp only [h1, h2, h3, h4, h5, if_true, if_false, Bool.false_eq_true] <;>
    simp +decide [minsert, KeyLt.lt]

theorem Json_get_eq_find (j : Json) (k : String) : j.get k = j.find k := by
  cases j <;> rfl

theorem FromJson_features_strs (xs acc : List String) :
    RtpSessionParam.FromJson_features (xs.map Json.str) acc = some (acc ++ xs) := by
  induction xs generalizing acc with
  | nil => simp [RtpSessionParam.FromJson_features]
  | cons x rest ih =>
    simp [RtpSessionParam.FromJson_features, Json.get_string, ih]

theorem get_int_num (n : Int) (h : -2147483648 ≤ n ∧ n < 2147483648) :
    (Json.num n).get_int = some n := by
  simp only [Json.get_int, Json.get_number, Option.map_some']
  congr 1
  omega

theorem get_uint32_num (n : Nat) (h : n < 4294967296) :
    (Json.num n).get_uint32 = some n := by
  simp only [Json.get_uint32, Json.get_number, Option.map_some']
  congr 1
  omega

theorem get_uint8_num (n : Nat) (h : n < 256) :
    (Json.num n).get_uint8 = some n := by
  simp only [Json.get_uint8, Json.get_number, Option.map_some']
  congr 1
  omega

theorem FromJson_schema_object (p : RtpSessionParam) (hr : p.in_range)
    (hav : p.av_type_ = MEDIA_VIDEO_TYPE ∨ p.av_type_ = MEDIA_AUDIO_TYPE) :
    RtpSessionParam.FromJson {} (schema_object p) = some p.schema_image := by
  obtain ⟨h1, h2, h3, h4, h5, h6, h7, h8, h9⟩ := hr
  have hav2 : (if avtype_tostring p.av_type_ = "video" then MEDIA_VIDEO_TYPE
      else if avtype_tostring p.av_type_ = "audio" then MEDIA_AUDIO_TYPE
      else MEDIA_UNKNOWN_TYPE) = p.av_type_ := by
    rcases hav with h | h <;> rw [h] <;> decide
  simp only [RtpSessionParam.FromJson, Json_get_eq_find, schema_object_av_type,
    schema_object_codec, schema_object_fmtp_param, schema_object_rtcp_features,
    schema_object_channel, schema_object_ssrc, schema_object_payload_type,
    schema_object_clock_rate, schema_object_rtx_ssrc, schema_object_rtx_payload_type,
    schema_object_use_nack, schema_object_key_request, schema_object_mid_ext_id,
    schema_object_tcc_ext_id, schema_object_abs_send_time_ext_id,
    Option.bind_some, Option.some_bind, Json.get_string, Json.get_bool, Json.iter,
    FromJson_features_strs, List.nil_append, get_uint32_num _ h1, get_uint8_num _ h2,
    get_uint32_num _ h3, get_uint32_num _ h4, get_uint8_num _ h5, hav2]
  by_cases c1 : p.channel_ > 0 <;> by_cases c2 : p.key_request_ = true <;>
    by_cases c3 : p.mid_ext_id_ > 0 <;> by_cases c4 : p.tcc_ext_id_ > 0 <;>
    by_cases c5 : p.abs_send_time_ext_id_ > 0 <;>
    simp [c1, c2, c3, c4, c5, get_int_num _ h6, get_int_num _ h7, get_int_num _ h8,
      get_int_num _ h9, RtpSessionParam.schema_image]

/-- C12, counterexample: a video stream whose mid extension id is 0. `Dump` writes no
    `mid_ext_id` key for it, so a default-constructed `RtpSessionParam` that reads the
    object back keeps its default -1 in `mid_ext_id_`, which is not the 0 of the
    original. -/
theorem C12_counterexample :
    zero_ext_id_param.av_type_ = MEDIA_VIDEO_TYPE ∧
    zero_ext_id_param.mid_ext_id_ = 0 ∧
    ((zero_ext_id_param.Dump (.obj [])).find "mid_ext_id").isSome = false ∧
    (RtpSessionParam.FromJson {} (zero_ext_id_param.Dump (.obj []))).map
      (fun q => q.mid_ext_id_) = some (-1) := by
  decide

/-- C12, amended: for every `RtpSessionParam` p within the ranges of its member types
    whose av_type is audio or video, `FromJson` into a default-constructed value reads
    the JSON written by `Dump` without an exception, and the value read equals p on
    av_type, codec_name, fmtp_param, rtcp_features, ssrc, payload_type, clock_rate,
    rtx_ssrc, rtx_payload_type, use_nack and key_request, while channel is that of p if
    it is positive and 0 otherwise, and each extension id is that of p if it is positive
    and -1 otherwise. So the value read equals p on every field of the schema exactly
    when the channel of p is not negative and each extension id of p is positive or -1. -/
theorem C12_round_trip_up_to_defaults (p : RtpSessionParam) (hr : p.in_range)
    (hav : p.av_type_ = MEDIA_VIDEO_TYPE ∨ p.av_type_ = MEDIA_AUDIO_TYPE) :
    RtpSessionParam.FromJson {} (p.Dump (.obj [])) = some p.schema_image ∧
    (p.schema_image = { p with mid_ := -1 } ↔
      0 ≤ p.channel_ ∧ (0 < p.mid_ext_id_ ∨ p.mid_ext_id_ = -1) ∧
      (0 < p.tcc_ext_id_ ∨ p.tcc_ext_id_ = -1) ∧
      (0 < p.abs_send_time_ext_id_ ∨ p.abs_send_time_ext_id_ = -1)) := by
  refine ⟨by rw [Dump_eq_schema_object]; exact FromJson_schema_object p hr hav, ?_⟩
  rcases p with ⟨av, mid, ssrc, pt, ch, cr, rs, rp, un, kr, me, te, ae, cn, fp, rf⟩
  simp only [RtpSessionParam.schema_image, RtpSessionParam.mk.injEq, true_and, and_true]
  constructor
  · rintro ⟨a, b, c, d⟩
    split_ifs at a b c d <;> omega
  · rintro ⟨a, b, c, d⟩
    split_ifs <;> omega

/-- C12, witness: the video stream with SSRC 100. -/
theorem C12_round_trip_up_to_defaults_witness :
    RtpSessionParam.FromJson {} (video100.Dump (.obj [])) = some video100.schema_image ∧
    (video100.schema_image = { video100 with mid_ := -1 } ↔
      0 ≤ video100.channel_ ∧ (0 < video100.mid_ext_id_ ∨ video100.mid_ext_id_ = -1) ∧
      (0 < video100.tcc_ext_id_ ∨ video100.tcc_ext_id_ = -1) ∧
      (0 < video100.abs_send_time_ext_id_ ∨ video100.abs_send_time_ext_id_ = -1)) :=
  C12_round_trip_up_to_defaults video100
    (by simp [RtpSessionParam.in_range, video100]) (Or.inl rfl)

/-- C13: for every `RtpSessionParam` p the object written by `Dump` into an empty object
    is the object of the schema: it has a key exactly if the key is one of av_type,
    codec, fmtp_param, rtcp_features, ssrc, payload_type, clock_rate, rtx_ssrc,
    rtx_payload_type, use_nack, or channel with a positive `channel_`, or key_request
    with `key_request_` true, or one of the three extension ids with that id positive;
    rtcp_features is the array of the features in order. For every `PushInfo`, `DumpJson`
    writes the two keys pusherId and rtpParam, rtpParam being that object. -/
theorem C13_dump_writes_schema_keys (p : RtpSessionParam) (pi : PushInfo) :
    p.Dump (.obj []) = schema_object p ∧
    (∀ k, ((p.Dump (.obj [])).find k).isSome ↔ schema_key p k) ∧
    (p.Dump (.obj [])).find "rtcp_features" = some (.arr (p.rtcp_features_.map Json.str)) ∧
    pi.DumpJson (.obj []) =
      .obj [("pusherId", .str pi.pusher_id_), ("rtpParam", pi.param_.Dump (.obj []))] := by
  refine ⟨Dump_eq_schema_object p, ?_, ?_, ?_⟩
  · intro k
    rw [Dump_eq_schema_object]
    exact schema_object_find p k
  · rw [Dump_eq_schema_object]
    exact schema_object_rtcp_features p
  · simp +decide [PushInfo.DumpJson, Json.set, minsert, KeyLt.lt]

/-! ## Packets of a local pusher -/

theorem SetExtensionIds_ssrc (mp : MediaPusher) (pkt : RtpPacket) :
    (mp.SetExtensionIds pkt).ssrc = pkt.ssrc := by
  simp only [MediaPusher.SetExtensionIds]
  repeat' split
  all_goals rfl

theorem HandleRtpPacket_primary (mp : MediaPusher) (env : RecvSessionEnv) (pkt : RtpPacket)
    (x : RtpSession) (h : mfind mp.ssrc2sessions_ pkt.ssrc = some x) :
    mp.HandleRtpPacket env pkt =
      if env.receive_rtp then
        (0, [.OnRtpPacketFromRtcPusher mp.user_id_ mp.session_id_ mp.pusher_id_
              (mp.SetExtensionIds pkt)])
      else (-1, []) := by
  simp only [MediaPusher.HandleRtpPacket, SetExtensionIds_ssrc, h]
  cases env.receive_rtp <;> simp

theorem HandleRtpPacket_rtx (mp : MediaPusher) (env : RecvSessionEnv) (pkt : RtpPacket)
    (y : RtpSession) (h1 : mfind mp.ssrc2sessions_ pkt.ssrc = none)
    (h2 : mfind mp.rtxssrc2sessions_ pkt.ssrc = some y) :
    mp.HandleRtpPacket env pkt =
      if env.receive_rtx then
        (if env.repeat_ then (0, [])
         else if (env.demux (mp.SetExtensionIds pkt)).ssrc = pkt.ssrc then (0, [])
         else if (env.demux (mp.SetExtensionIds pkt)).payload.length = 0 then (0, [])
         else (0, [.OnRtpPacketFromRtcPusher mp.user_id_ mp.session_id_ mp.pusher_id_
              (env.demux (mp.SetExtensionIds pkt))]))
      else (-1, []) := by
  simp only [MediaPusher.HandleRtpPacket, SetExtensionIds_ssrc, h1, h2]
  cases env.receive_rtx <;> simp

theorem HandleRtpPacket_unknown (mp : MediaPusher) (env : RecvSessionEnv) (pkt : RtpPacket)
    (h1 : mfind mp.ssrc2sessions_ pkt.ssrc = none)
    (h2 : mfind mp.rtxssrc2sessions_ pkt.ssrc = none) :
    mp.HandleRtpPacket env pkt = (-1, []) := by
  simp only [MediaPusher.HandleRtpPacket, SetExtensionIds_ssrc, h1, h2]

/-- C14, counterexample: a video pusher with RTX SSRC 101 receives a packet with SSRC 101
    and a payload of three bytes; `ReceiveRtxPacket` answers true, flags no repeat and
    leaves the packet under SSRC 101. The packet is not forwarded. -/
theorem C14_counterexample :
    mcontains rtx_pusher.ssrc2sessions_ packet101.ssrc = false ∧
    mcontains rtx_pusher.rtxssrc2sessions_ packet101.ssrc = true ∧
    undemuxed_env.receive_rtx = true ∧ undemuxed_env.repeat_ = false ∧
    (undemuxed_env.demux (rtx_pusher.SetExtensionIds packet101)).payload.length = 3 ∧
    rtx_pusher.HandleRtpPacket undemuxed_env packet101 = (0, []) := by
  decide

/-- C14, amended: `HandleRtpPacket` forwards at most one packet to the Room, and it
    forwards one exactly when either (a) the packet SSRC has a primary session and
    `ReceiveRtpPacket` accepts the packet, or (b) it has no primary session but an RTX
    session, `ReceiveRtxPacket` succeeds, `repeat` is false, the packet's SSRC after the
    call differs from the SSRC it came with, and its payload is not empty. What is
    forwarded is the stamped packet with the ids of the pusher, and the call returns 0
    then. A packet whose SSRC has neither session returns -1 and is not forwarded.
    `CreateRtpRecvSession` on a new pusher files the primary session under `ssrc_` only
    and the RTX session under `rtx_ssrc_` only, if that is not 0. -/
theorem C14_forward_conditions (mp : MediaPusher) (env : RecvSessionEnv) (pkt : RtpPacket)
    (param : RtpSessionParam) (room_id user_id session_id uuid : String) (s : Nat) :
    (mp.HandleRtpPacket env pkt).2.length ≤ 1 ∧
    ((mp.HandleRtpPacket env pkt).2 ≠ [] ↔
      (mcontains mp.ssrc2sessions_ pkt.ssrc = true ∧ env.receive_rtp = true) ∨
      (mcontains mp.ssrc2sessions_ pkt.ssrc = false ∧
        mcontains mp.rtxssrc2sessions_ pkt.ssrc = true ∧
        env.receive_rtx = true ∧ env.repeat_ = false ∧
        (env.demux (mp.SetExtensionIds pkt)).ssrc ≠ pkt.ssrc ∧
        (env.demux (mp.SetExtensionIds pkt)).payload.length ≠ 0)) ∧
    ((mp.HandleRtpPacket env pkt).2 ≠ [] →
      mp.HandleRtpPacket env pkt =
        (0, [.OnRtpPacketFromRtcPusher mp.user_id_ mp.session_id_ mp.pusher_id_
              (mp.forwarded env pkt)])) ∧
    (mcontains mp.ssrc2sessions_ pkt.ssrc = false ∧
      mcontains mp.rtxssrc2sessions_ pkt.ssrc = false →
      mp.HandleRtpPacket env pkt = (-1, [])) ∧
    (mcontains (MediaPusher.create param room_id user_id session_id
        uuid).CreateRtpRecvSession.ssrc2sessions_ s = decide (s = param.ssrc_)) ∧
    (mcontains (MediaPusher.create param room_id user_id session_id
        uuid).CreateRtpRecvSession.rtxssrc2sessions_ s =
      decide (param.rtx_ssrc_ ≠ 0 ∧ s = param.rtx_ssrc_)) := by
  have key : (mp.HandleRtpPacket env pkt).2.length ≤ 1 ∧
      ((mp.HandleRtpPacket env pkt).2 ≠ [] ↔
        (mcontains mp.ssrc2sessions_ pkt.ssrc = true ∧ env.receive_rtp = true) ∨
        (mcontains mp.ssrc2sessions_ pkt.ssrc = false ∧
          mcontains mp.rtxssrc2sessions_ pkt.ssrc = true ∧
          env.receive_rtx = true ∧ env.repeat_ = false ∧
          (env.demux (mp.SetExtensionIds pkt)).ssrc ≠ pkt.ssrc ∧
          (env.demux (mp.SetExtensionIds pkt)).payload.length ≠ 0)) ∧
      ((mp.HandleRtpPacket env pkt).2 ≠ [] →
        mp.HandleRtpPacket env pkt =
          (0, [.OnRtpPacketFromRtcPusher mp.user_id_ mp.session_id_ mp.pusher_id_
                (mp.forwarded env pkt)])) ∧
      (mcontains mp.ssrc2sessions_ pkt.ssrc = false ∧
        mcontains mp.rtxssrc2sessions_ pkt.ssrc = false →
        mp.HandleRtpPacket env pkt = (-1, [])) := by
    cases h1 : mfind mp.ssrc2sessions_ pkt.ssrc with
    | some x =>
      rw [HandleRtpPacket_primary mp env pkt x h1]
      cases h : env.receive_rtp <;> simp [mcontains, h1, MediaPusher.forwarded]
    | none =>
      cases h2 : mfind mp.rtxssrc2sessions_ pkt.ssrc with
      | none =>
        rw [HandleRtpPacket_unknown mp env pkt h1 h2]
        simp [mcontains, h1, h2]
      | some y =>
        rw [HandleRtpPacket_rtx mp env pkt y h1 h2]
        cases h3 : env.receive_rtx <;> cases h4 : env.repeat_ <;>
          by_cases h5 : (env.demux (mp.SetExtensionIds pkt)).ssrc = pkt.ssrc <;>
          by_cases h6 : (env.demux (mp.SetExtensionIds pkt)).payload.length = 0 <;>
          simp [mcontains, h1, h2, h5, h6, MediaPusher.forwarded]
  refine ⟨key.1, key.2.1, key.2.2.1, key.2.2.2, ?_, ?_⟩
  · by_cases he : param.ssrc_ = s
    · subst he
      by_cases hr : param.rtx_ssrc_ = 0 <;>
        simp [MediaPusher.CreateRtpRecvSession, MediaPusher.create, mcontains, minsert, mfind, hr]
    · have he2 : ¬ s = param.ssrc_ := fun e => he e.symm
      by_cases hr : param.rtx_ssrc_ = 0 <;>
        simp [MediaPusher.CreateRtpRecvSession, MediaPusher.create, mcontains, minsert, mfind,
          hr, he, he2]
  · by_cases he : param.rtx_ssrc_ = s
    · subst he
      by_cases hr : param.rtx_ssrc_ = 0 <;>
        simp [MediaPusher.CreateRtpRecvSession, MediaPusher.create, mcontains, minsert, mfind, hr]
    · have he2 : ¬ s = param.rtx_ssrc_ := fun e => he e.symm
      by_cases hr : param.rtx_ssrc_ = 0 <;>
        simp [MediaPusher.CreateRtpRecvSession, MediaPusher.create, mcontains, minsert, mfind,
          hr, he, he2]
/-! ## Timers of pushers and pullers -/

/-- C15: `OnTimer` of a `MediaPusher` emits a PLI only on a tick on which its statistics
    block does not return early: for a video pusher whose last PLI time is set it emits
    one PLI, with sender SSRC 0 and the primary SSRC as media SSRC, exactly when
    `now_ms - last_keyframe_request_ms_ >= 8000` and besides `last_statics_ms_` is -1 or
    at least 5000 ms back, and none otherwise; an audio pusher emits none. So the video
    pusher that logged statistics at 9000 ms and asked for a key frame at 0 ms emits no
    PLI at 10000 ms, 10000 ms after its last one. -/
theorem C15_pli_waits_for_statistics_tick (mp : MediaPusher) (clock now_ms : Int) :
    (mp.OnTimer clock now_ms).2 =
      (if mp.param_.av_type_ = MEDIA_VIDEO_TYPE ∧ 0 ≤ mp.last_keyframe_request_ms_ ∧
          8000 ≤ now_ms - mp.last_keyframe_request_ms_ ∧
          (mp.last_statics_ms_ = -1 ∨ 5000 ≤ now_ms - mp.last_statics_ms_)
       then [.OnTransportSendRtcp 0 mp.param_.ssrc_] else []) ∧
    (mp.param_.av_type_ = MEDIA_AUDIO_TYPE → (mp.OnTimer clock now_ms).2 = []) ∧
    (late_statics_pusher.param_.av_type_ = MEDIA_VIDEO_TYPE ∧
      late_statics_pusher.last_keyframe_request_ms_ = 0 ∧
      late_statics_pusher.last_statics_ms_ = 9000 ∧
      (late_statics_pusher.OnTimer 10000 10000).2 = []) := by
  have main : (mp.OnTimer clock now_ms).2 =
      (if mp.param_.av_type_ = MEDIA_VIDEO_TYPE ∧ 0 ≤ mp.last_keyframe_request_ms_ ∧
          8000 ≤ now_ms - mp.last_keyframe_request_ms_ ∧
          (mp.last_statics_ms_ = -1 ∨ 5000 ≤ now_ms - mp.last_statics_ms_)
       then [.OnTransportSendRtcp 0 mp.param_.ssrc_] else []) := by
    simp only [MediaPusher.OnTimer, MediaPusher.OnTimer_statics, MediaPusher.RequestKeyFrame]
    by_cases hs : mp.last_statics_ms_ = -1
    · by_cases hv : mp.param_.av_type_ = MEDIA_VIDEO_TYPE
      · by_cases hk : mp.last_keyframe_request_ms_ < 0
        · have hk2 : ¬ 0 ≤ mp.last_keyframe_request_ms_ := by omega
          simp [hs, hv, hk, hk2]
        · have hk2 : 0 ≤ mp.last_keyframe_request_ms_ := by omega
          by_cases h8 : 8000 ≤ now_ms - mp.last_keyframe_request_ms_ <;>
            simp [hs, hv, hk, hk2, h8]
      · simp [hs, hv]
    · by_cases h5 : now_ms - mp.last_statics_ms_ < 5000
      · have h5b : ¬ 5000 ≤ now_ms - mp.last_statics_ms_ := by omega
        simp [hs, h5, h5b]
      · have h5b : 5000 ≤ now_ms - mp.last_statics_ms_ := by omega
        by_cases hv : mp.param_.av_type_ = MEDIA_VIDEO_TYPE
        · by_cases hk : mp.last_keyframe_request_ms_ < 0
          · have hk2 : ¬ 0 ≤ mp.last_keyframe_request_ms_ := by omega
            simp [hs, hv, hk, hk2, h5]
          · have hk2 : 0 ≤ mp.last_keyframe_request_ms_ := by omega
            by_cases h8 : 8000 ≤ now_ms - mp.last_keyframe_request_ms_ <;>
              simp [hs, hv, hk, hk2, h8, h5, h5b]
        · simp [hs, hv, h5]
  refine ⟨main, ?_, by decide⟩
  intro ha
  rw [main]
  simp [ha]

/-- C16: `OnTransportSendRtp` of a `MediaPuller` tests `cb_` before it asks
    `IsConnected()` but not before its last line: with a null `cb_`, a packet with a
    payload that the send session accepts is handed to `cb_->OnTransportSendRtp` through
    the null pointer, as for a new puller without transport and the packet with SSRC 100.
    With a `cb_` that is set the call hands the packet to the transport once if the
    payload is not empty, the transport is connected and the send session accepts the
    packet, and hands over nothing otherwise, whatever the three rewrites of the extension
    ids answer; the packet handed over has the SSRC, sequence number, payload type and
    payload of the one that came in. -/
theorem C16_puller_emit_conditions (pl : MediaPuller) (env : SendEnv) (pkt : RtpPacket) :
    (pl.OnTransportSendRtp env pkt = none ↔
      0 < pkt.payload.length ∧ env.cb_ = none ∧ env.send_rtp_packet = true) ∧
    (∀ connected, env.cb_ = some connected →
      pl.OnTransportSendRtp env pkt =
        some (if 0 < pkt.payload.length ∧ connected = true ∧ env.send_rtp_packet = true
          then [.OnTransportSendRtp (pl.UpdateExtensionIds env pkt)] else [])) ∧
    (env.cb_ = none → ¬ (0 < pkt.payload.length ∧ env.send_rtp_packet = true) →
      pl.OnTransportSendRtp env pkt = some []) ∧
    ((pl.UpdateExtensionIds env pkt).ssrc = pkt.ssrc ∧
      (pl.UpdateExtensionIds env pkt).seq = pkt.seq ∧
      (pl.UpdateExtensionIds env pkt).payload_type = pkt.payload_type ∧
      (pl.UpdateExtensionIds env pkt).payload = pkt.payload) ∧
    pl.UpdateExtensionIds
      { env with update_mid := false, update_tcc := false, update_abs := false } pkt = pkt ∧
    (packet100.payload.length = 3 ∧
      fresh_puller.OnTransportSendRtp { cb_ := none, send_rtp_packet := true } packet100 =
        none) := by
  have hupd : (pl.UpdateExtensionIds env pkt).ssrc = pkt.ssrc ∧
      (pl.UpdateExtensionIds env pkt).seq = pkt.seq ∧
      (pl.UpdateExtensionIds env pkt).payload_type = pkt.payload_type ∧
      (pl.UpdateExtensionIds env pkt).payload = pkt.payload := by
    simp only [MediaPuller.UpdateExtensionIds]
    repeat' split
    all_goals exact ⟨rfl, rfl, rfl, rfl⟩
  have hnone : pl.UpdateExtensionIds
      { env with update_mid := false, update_tcc := false, update_abs := false } pkt = pkt := by
    simp [MediaPuller.UpdateExtensionIds]
  refine ⟨?_, ?_, ?_, hupd, hnone, by decide⟩
  · simp only [MediaPuller.OnTransportSendRtp]
    by_cases hp : pkt.payload.length = 0
    · simp [hp]
    · have hp2 : 0 < pkt.payload.length := by omega
      rcases hc : env.cb_ with _ | c
      · cases hsend : env.send_rtp_packet <;> simp [hp, hp2]
      · cases c <;> cases hsend : env.send_rtp_packet <;> simp [hp]
  · intro connected hc
    simp only [MediaPuller.OnTransportSendRtp, hc]
    by_cases hp : pkt.payload.length = 0
    · simp [hp]
    · have hp2 : 0 < pkt.payload.length := by omega
      cases connected <;> cases hsend : env.send_rtp_packet <;> simp [hp, hp2]
  · intro hc hno
    simp only [MediaPuller.OnTransportSendRtp, hc]
    by_cases hp : pkt.payload.length = 0
    · simp [hp]
    · have hp2 : 0 < pkt.payload.length := by omega
      cases hsend : env.send_rtp_packet
      · simp [hp]
      · exact absurd ⟨hp2, hsend⟩ hno

/-- C17: `OnTimer` of a `MediaPuller` calls the timer of the send session once, with the
    time it was given, if `last_statics_ms_` is not negative, and not at all if it is
    negative: the first call after construction only stores the time and returns. -/
theorem C17_first_tick_skips_send_session (pl : MediaPuller) (now_ms : Int) :
    (pl.OnTimer now_ms).2 =
      (if pl.last_statics_ms_ < 0 then [] else [.SendSessionOnTimer now_ms]) ∧
    (pl.last_statics_ms_ < 0 → (pl.OnTimer now_ms).1 = { pl with last_statics_ms_ := now_ms }) ∧
    (fresh_puller.OnTimer 1000).2 = [] ∧
    ((fresh_puller.OnTimer 1000).1.OnTimer 2000).2 = [.SendSessionOnTimer 2000] := by
  refine ⟨?_, ?_, by decide, by decide⟩
  · simp only [MediaPuller.OnTimer]
    split <;> rfl
  · intro h
    simp [MediaPuller.OnTimer, h]
/-! ## Datagrams of a receive relay -/

theorem HandleRtpPacket_relay (r : RtcRecvRelay) (env : DatagramEnv) :
    (r.HandleRtpPacket env).1 = r := by
  simp only [RtcRecvRelay.HandleRtpPacket]
  repeat' split
  all_goals rfl

theorem OnRead_relay (r : RtcRecvRelay) (now : Int) (env : DatagramEnv) (data : List Nat)
    (address : UdpTuple) :
    (r.OnRead now env data address).1 =
      if RtcRecvRelay.DiscardPacketByPercent r.recv_discard_percent_ env.rand_val = false ∧
          data.length ≠ 0 then
        (if env.is_rtcp = false ∧ env.is_rtp = true then
          { r with remote_address_ := address, last_alive_ms_ := now }
         else { r with remote_address_ := address })
      else r := by
  simp only [RtcRecvRelay.OnRead]
  cases hd : RtcRecvRelay.DiscardPacketByPercent r.recv_discard_percent_ env.rand_val
  · by_cases hl : data.length = 0
    · simp [hl]
    · cases hc : env.is_rtcp <;> cases hp : env.is_rtp <;>
        simp [hl, HandleRtpPacket_relay]
  · simp

/-- C18, counterexample: a relay constructed at time 0 reads at time 7 a datagram that
    `IsRtp` takes for RTP and on which `RtpPacket::Parse` throws. Nothing is handed to
    the Room, but `last_alive_ms_` is 7 afterwards. -/
theorem C18_counterexample :
    unparsable_env.is_rtp = true ∧ unparsable_env.parsed = none ∧
    virtual_relay.last_alive_ms_ = 0 ∧
    (virtual_relay.OnRead 7 unparsable_env [128, 96] address_a).2 = [] ∧
    (virtual_relay.OnRead 7 unparsable_env [128, 96] address_a).1.last_alive_ms_ = 7 := by
  decide

/-- C18, amended: `OnRead` sets `last_alive_ms_` to the current time exactly when the
    datagram passes the discard hook, is not empty, is not RTCP and is taken for RTP by
    `IsRtp`, whether or not `RtpPacket::Parse` succeeds on it afterwards; a datagram that
    is discarded, empty, RTCP or of unknown type leaves `last_alive_ms_` as it is. -/
theorem C18_liveness_follows_classification (r : RtcRecvRelay) (now : Int) (env : DatagramEnv)
    (data : List Nat) (address : UdpTuple) :
    (r.OnRead now env data address).1.last_alive_ms_ =
      if RtcRecvRelay.DiscardPacketByPercent r.recv_discard_percent_ env.rand_val = false ∧
          data.length ≠ 0 ∧ env.is_rtcp = false ∧ env.is_rtp = true
      then now else r.last_alive_ms_ := by
  rw [OnRead_relay]
  by_cases h1 : RtcRecvRelay.DiscardPacketByPercent r.recv_discard_percent_ env.rand_val = false ∧
      data.length ≠ 0
  · by_cases h2 : env.is_rtcp = false ∧ env.is_rtp = true
    · rw [if_pos h1, if_pos h2, if_pos ⟨h1.1, h1.2, h2.1, h2.2⟩]
    · rw [if_pos h1, if_neg h2, if_neg (fun h => h2 ⟨h.2.2.1, h.2.2.2⟩)]
  · rw [if_neg h1, if_neg (fun h => h1 ⟨h.1, h.2.1⟩)]

theorem OnRead_percent (r : RtcRecvRelay) (now : Int) (env : DatagramEnv) (data : List Nat)
    (address : UdpTuple) :
    (r.OnRead now env data address).1.recv_discard_percent_ = r.recv_discard_percent_ := by
  rw [OnRead_relay]
  repeat' split
  all_goals rfl

theorem OnRead_remote_address (r : RtcRecvRelay) (d : Datagram) :
    (r.OnRead d.now d.env d.data d.address).1.remote_address_ =
      if d.passes r.recv_discard_percent_ then d.address else r.remote_address_ := by
  rw [OnRead_relay]
  simp only [Datagram.passes]
  by_cases hd : RtcRecvRelay.DiscardPacketByPercent r.recv_discard_percent_ d.env.rand_val = false
  · by_cases hl : d.data.length = 0
    · simp [hl]
    · by_cases hc : d.env.is_rtcp = false ∧ d.env.is_rtp = true <;> simp [hd, hl, hc]
  · simp [hd]

theorem OnRead_all_remote_address (datagrams : List Datagram) (r : RtcRecvRelay) :
    (r.OnRead_all datagrams).recv_discard_percent_ = r.recv_discard_percent_ ∧
    (r.OnRead_all datagrams).remote_address_ =
      last_sender r.recv_discard_percent_ r.remote_address_ datagrams := by
  induction datagrams generalizing r with
  | nil => simp [RtcRecvRelay.OnRead_all, last_sender]
  | cons d rest ih =>
    have h := ih (r.OnRead d.now d.env d.data d.address).1
    simp only [RtcRecvRelay.OnRead_all, List.foldl_cons] at h ⊢
    rw [OnRead_percent, OnRead_remote_address] at h
    refine ⟨h.1, ?_⟩
    rw [h.2]
    simp only [last_sender, List.filter_cons]
    by_cases hp : d.passes r.recv_discard_percent_ = true
    · simp only [hp, if_true, List.map_cons, List.getLast?_cons]
      cases hl : (List.map (fun d => d.address)
        (List.filter (Datagram.passes r.recv_discard_percent_) rest)).getLast? <;> simp
    · simp [hp]

/-- C19, counterexample: a relay reads an RTP datagram from a first address and then a
    datagram that is neither RTP nor RTCP from a second address. Its `remote_address_` is
    the second address afterwards, and the PLI of `RequestKeyFrame` goes there. -/
theorem C19_counterexample :
    (virtual_relay.OnRead_all (two_senders.take 1)).remote_address_ = address_a ∧
    (virtual_relay.OnRead_all two_senders).remote_address_ = address_b ∧
    address_a ≠ address_b ∧
    (virtual_relay.OnRead_all two_senders).RequestKeyFrame 100 = [.UdpWrite 0 100 address_b] := by
  decide

/-- C19, amended: `OnRead` stores the sender address of every datagram that passes the
    discard hook and is not empty, whatever its type, so after a sequence of datagrams
    `remote_address_` is the sender of the last such datagram (and what it was before if
    there is none): a later datagram from another sender replaces it. `RequestKeyFrame`
    writes its PLI, if it writes one, to the `remote_address_` of that moment. -/
theorem C19_remote_address_follows_last_sender (r : RtcRecvRelay) (datagrams : List Datagram)
    (d : Datagram) (ssrc : Nat) :
    (r.OnRead d.now d.env d.data d.address).1.remote_address_ =
      (if d.passes r.recv_discard_percent_ then d.address else r.remote_address_) ∧
    (r.OnRead_all datagrams).remote_address_ =
      last_sender r.recv_discard_percent_ r.remote_address_ datagrams ∧
    (∀ c ∈ r.RequestKeyFrame ssrc, c = .UdpWrite 0 ssrc r.remote_address_) := by
  refine ⟨OnRead_remote_address r d, (OnRead_all_remote_address datagrams r).2, ?_⟩
  intro c hc
  simp only [RtcRecvRelay.RequestKeyFrame, RtcRecvRelay.OnTransportSendRtcp] at hc
  repeat' split at hc
  all_goals simp at hc
  exact hc

theorem HandleRtpPacket_session_some (r : RtcRecvRelay) (env : DatagramEnv) (pkt out : RtpPacket)
    (h : r.HandleRtpPacket_session env pkt = some out) :
    out = r.effective env pkt ∧
    (mcontains r.ssrc2recv_session_ pkt.ssrc = true ∨
      (mcontains r.rtx_ssrc2recv_session_ pkt.ssrc = true ∧ env.repeat_ = false)) := by
  simp only [RtcRecvRelay.HandleRtpPacket_session] at h
  cases h1 : mfind r.ssrc2recv_session_ pkt.ssrc with
  | some x =>
    simp only [h1] at h
    cases hr : env.receive_rtp <;> simp [hr] at h
    subst h
    simp [RtcRecvRelay.effective, mcontains, h1]
  | none =>
    simp only [h1] at h
    cases h2 : mfind r.rtx_ssrc2recv_session_ pkt.ssrc with
    | none => simp [h2] at h
    | some y =>
      simp only [h2] at h
      cases hr : env.receive_rtx <;> cases hp : env.repeat_ <;> simp [hr, hp] at h
      obtain ⟨_, h⟩ := h
      subst h
      simp [RtcRecvRelay.effective, mcontains, h1, h2]

/-- C20: for a datagram that parses as the RTP packet `pkt`, `HandleRtpPacket` leaves the
    relay and all its tables as they are and makes at most one call on the Room; a call
    it makes carries the relay's pusher user, the packet after RTX demux, and the
    `pusher_id_` of the `PushInfo` that `ssrc2push_infos_` holds under the SSRC of that
    packet. It makes no call for a packet whose SSRC has neither a primary nor an RTX
    session, for an RTX packet flagged as repeat, for a packet whose payload is empty
    after demux, and for one whose SSRC after demux has no `PushInfo`. -/
theorem C20_relay_dispatch (r : RtcRecvRelay) (env : DatagramEnv) (pkt : RtpPacket)
    (hparsed : env.parsed = some pkt) :
    (r.HandleRtpPacket env).1 = r ∧
    (r.HandleRtpPacket env).2.length ≤ 1 ∧
    (∀ c ∈ (r.HandleRtpPacket env).2, ∃ info,
      mfind r.ssrc2push_infos_ (r.effective env pkt).ssrc = some info ∧
      c = .OnRtpPacketFromRemoteRtcPusher r.pusher_user_id_ info.pusher_id_
            (r.effective env pkt)) ∧
    (mcontains r.ssrc2recv_session_ pkt.ssrc = false ∧
      mcontains r.rtx_ssrc2recv_session_ pkt.ssrc = false → (r.HandleRtpPacket env).2 = []) ∧
    (mcontains r.ssrc2recv_session_ pkt.ssrc = false ∧ env.repeat_ = true →
      (r.HandleRtpPacket env).2 = []) ∧
    ((r.effective env pkt).payload.length = 0 → (r.HandleRtpPacket env).2 = []) ∧
    (mfind r.ssrc2push_infos_ (r.effective env pkt).ssrc = none →
      (r.HandleRtpPacket env).2 = []) := by
  refine ⟨HandleRtpPacket_relay r env, ?_⟩
  cases hs : r.HandleRtpPacket_session env pkt with
  | none =>
    have hval : (r.HandleRtpPacket env).2 = [] := by
      simp [RtcRecvRelay.HandleRtpPacket, hparsed, hs]
    rw [hval]
    simp
  | some out =>
    obtain ⟨hout, hreg⟩ := HandleRtpPacket_session_some r env pkt out hs
    subst hout
    by_cases hp : (r.effective env pkt).payload.length = 0
    · have hval : (r.HandleRtpPacket env).2 = [] := by
        simp [RtcRecvRelay.HandleRtpPacket, hparsed, hs, hp]
      rw [hval]
      simp
    · cases hcb : env.packet2room_cb_
      · have hval : (r.HandleRtpPacket env).2 = [] := by
          simp [RtcRecvRelay.HandleRtpPacket, hparsed, hs, hp, hcb]
        rw [hval]
        simp
      · cases hi : mfind r.ssrc2push_infos_ (r.effective env pkt).ssrc with
        | none =>
          have hval : (r.HandleRtpPacket env).2 = [] := by
            simp [RtcRecvRelay.HandleRtpPacket, hparsed, hs, hp, hcb, hi]
          rw [hval]
          simp
        | some info =>
          have hval : (r.HandleRtpPacket env).2 =
              [.OnRtpPacketFromRemoteRtcPusher r.pusher_user_id_ info.pusher_id_
                (r.effective env pkt)] := by
            simp [RtcRecvRelay.HandleRtpPacket, hparsed, hs, hp, hcb, hi]
          rw [hval]
          refine ⟨by simp, ?_, ?_, ?_, ?_, ?_⟩
          · intro c hc
            exact ⟨info, rfl, by simpa using hc⟩
          · rintro ⟨h1, h2⟩
            rcases hreg with h | ⟨h, _⟩
            · rw [h1] at h; exact absurd h (by decide)
            · rw [h2] at h; exact absurd h (by decide)
          · rintro ⟨h1, h2⟩
            rcases hreg with h | ⟨_, h⟩
            · rw [h1] at h; exact absurd h (by decide)
            · rw [h2] at h; exact absurd h (by decide)
          · intro h
            exact absurd h hp
          · intro h
            exact absurd h (by simp)

/-- C20, witness: the relay that carries SSRC 100 as pusher p reads the packet with SSRC
    100 and hands it to the Room for pusher p. -/
theorem C20_relay_dispatch_witness :
    (virtual_relay.HandleRtpPacket rtp100_env).2 =
      [.OnRtpPacketFromRemoteRtcPusher "u" "p" packet100] ∧
    (virtual_relay.HandleRtpPacket rtp100_env).1 = virtual_relay ∧
    (virtual_relay.HandleRtpPacket rtp100_env).2.length ≤ 1 :=
  ⟨by decide, (C20_relay_dispatch virtual_relay rtp100_env packet100 rfl).1,
    (C20_relay_dispatch virtual_relay rtp100_env packet100 rfl).2.1⟩

/-! ## Registration in the relays -/

theorem mfind_memplace {κ V : Type} [DecidableEq κ] [KeyLt κ] (m : List (κ × V)) (k k2 : κ)
    (v : V) :
    mfind (memplace m k v) k2 = if k = k2 then some ((mfind m k).getD v) else mfind m k2 := by
  unfold memplace
  cases h : mfind m k with
  | none =>
    simp only [mcontains, h, Option.isSome_none, Bool.false_eq_true, if_false, Option.getD_none]
    exact mfind_minsert m k k2 v
  | some old =>
    simp only [mcontains, h, Option.isSome_some, if_true, Option.getD_some]
    by_cases hk : k = k2
    · subst hk
      simp [h]
    · simp [hk]

/-- C21, counterexample: the relay carries pusher p with SSRC 100; `AddVirtualPusher` for
    a PushInfo with the same pusher id and SSRC but payload type 98 returns, and both
    `push_infos_` and `ssrc2push_infos_` still hold the first PushInfo, not the new one. -/
theorem C21_counterexample :
    mfind (virtual_relay.AddVirtualPusher changed_push_info).push_infos_
      changed_push_info.pusher_id_ ≠ some changed_push_info ∧
    mfind (virtual_relay.AddVirtualPusher changed_push_info).ssrc2push_infos_
      changed_push_info.param_.ssrc_ ≠ some changed_push_info ∧
    mfind (virtual_relay.AddVirtualPusher changed_push_info).ssrc2recv_session_
      changed_push_info.param_.ssrc_ ≠ some changed_push_info.recv_session := by
  decide

/-- C21, amended: `AddVirtualPusher(pi)` registers by `emplace`, which keeps an entry that
    is already there. After it `push_infos_` under `pi.pusher_id_` and `ssrc2push_infos_`
    under the SSRC of pi hold the PushInfo that was there before, and pi if there was
    none; `ssrc2recv_session_` under the SSRC and, when `rtx_ssrc_` is not 0,
    `rtx_ssrc2recv_session_` under the RTX SSRC hold the session that was there before,
    and the session built from `pi.param_` if there was none; with `rtx_ssrc_` 0 the RTX
    table is unchanged. Every other key of the four tables keeps its entry. -/
theorem C21_add_virtual_pusher_emplaces (r : RtcRecvRelay) (pi : PushInfo) (k : String)
    (s : Nat) :
    mfind (r.AddVirtualPusher pi).push_infos_ k =
      (if pi.pusher_id_ = k then some ((mfind r.push_infos_ pi.pusher_id_).getD pi)
       else mfind r.push_infos_ k) ∧
    mfind (r.AddVirtualPusher pi).ssrc2push_infos_ s =
      (if pi.param_.ssrc_ = s then some ((mfind r.ssrc2push_infos_ pi.param_.ssrc_).getD pi)
       else mfind r.ssrc2push_infos_ s) ∧
    mfind (r.AddVirtualPusher pi).ssrc2recv_session_ s =
      (if pi.param_.ssrc_ = s then
        some ((mfind r.ssrc2recv_session_ pi.param_.ssrc_).getD pi.recv_session)
       else mfind r.ssrc2recv_session_ s) ∧
    mfind (r.AddVirtualPusher pi).rtx_ssrc2recv_session_ s =
      (if pi.param_.rtx_ssrc_ ≠ 0 ∧ pi.param_.rtx_ssrc_ = s then
        some ((mfind r.rtx_ssrc2recv_session_ pi.param_.rtx_ssrc_).getD pi.recv_session)
       else mfind r.rtx_ssrc2recv_session_ s) := by
  by_cases hr : pi.param_.rtx_ssrc_ = 0
  · simp [RtcRecvRelay.AddVirtualPusher, mfind_memplace, hr, PushInfo.recv_session]
  · simp [RtcRecvRelay.AddVirtualPusher, mfind_memplace, hr, PushInfo.recv_session]

/-! ## Packets and reports of a send relay -/

/-- C22: `SendRtpPacket` of an `RtcSendRelay` writes at most one datagram, the packet
    toward (`remote_ip_`, `remote_port_`); it writes one exactly when the packet's SSRC
    is a key of `ssrc2send_session_` or of `rtx_ssrc2send_session_`, `SendRtpPacket` of
    that session returns true, and the discard hook lets the packet pass. A packet whose
    SSRC has no session is not written, and with `send_discard_percent_` 0 every packet
    a session accepted is written once. -/
theorem C22_send_relay_writes_once (r : RtcSendRelay) (now : Int) (env : SendRelayEnv)
    (pkt : RtpPacket) :
    (r.SendRtpPacket now env pkt).2 =
      (if (mcontains r.ssrc2send_session_ pkt.ssrc = true ∨
            mcontains r.rtx_ssrc2send_session_ pkt.ssrc = true) ∧
          env.send_rtp_packet = some true ∧
          RtcSendRelay.DiscardPacketByPercent r.send_discard_percent_ env.rand_val = false
       then [.UdpWrite pkt { ip_address := r.remote_ip_, port := r.remote_port_ }] else []) ∧
    (r.SendRtpPacket now env pkt).2.length ≤ 1 ∧
    (mcontains r.ssrc2send_session_ pkt.ssrc = false ∧
      mcontains r.rtx_ssrc2send_session_ pkt.ssrc = false →
      r.SendRtpPacket now env pkt = (r, [])) ∧
    (r.send_discard_percent_ = 0 →
      RtcSendRelay.DiscardPacketByPercent r.send_discard_percent_ env.rand_val = false) := by
  have hsess : (r.SendRtpPacket_session now env pkt).2 =
      (if env.send_rtp_packet = some true ∧
          RtcSendRelay.DiscardPacketByPercent r.send_discard_percent_ env.rand_val = false
       then [.UdpWrite pkt { ip_address := r.remote_ip_, port := r.remote_port_ }]
       else []) := by
    simp only [RtcSendRelay.SendRtpPacket_session, RtcSendRelay.OnTransportSendRtp]
    rcases hs : env.send_rtp_packet with _ | b
    · simp
    · cases b
      · simp
      · cases hd : RtcSendRelay.DiscardPacketByPercent r.send_discard_percent_ env.rand_val <;>
          simp
  have hmain : (r.SendRtpPacket now env pkt).2 =
      (if (mcontains r.ssrc2send_session_ pkt.ssrc = true ∨
            mcontains r.rtx_ssrc2send_session_ pkt.ssrc = true) ∧
          env.send_rtp_packet = some true ∧
          RtcSendRelay.DiscardPacketByPercent r.send_discard_percent_ env.rand_val = false
       then [.UdpWrite pkt { ip_address := r.remote_ip_, port := r.remote_port_ }]
       else []) := by
    cases h1 : mfind r.ssrc2send_session_ pkt.ssrc with
    | some x =>
      have hv : r.SendRtpPacket now env pkt = r.SendRtpPacket_session now env pkt := by
        simp [RtcSendRelay.SendRtpPacket, h1]
      rw [hv, hsess]
      simp [mcontains, h1]
    | none =>
      cases h2 : mfind r.rtx_ssrc2send_session_ pkt.ssrc with
      | some y =>
        have hv : r.SendRtpPacket now env pkt = r.SendRtpPacket_session now env pkt := by
          simp [RtcSendRelay.SendRtpPacket, h1, h2]
        rw [hv, hsess]
        simp [mcontains, h1, h2]
      | none =>
        have hv : r.SendRtpPacket now env pkt = (r, []) := by
          simp [RtcSendRelay.SendRtpPacket, h1, h2]
        rw [hv]
        simp [mcontains, h1, h2]
  refine ⟨hmain, ?_, ?_, ?_⟩
  · rw [hmain]
    split <;> simp
  · rintro ⟨h1, h2⟩
    simp [mcontains] at h1 h2
    simp [RtcSendRelay.SendRtpPacket, h1, h2]
  · intro h0
    simp [RtcSendRelay.DiscardPacketByPercent, h0]

theorem HandleRtcpRrPacket_loop_takeWhile (r : RtcSendRelay) (blocks : List RtcpRrBlockInfo) :
    r.HandleRtcpRrPacket_loop blocks =
      (blocks.takeWhile (fun b => mcontains r.ssrc2send_session_ b.reportee_ssrc)).map
        (fun b => SendRelayCall.RecvRtcpRrBlock b.reportee_ssrc b) := by
  induction blocks with
  | nil => rfl
  | cons b rest ih =>
    cases h : mfind r.ssrc2send_session_ b.reportee_ssrc with
    | none => simp [RtcSendRelay.HandleRtcpRrPacket_loop, h, mcontains, List.takeWhile_cons]
    | some x =>
      simp [RtcSendRelay.HandleRtcpRrPacket_loop, h, mcontains, List.takeWhile_cons, ih]

/-- C23: `HandleRtcpRrPacket` hands the report blocks to their send sessions in order and
    stops at the first block whose reportee SSRC is no key of `ssrc2send_session_`: the
    blocks delivered are those before that block, and no block after it is delivered,
    whether its SSRC is known or not. So of a report with a block for the unknown SSRC
    999 followed by a block for the registered SSRC 100 nothing is delivered. -/
theorem C23_report_stops_at_unknown_reportee (r : RtcSendRelay)
    (blocks : List RtcpRrBlockInfo) :
    r.HandleRtcpRrPacket (some blocks) =
      (blocks.takeWhile (fun b => mcontains r.ssrc2send_session_ b.reportee_ssrc)).map
        (fun b => SendRelayCall.RecvRtcpRrBlock b.reportee_ssrc b) ∧
    (mcontains video_send_relay.ssrc2send_session_ 100 = true ∧
      mcontains video_send_relay.ssrc2send_session_ 999 = false ∧
      video_send_relay.HandleRtcpRrPacket (some mixed_report) = [] ∧
      video_send_relay.HandleRtcpRrPacket (some mixed_report.reverse) =
        [.RecvRtcpRrBlock 100 { reportee_ssrc := 100, body := [2] }]) := by
  refine ⟨?_, by decide⟩
  simp only [RtcSendRelay.HandleRtcpRrPacket]
  exact HandleRtcpRrPacket_loop_takeWhile r blocks

/-! ## Key frame requests -/

/-- C24: `OnKeyFrameRequest` reads `user->second` of the iterator `users_.find` returned
    without comparing it with `users_.end()`: the call goes through the end iterator
    exactly when `pusher_user_id` is no key of `users_`, as in a new Room for the user x.
    For a remote user it leaves the Room as it is and hands the request to the receive
    relay of that user, if there is one; for a local user it hands it to the MediaPusher
    under `pusher_id`, if there is one, and changes nothing but that pusher. -/
theorem C24_key_frame_request_unknown_user (r : Room) (clock : Int)
    (pusher_id puller_user_id pusher_user_id : String) (ssrc : Nat) :
    (r.OnKeyFrameRequest clock pusher_id puller_user_id pusher_user_id ssrc = none ↔
      mfind r.users_ pusher_user_id = none) ∧
    (∀ user, mfind r.users_ pusher_user_id = some user → user.remote_ = true →
      r.OnKeyFrameRequest clock pusher_id puller_user_id pusher_user_id ssrc =
        some (r, match (mfind r.pusher_user_id2recvRelay_ pusher_user_id).bind
                    (fun relay_ptr => r.recv_relay_heap_.get? relay_ptr) with
                 | some relay => (relay.RequestKeyFrame ssrc).map .Relay
                 | none => [])) ∧
    (∀ user, mfind r.users_ pusher_user_id = some user → user.remote_ = false →
      r.OnKeyFrameRequest clock pusher_id puller_user_id pusher_user_id ssrc =
        match mfind r.pusherId2pusher_ pusher_id with
        | some media_pusher =>
          some ({ r with
                  pusherId2pusher_ :=
                    minsert r.pusherId2pusher_ pusher_id
                      (media_pusher.RequestKeyFrame clock ssrc).1 },
                [.Pusher (.OnTransportSendRtcp 0 ssrc)])
        | none => some (r, [])) ∧
    (Room.create "R" false 0).OnKeyFrameRequest 5 "p" "b" "x" 100 = none := by
  refine ⟨?_, ?_, ?_, by decide⟩
  · cases hu : mfind r.users_ pusher_user_id with
    | none => simp [Room.OnKeyFrameRequest, hu]
    | some user =>
      simp only [Room.OnKeyFrameRequest, hu]
      repeat' split
      all_goals simp
  · intro user hu hrem
    simp only [Room.OnKeyFrameRequest, hu, hrem, if_true]
    cases h1 : mfind r.pusher_user_id2recvRelay_ pusher_user_id with
    | none => simp
    | some ptr =>
      simp only [Option.some_bind, List.get?_eq_getElem?]
      cases h2 : r.recv_relay_heap_[ptr]? <;> simp
  · intro user hu hrem
    simp only [Room.OnKeyFrameRequest, hu, hrem, Bool.false_eq_true, if_false]
    cases h1 : mfind r.pusherId2pusher_ pusher_id with
    | none => simp
    | some mp => simp [MediaPusher.RequestKeyFrame]
/-! ## A push offer of an unknown user -/

theorem mmodify_of_mfind_none {κ V : Type} [DecidableEq κ] (m : List (κ × V)) (k : κ)
    (f : V → V) (h : mfind m k = none) : mmodify m k f = m := by
  induction m with
  | nil => rfl
  | cons hd tl ih =>
    obtain ⟨k', v'⟩ := hd
    by_cases h1 : k' = k
    · simp [mfind, h1] at h
    · simp only [mfind, h1, if_false] at h
      simp [mmodify, h1, ih h]

theorem HandlePushSdp_loop_users_absent (now : Int) (user_id session_id : String)
    (items : List (RtpSessionParam × String)) (acc : Room × List MediaPusher)
    (h : mfind acc.1.users_ user_id = none) :
    (items.foldl (Room.HandlePushSdp_step now user_id session_id) acc).1.users_ =
      acc.1.users_ := by
  induction items generalizing acc with
  | nil => rfl
  | cons item rest ih =>
    simp only [List.foldl_cons]
    have hstep : (Room.HandlePushSdp_step now user_id session_id acc item).1.users_ =
        acc.1.users_ := by
      simp only [Room.HandlePushSdp_step, foldl_insert_pushers]
      exact mmodify_of_mfind_none _ _ _ h
    rw [ih _ (by rw [hstep]; exact h), hstep]

/-- C25: `HandlePushSdp` for a `user_id` that is not in `users_`, with an answer SDP that
    carries at least one stream, returns -1 only at its last lookup: before that it has
    filed a MediaPusher in `pusherId2pusher_` under the id of every stream and has sent
    the response with code 0 to the caller. `users_` is as before. -/
theorem C25_push_of_unknown_user (r : Room) (now : Int) (user_id : String) (env : PushSdpEnv)
    (id : Int) (cb : RespCb) (hu : mfind r.users_ user_id = none)
    (hans : env.answer_sdp = true) (hne : env.rtp_params ≠ []) :
    (r.HandlePushSdp now user_id env id cb).ret = -1 ∧
    protoo_responses (r.HandlePushSdp now user_id env id cb).events = [(cb, id, 0)] ∧
    (∀ item ∈ env.rtp_params,
      mcontains (r.HandlePushSdp now user_id env id cb).room.pusherId2pusher_ item.2 = true) ∧
    (r.HandlePushSdp now user_id env id cb).room.users_ = r.users_ := by
  have husers := HandlePushSdp_loop_users_absent now user_id env.session_id env.rtp_params
    ({ r with last_alive_ms_ := now }, []) hu
  have hfind : mfind (env.rtp_params.foldl (Room.HandlePushSdp_step now user_id env.session_id)
      ({ r with last_alive_ms_ := now }, [])).1.users_ user_id = none := by
    rw [husers]; exact hu
  have hempty : env.rtp_params.isEmpty = false := by
    cases hp : env.rtp_params with
    | nil => exact absurd hp hne
    | cons _ _ => rfl
  have hout : r.HandlePushSdp now user_id env id cb =
      { room := (env.rtp_params.foldl (Room.HandlePushSdp_step now user_id env.session_id)
          ({ r with last_alive_ms_ := now }, [])).1,
        events := [Event.OnProtooResponse cb id 0 ""
          ((((Json.obj []).set "code" (.num 0)).set "message" (.str "push success")).set "sdp"
            (.str env.answer_sdp_str))],
        ret := -1 } := by
    simp only [Room.HandlePushSdp, hans, hempty, hfind]
    simp
  refine ⟨by rw [hout], by rw [hout]; rfl, ?_, by rw [hout]; exact husers⟩
  intro item hitem
  rw [hout]
  exact (HandlePushSdp_loop_tables now user_id env.session_id env.rtp_params
    ({ r with last_alive_ms_ := now }, [])).2.2 item.2 (Or.inr ⟨item, hitem, rfl⟩)

/-- C25, witness: a new Room without users gets the push offer of the unknown user
    ghost. -/
theorem C25_push_of_unknown_user_witness :
    ((Room.create "R" false 0).HandlePushSdp 5 "ghost" one_stream_env 1 10).ret = -1 ∧
    protoo_responses ((Room.create "R" false 0).HandlePushSdp 5 "ghost" one_stream_env 1
      10).events = [(10, 1, 0)] ∧
    (∀ item ∈ one_stream_env.rtp_params,
      mcontains ((Room.create "R" false 0).HandlePushSdp 5 "ghost" one_stream_env 1
        10).room.pusherId2pusher_ item.2 = true) ∧
    ((Room.create "R" false 0).HandlePushSdp 5 "ghost" one_stream_env 1 10).room.users_ =
      (Room.create "R" false 0).users_ :=
  C25_push_of_unknown_user (Room.create "R" false 0) 5 "ghost" one_stream_env 1 10 rfl rfl
    (by decide)
/-! ## Responses of the signaling handlers -/

theorem merase_mmodify {κ V : Type} [DecidableEq κ] (m : List (κ × V)) (k : κ) (f : V → V) :
    merase (mmodify m k f) k = merase m k := by
  induction m with
  | nil => rfl
  | cons hd tl ih =>
    obtain ⟨k', v'⟩ := hd
    by_cases h1 : k' = k
    · simp [mmodify, merase, h1]
    · simp only [merase] at ih
      simp [mmodify, merase, h1, List.filter_cons, ih]

theorem ReleaseUserResources_users (r : Room) (now : Int) (u : String) :
    (r.ReleaseUserResources now u).1.users_ = merase r.users_ u := by
  cases hu : mfind r.users_ u with
  | none =>
    rw [ReleaseUserResources_absent r now u hu, merase_of_mfind_none _ _ hu]
  | some usr =>
    rw [ReleaseUserResources_present r now u usr hu]
    exact merase_mmodify _ _ _

theorem release_fold_users (now : Int) (ids : List String) (acc : Room × List Event) :
    (ids.foldl (fun (acc : Room × List Event) user_id =>
      let step := Room.ReleaseUserResources acc.1 now user_id
      (step.1, acc.2 ++ step.2)) acc).1.users_ = ids.foldl merase acc.1.users_ := by
  induction ids generalizing acc with
  | nil => rfl
  | cons v rest ih =>
    simp only [List.foldl_cons]
    rw [ih]
    simp only [ReleaseUserResources_users]

theorem foldl_merase_filter {κ V : Type} [DecidableEq κ] (ids : List κ) (m : List (κ × V)) :
    ids.foldl merase m = m.filter (fun e => decide (e.1 ∉ ids)) := by
  induction ids generalizing m with
  | nil => simp
  | cons v rest ih =>
    simp only [List.foldl_cons]
    rw [ih]
    simp only [merase, List.filter_filter]
    apply List.filter_congr
    intro e _
    by_cases h1 : e.1 = v <;> by_cases h2 : e.1 ∈ rest <;> simp [h1, h2]

theorem OnTimer_users (r : Room) (now : Int) :
    (r.OnTimer now).1.users_ =
      (r.users_.filterMap (fun pair =>
        if pair.2.remote_ then none
        else if !pair.2.IsAlive now then some pair.1
        else none)).foldl merase r.users_ := by
  simp only [Room.OnTimer, foldl_erase_recv, foldl_erase_recv_user]
  have h1 : (if (!r.users_.isEmpty) = true then { r with last_alive_ms_ := now } else r).users_ =
      r.users_ := by
    split <;> rfl
  rw [release_fold_users, h1]

/-- C27: for a Room whose `users_` has pairwise distinct keys, as a `std::map` has, one
    `OnTimer` tick leaves in `users_` exactly the entries of the users that are remote or
    alive at the tick, each as it was, and removes every local user that is not alive. -/
theorem C27_timer_removes_dead_local_users (r : Room) (now : Int)
    (hkeys : (mkeys r.users_).Nodup) :
    (r.OnTimer now).1.users_ =
      r.users_.filter (fun e => e.2.remote_ || e.2.IsAlive now) ∧
    (∀ u usr, mfind r.users_ u = some usr → usr.remote_ = false → usr.IsAlive now = false →
      mfind (r.OnTimer now).1.users_ u = none) := by
  have hfilter : (r.OnTimer now).1.users_ =
      r.users_.filter (fun e => e.2.remote_ || e.2.IsAlive now) := by
    rw [OnTimer_users, foldl_merase_filter]
    apply List.filter_congr
    intro e he
    cases hrem : e.2.remote_ <;> cases halive : e.2.IsAlive now
    · have hin : e.1 ∈ r.users_.filterMap (fun pair =>
          if pair.2.remote_ then none
          else if !pair.2.IsAlive now then some pair.1
          else none) := by
        simp only [List.mem_filterMap]
        exact ⟨e, he, by simp [hrem, halive]⟩
      simp only [Bool.or_self, decide_eq_false_iff_not, not_not]
      exact hin
    all_goals
      simp only [Bool.or_true, Bool.true_or, Bool.or_false, decide_eq_true_eq]
      intro hin
      simp only [List.mem_filterMap] at hin
      obtain ⟨e2, he2, hval⟩ := hin
      have hk : e2.1 = e.1 := by
        split at hval
        · simp at hval
        · split at hval
          · simpa using hval
          · simp at hval
      have heq : e2 = e := List.inj_on_of_nodup_map hkeys he2 he hk
      subst heq
      simp [hrem, halive] at hval
  refine ⟨hfilter, ?_⟩
  intro u usr hu hrem halive
  rw [hfilter]
  apply mfind_none_of_forall_ne
  intro e he hk
  simp only [List.mem_filter] at he
  have heq : e = (u, usr) :=
    List.inj_on_of_nodup_map hkeys he.1 (mfind_some_mem _ _ _ hu) hk
  subst heq
  simp [hrem, halive] at he

/-- C27, witness: of the local users a (last heard at 0 ms) and b (at 30000 ms) and the
    remote user c, the tick at 50000 ms removes a and keeps b and c. -/
theorem C27_timer_removes_dead_local_users_witness :
    mkeys timer_room.users_ = ["a", "b", "c"] ∧
    mkeys (timer_room.OnTimer 50000).1.users_ = ["b", "c"] ∧
    (timer_room.OnTimer 50000).1.users_ =
      timer_room.users_.filter (fun e => e.2.remote_ || e.2.IsAlive 50000) :=
  ⟨by decide, by decide, (C27_timer_removes_dead_local_users timer_room 50000 (by decide)).1⟩
/-! ## Remote users that leave -/

/-- C28, counterexample: the Room holds the remote user c; after the pilot's leave
    notification for c, and after its disconnect notification for c, `users_` is what it
    was and c is still in it. -/
theorem C28_counterexample :
    (mfind timer_room.users_ "c").map RtcUser.remote_ = some true ∧
    (timer_room.HandleUserLeaveNotificationFromCenter gone_c).1.users_ = timer_room.users_ ∧
    (timer_room.HandleUserDisconnectNotificationFromCenter gone_c).1.users_ =
      timer_room.users_ ∧
    mcontains (timer_room.HandleUserLeaveNotificationFromCenter gone_c).1.users_ "c" = true ∧
    mcontains (timer_room.HandleUserDisconnectNotificationFromCenter gone_c).1.users_ "c" =
      true := by
  decide

/-- C28, amended: `HandleUserLeaveNotificationFromCenter` and
    `HandleUserDisconnectNotificationFromCenter` never change the Room: the user they name
    stays in `users_` with its PushInfos, whether it is remote or local. For a user that
    is local or not in `users_` they make no call; for a remote user every call they make
    is a notification to a user of the Room, "userLeave" for the one and "userDisconnect"
    for the other. -/
theorem C28_pilot_leave_keeps_user (r : Room) (data_json : Json) (u : String) :
    (r.HandleUserLeaveNotificationFromCenter data_json).1 = r ∧
    (r.HandleUserDisconnectNotificationFromCenter data_json).1 = r ∧
    (Room.json_string data_json "userId" = some u →
      (mfind r.users_ u).map RtcUser.remote_ ≠ some true →
      (r.HandleUserLeaveNotificationFromCenter data_json).2 = [] ∧
      (r.HandleUserDisconnectNotificationFromCenter data_json).2 = []) ∧
    (∀ e ∈ (r.HandleUserLeaveNotificationFromCenter data_json).2,
      ∃ cb data, e = Event.Notification cb "userLeave" data) ∧
    (∀ e ∈ (r.HandleUserDisconnectNotificationFromCenter data_json).2,
      ∃ cb data, e = Event.Notification cb "userDisconnect" data) := by
  refine ⟨?_, ?_, ?_, ?_, ?_⟩
  · simp only [Room.HandleUserLeaveNotificationFromCenter]
    repeat' split
    all_goals rfl
  · simp only [Room.HandleUserDisconnectNotificationFromCenter]
    repeat' split
    all_goals rfl
  · intro hj hloc
    cases hu : mfind r.users_ u with
    | none =>
      simp [Room.HandleUserLeaveNotificationFromCenter,
        Room.HandleUserDisconnectNotificationFromCenter, hj, hu]
    | some usr =>
      have hrem : usr.remote_ = false := by
        cases h : usr.remote_
        · rfl
        · simp [hu, h] at hloc
      simp [Room.HandleUserLeaveNotificationFromCenter,
        Room.HandleUserDisconnectNotificationFromCenter, hj, hu, hrem]
  · intro e he
    simp only [Room.HandleUserLeaveNotificationFromCenter] at he
    repeat' split at he
    all_goals first
      | (simp at he; done)
      | (simp only [List.mem_filterMap] at he
         obtain ⟨pair, _, hpair⟩ := he
         repeat' split at hpair
         all_goals first
           | (simp at hpair; done)
           | (simp only [Option.some.injEq] at hpair; exact ⟨_, _, hpair.symm⟩))
  · intro e he
    simp only [Room.HandleUserDisconnectNotificationFromCenter] at he
    repeat' split at he
    all_goals first
      | (simp at he; done)
      | (simp only [List.mem_filterMap] at he
         obtain ⟨pair, _, hpair⟩ := he
         repeat' split at hpair
         all_goals first
           | (simp at hpair; done)
           | (simp only [Option.some.injEq] at hpair; exact ⟨_, _, hpair.symm⟩))
/-! ## The answer of a pull -/

theorem forall2_comp {α β γ : Type} {R : α → β → Prop} {S : β → γ → Prop} {T : α → γ → Prop}
    (h : ∀ a b c, R a b → S b c → T a c) :
    ∀ {l1 : List α} {l2 : List β} {l3 : List γ},
      List.Forall₂ R l1 l2 → List.Forall₂ S l2 l3 → List.Forall₂ T l1 l3 := by
  intro l1 l2 l3 h12
  induction h12 generalizing l3 with
  | nil =>
    intro h23
    cases h23
    exact List.Forall₂.nil
  | cons hab _ ih =>
    intro h23
    cases h23 with
    | cons hbc hrest => exact List.Forall₂.cons (h _ _ _ hab hbc) (ih hrest)

theorem UpdateRtcSdpByPullers_section_pulled (param : RtpSessionParam) (stream_id : String)
    (a : RtcSdpMediaSection) :
    pulled_section param stream_id a (Room.UpdateRtcSdpByPullers_section param stream_id a) := by
  refine ⟨rfl, rfl, ?_, ?_⟩
  · intro s
    simp only [Room.UpdateRtcSdpByPullers_section, ssrc_info_of]
    by_cases hr : param.rtx_ssrc_ = 0
    · by_cases hs : param.ssrc_ = s <;> simp [hr, hs, mfind_minsert, mfind]
    · by_cases hrs : param.rtx_ssrc_ = s
      · subst hrs
        simp [hr, mfind_minsert_self]
      · by_cases hs : param.ssrc_ = s <;> simp [hr, hrs, hs, mfind_minsert, mfind]
  · intro k
    simp only [Room.UpdateRtcSdpByPullers_section, mfind_minsert, codec_of]

theorem UpdateRtcSdpByPullers_sections_rel (pl : MediaPuller) (uuid : Nat → String)
    (secs : U32Map RtcSdpMediaSection) (n : Nat) :
    List.Forall₂ (fun a b => b.1 = a.1 ∧
        (if a.2.media_type_ = pl.GetMediaType then
          ∃ stream_id, b.2 = Room.UpdateRtcSdpByPullers_section pl.param_ stream_id a.2
         else b = a))
      secs (Room.UpdateRtcSdpByPullers_sections pl uuid secs n).1 := by
  induction secs generalizing n with
  | nil => exact List.Forall₂.nil
  | cons hd tl ih =>
    obtain ⟨key, sec⟩ := hd
    by_cases hm : sec.media_type_ = pl.GetMediaType
    · simp only [Room.UpdateRtcSdpByPullers_sections, hm, if_true]
      refine List.Forall₂.cons ⟨rfl, ?_⟩ (ih (n + 1))
      simp only [hm, if_true]
      exact ⟨uuid n, rfl⟩
    · simp only [Room.UpdateRtcSdpByPullers_sections, hm, if_false]
      refine List.Forall₂.cons ⟨rfl, ?_⟩ (ih n)
      simp only [hm, if_false]

theorem pulled_by_step (pullers : List MediaPuller) (pl : MediaPuller)
    (a b c : Nat × RtcSdpMediaSection) (hab : pulled_by pullers a b)
    (hbc : c.1 = b.1 ∧
      (if b.2.media_type_ = pl.GetMediaType then
        ∃ stream_id, c.2 = Room.UpdateRtcSdpByPullers_section pl.param_ stream_id b.2
       else c = b)) :
    pulled_by (pullers ++ [pl]) a c := by
  obtain ⟨hk, hty, hnone, hsome, hkeep⟩ := hab
  obtain ⟨hk2, hstep⟩ := hbc
  by_cases hm : b.2.media_type_ = pl.GetMediaType
  · simp only [hm, if_true] at hstep
    obtain ⟨sid, hc⟩ := hstep
    have hp := UpdateRtcSdpByPullers_section_pulled pl.param_ sid b.2
    rw [← hc] at hp
    obtain ⟨hp1, hp2, hp3, hp4⟩ := hp
    refine ⟨hk2.trans hk, hp1.trans hty, ?_, ?_, ?_⟩
    · intro hall
      exact absurd (hm.symm.trans hty) (hall pl (by simp))
    · intro _
      refine ⟨hp2, pl, by simp, hm.symm.trans hty, sid, hp3, ?_⟩
      rw [hp4]
      simp
    · intro k hk3
      rw [hp4]
      split
      · rfl
      · exact hkeep k hk3
  · simp only [hm, if_false] at hstep
    subst hstep
    refine ⟨hk, hty, ?_, ?_, hkeep⟩
    · intro hall
      exact hnone (fun q hq => hall q (by simp [hq]))
    · rintro ⟨q, hq, hqt⟩
      simp only [List.mem_append, List.mem_singleton] at hq
      rcases hq with hq | hq
      · obtain ⟨hd, q2, hq2, hq2t, sid, h1, h2⟩ := hsome ⟨q, hq, hqt⟩
        exact ⟨hd, q2, by simp [hq2], hq2t, sid, h1, h2⟩
      · subst hq
        exact absurd (hty.trans hqt.symm) hm

theorem UpdateRtcSdpByPullers_fold (uuid : Nat → String) (pullers : List MediaPuller)
    (sdp : RtcSdp) :
    List.Forall₂ (pulled_by pullers) sdp.media_sections_
      (pullers.foldl (fun (acc : RtcSdp × Nat) media_puller =>
        let sections :=
          Room.UpdateRtcSdpByPullers_sections media_puller uuid acc.1.media_sections_ acc.2
        (({ media_sections_ := sections.1 } : RtcSdp), sections.2))
        (sdp, 0)).1.media_sections_ := by
  induction pullers using List.reverseRecOn with
  | nil =>
    simp only [List.foldl_nil]
    apply List.forall₂_same.mpr
    intro a _
    exact ⟨rfl, rfl, fun _ => rfl, fun h => by simp at h, fun _ h => h⟩
  | append_singleton init pl ih =>
    simp only [List.foldl_append, List.foldl_cons, List.foldl_nil]
    exact forall2_comp (pulled_by_step init pl) ih
      (UpdateRtcSdpByPullers_sections_rel pl uuid _ _)

/-- C29, counterexample: the answer has one video section with the codecs 96 and 98; after
    `UpdateRtcSdpByPullers` for one video puller with payload type 96 the section still
    has both codecs, the one of the puller under 96 and the old one under 98. -/
theorem C29_counterexample :
    (Room.UpdateRtcSdpByPullers [fresh_puller] two_codec_sdp (fun _ => "m")).media_sections_.map
      (fun e => (e.2.direction_, mkeys e.2.ssrc_infos_, mkeys e.2.media_codecs_)) =
      [(.DIRECTION_SENDONLY, [100, 101], [96, 98])] ∧
    (Room.UpdateRtcSdpByPullers [fresh_puller] two_codec_sdp (fun _ => "m")).media_sections_.map
      (fun e => (mfind e.2.media_codecs_ 98).map (fun c => c.codec_name_)) = [some "VP8"] := by
  decide

/-- C29, amended: `UpdateRtcSdpByPullers` keeps the media sections of the answer, their
    keys and their media types. A section whose media type no puller has is unchanged. A
    section whose media type some puller has gets direction sendonly and the SSRC entries
    of one such puller: its primary SSRC marked main and, when
    `rtx_ssrc` is not 0, its RTX SSRC with the same stream id, and no others. Its codecs
    are not replaced as a whole: the codec built from the puller's parameters is stored
    under the puller's payload type, and every codec the section had under another
    payload type stays. For a single puller the section is exactly that. -/
theorem C29_pull_answer_sections (media_pullers : List MediaPuller) (media_puller : MediaPuller)
    (answer_sdp : RtcSdp) (uuid : Nat → String) :
    List.Forall₂ (pulled_by media_pullers) answer_sdp.media_sections_
      (Room.UpdateRtcSdpByPullers media_pullers answer_sdp uuid).media_sections_ ∧
    List.Forall₂ (fun a b => b.1 = a.1 ∧
        (if a.2.media_type_ = media_puller.GetMediaType then
          ∃ stream_id, pulled_section media_puller.param_ stream_id a.2 b.2
         else b = a))
      answer_sdp.media_sections_
      (Room.UpdateRtcSdpByPullers [media_puller] answer_sdp uuid).media_sections_ := by
  refine ⟨UpdateRtcSdpByPullers_fold uuid media_pullers answer_sdp, ?_⟩
  simp only [Room.UpdateRtcSdpByPullers, List.foldl_cons, List.foldl_nil]
  refine List.Forall₂.imp ?_ (UpdateRtcSdpByPullers_sections_rel media_puller uuid _ 0)
  intro a b hab
  refine ⟨hab.1, ?_⟩
  have h2 := hab.2
  split
  · rename_i hm
    simp only [hm, if_true] at h2
    obtain ⟨sid, hb⟩ := h2
    exact ⟨sid, by rw [hb]; exact UpdateRtcSdpByPullers_section_pulled _ _ _⟩
  · rename_i hm
    simpa only [hm, if_false] using h2
/-! ## The endpoint of a send relay -/

theorem AddPushInfo_endpoint (relay : RtcSendRelay) (pi : PushInfo) :
    (relay.AddPushInfo pi).remote_ip_ = relay.remote_ip_ ∧
    (relay.AddPushInfo pi).remote_port_ = relay.remote_port_ := by
  simp only [RtcSendRelay.AddPushInfo]
  split <;> exact ⟨rfl, rfl⟩

/-- C30: for a well-formed notification, `HandlePullRemoteStreamNotificationFromCenter`
    leaves under `pusher_user_id` the relay that was there before, or a new relay toward
    the `udp_ip` and `udp_port` of the notification if there was none, with the PushInfo
    of the notification added. So a relay that exists keeps its `remote_ip_` and
    `remote_port_` whatever endpoint the notification names, and the relays of other
    users are untouched. -/
theorem C30_send_relay_keeps_endpoint (r : Room) (now : Int) (env : RelayEnv) (data_json : Json)
    (udp_ip : String) (udp_port : Int) (pusher_user_id pusher_id : String)
    (rtp_param_json : Json) (rtp_param : RtpSessionParam)
    (hip : Room.json_string data_json "udp_ip" = some udp_ip)
    (hport : (data_json.get "udp_port").bind Json.get_int = some udp_port)
    (huid : Room.json_string data_json "pusher_user_id" = some pusher_user_id)
    (hpid : Room.json_string ((data_json.find "pushInfo").getD .null) "pusherId" =
      some pusher_id)
    (hpj : ((data_json.find "pushInfo").getD .null).find "rtpParam" = some rtp_param_json)
    (hobj : rtp_param_json.is_object = true)
    (hparam : RtpSessionParam.FromJson {} rtp_param_json = some rtp_param) :
    mfind (r.HandlePullRemoteStreamNotificationFromCenter now env
        data_json).pusher_user_id2sendRelay_ pusher_user_id =
      some (((mfind r.pusher_user_id2sendRelay_ pusher_user_id).getD
        (RtcSendRelay.create r.room_id_ pusher_user_id udp_ip (udp_port % 65536).toNat env
          now)).AddPushInfo { pusher_id_ := pusher_id, param_ := rtp_param }) ∧
    (∀ old, mfind r.pusher_user_id2sendRelay_ pusher_user_id = some old →
      ∃ relay, mfind (r.HandlePullRemoteStreamNotificationFromCenter now env
          data_json).pusher_user_id2sendRelay_ pusher_user_id = some relay ∧
        relay = old.AddPushInfo { pusher_id_ := pusher_id, param_ := rtp_param } ∧
        relay.remote_ip_ = old.remote_ip_ ∧ relay.remote_port_ = old.remote_port_) ∧
    (∀ k, k ≠ pusher_user_id →
      mfind (r.HandlePullRemoteStreamNotificationFromCenter now env
          data_json).pusher_user_id2sendRelay_ k = mfind r.pusher_user_id2sendRelay_ k) := by
  have hval : (r.HandlePullRemoteStreamNotificationFromCenter now env
      data_json).pusher_user_id2sendRelay_ =
      mmodify
        (match mfind r.pusher_user_id2sendRelay_ pusher_user_id with
          | none => minsert r.pusher_user_id2sendRelay_ pusher_user_id
              (RtcSendRelay.create r.room_id_ pusher_user_id udp_ip (udp_port % 65536).toNat env
                now)
          | some _ => r.pusher_user_id2sendRelay_)
        pusher_user_id
        (fun relay => relay.AddPushInfo { pusher_id_ := pusher_id, param_ := rtp_param }) := by
    simp only [Room.HandlePullRemoteStreamNotificationFromCenter, hip, hport, huid, hpid, hpj,
      hobj, hparam]
    cases hold : mfind r.pusher_user_id2sendRelay_ pusher_user_id <;> simp
  have hmain : mfind (r.HandlePullRemoteStreamNotificationFromCenter now env
        data_json).pusher_user_id2sendRelay_ pusher_user_id =
      some (((mfind r.pusher_user_id2sendRelay_ pusher_user_id).getD
        (RtcSendRelay.create r.room_id_ pusher_user_id udp_ip (udp_port % 65536).toNat env
          now)).AddPushInfo { pusher_id_ := pusher_id, param_ := rtp_param }) := by
    rw [hval]
    cases hold : mfind r.pusher_user_id2sendRelay_ pusher_user_id with
    | none => simp [mfind_mmodify, mfind_minsert_self]
    | some old => simp [mfind_mmodify, hold]
  refine ⟨hmain, ?_, ?_⟩
  · intro old hold
    rw [hmain, hold]
    exact ⟨_, rfl, rfl, (AddPushInfo_endpoint old _).1, (AddPushInfo_endpoint old _).2⟩
  · intro k hk
    rw [hval]
    have hk2 : ¬ pusher_user_id = k := fun e => hk e.symm
    cases hold : mfind r.pusher_user_id2sendRelay_ pusher_user_id with
    | none => simp [mfind_mmodify, hk2, mfind_minsert_ne _ _ _ _ hk2]
    | some old => simp [mfind_mmodify, hk2]

/-- C30, witness: the Room has a send relay for user a toward 10.0.0.7:7000 that carries
    pusher p; a second notification for user a names 10.0.0.8:8000 and pusher q. The relay
    carries p and q afterwards and still sends to 10.0.0.7:7000. -/
theorem C30_send_relay_keeps_endpoint_witness :
    (mfind relayed_room.pusher_user_id2sendRelay_ "a").map
      (fun relay => (relay.remote_ip_, relay.remote_port_, mkeys relay.push_infos_)) =
      some ("10.0.0.7", 7000, ["p"]) ∧
    (mfind (relayed_room.HandlePullRemoteStreamNotificationFromCenter 2 {}
        (pull_notification "10.0.0.8" 8000 "q")).pusher_user_id2sendRelay_ "a").map
      (fun relay => (relay.remote_ip_, relay.remote_port_, mkeys relay.push_infos_)) =
      some ("10.0.0.7", 7000, ["p", "q"]) ∧
    (∀ k, k ≠ "a" →
      mfind (relayed_room.HandlePullRemoteStreamNotificationFromCenter 2 {}
          (pull_notification "10.0.0.8" 8000 "q")).pusher_user_id2sendRelay_ k =
        mfind relayed_room.pusher_user_id2sendRelay_ k) :=
  ⟨by decide, by decide,
    (C30_send_relay_keeps_endpoint relayed_room 2 {} (pull_notification "10.0.0.8" 8000 "q")
      "10.0.0.8" 8000 "a" "q" (video100.Dump (.obj [])) video100.schema_image
      (by decide) (by decide) (by decide) (by decide) rfl rfl (by decide)).2.2⟩

end RTCPilot
